import Mathlib

/-!
# Copy-on-write fork and the page-fault upcall

A shallow embedding of `lib/fork.c` (`pgfault`, `duppage`, `fork`, `sfork`) and of
`page_fault_handler` in `kern/trap.c`, together with the properties of the
specification that concern them.

The user-level code talks to the kernel through system calls.  The kernel side of
those calls (`kern/syscall.c`), the headers `inc/mmu.h`, `inc/memlayout.h`,
`inc/trap.h` and the library routine `memcpy` are not among the sources; each
definition that stands for one of them says so in its doc comment.
-/

namespace JOS

/-! ## Constants of the missing headers -/

/-- Modelled from the spec: `inc/mmu.h` is missing; bytes mapped by one page. -/
def PGSIZE : Nat := 4096

/-- Modelled from the spec: `inc/mmu.h` is missing; log2 of `PGSIZE`. -/
def PGSHIFT : Nat := 12

/-- Modelled from the spec: `inc/mmu.h` is missing; bytes mapped by one page-directory entry. -/
def PTSIZE : Nat := 0x400000

/-- Modelled from the spec: `inc/mmu.h` is missing; the "present" permission bit. -/
def PTE_P : Nat := 0x001

/-- Modelled from the spec: `inc/mmu.h` is missing; the "writable" permission bit. -/
def PTE_W : Nat := 0x002

/-- Modelled from the spec: `inc/mmu.h` is missing; the "user-accessible" permission bit. -/
def PTE_U : Nat := 0x004

/-- The copy-on-write marker, `#define PTE_COW 0x800` of `lib/fork.c`. -/
def PTE_COW : Nat := 0x800

/-- Modelled from the spec: `inc/mmu.h` is missing; the "caused by a write" bit of a
page-fault error code. -/
def FEC_WR : Nat := 0x2

/-- Modelled from the spec: `inc/memlayout.h` is missing; top of user-accessible memory. -/
def UTOP : Nat := 0xeec00000

/-- Modelled from the spec: `inc/memlayout.h` is missing; top of the one-page user
exception stack. -/
def UXSTACKTOP : Nat := UTOP

/-- Modelled from the spec: `inc/memlayout.h` is missing; top of the normal user stack. -/
def USTACKTOP : Nat := UTOP - 2 * PGSIZE

/-- Modelled from the spec: `inc/memlayout.h` is missing; start of the scratch region. -/
def UTEMP : Nat := 0x400000

/-- Modelled from the spec: `inc/memlayout.h` is missing; the fixed temporary address
used by the user fault handler. -/
def PFTEMP : Nat := UTEMP + PTSIZE - PGSIZE

/-- Modelled from the spec: `inc/env.h` is missing; the status of a runnable process. -/
def ENV_RUNNABLE : Nat := 2

/-- Modelled from the spec: `inc/mmu.h` is missing; page-directory index of a linear address. -/
def PDX (la : Nat) : Nat := (la >>> 22) &&& 0x3FF

/-- Modelled from the spec: `inc/mmu.h` is missing; page number of a linear address. -/
def PGNUM (la : Nat) : Nat := la >>> PGSHIFT

/-- Modelled from the spec: `inc/types.h` is missing; round `a` down to a multiple of `n`. -/
def ROUNDDOWN (a n : Nat) : Nat := a - a % n

/-- Bitwise complement of a 32-bit word (the C operator `~` on `uint32_t`). -/
def not32 (x : Nat) : Nat := 0xFFFFFFFF ^^^ x

/-- Reduction of a value to 32 bits (`uint32_t` arithmetic). -/
def wrap32 (x : Nat) : Nat := x % 2 ^ 32

/-! ## Records -/

/-- Modelled from the spec: `inc/trap.h` is missing; the general registers pushed by `pusha`. -/
structure PushRegs where
  reg_edi : Nat
  reg_esi : Nat
  reg_ebp : Nat
  reg_oesp : Nat
  reg_ebx : Nat
  reg_edx : Nat
  reg_ecx : Nat
  reg_eax : Nat
  deriving DecidableEq, Repr

/-- Modelled from the spec: `inc/trap.h` is missing; the fault-context record handed to the
user fault handler. -/
structure UTrapframe where
  utf_fault_va : Nat
  utf_err : Nat
  utf_regs : PushRegs
  utf_eip : Nat
  utf_eflags : Nat
  utf_esp : Nat
  deriving DecidableEq, Repr

/-- Result of a routine that may abort through `panic`. -/
inductive Res (α : Type) where
  | ok (a : α)
  | panic (msg : String)
  deriving DecidableEq, Repr

/-! ## The mapping service -/

/-- A request sent to the kernel: the system calls that `lib/fork.c` issues. -/
inductive Req where
  | page_alloc (envid : Int) (va perm : Nat)
  | page_map (srcenvid : Int) (srcva : Nat) (dstenvid : Int) (dstva perm : Nat)
  | env_set_pgfault_upcall (envid : Int) (upcall : Nat)
  | env_set_status (envid : Int) (status : Nat)
  deriving DecidableEq, Repr

/-- Pointwise update of a function. -/
def upd {κ α : Type} [DecidableEq κ] (f : κ → α) (k : κ) (v : α) : κ → α :=
  fun x => if x = k then v else f x

/-- Modelled from the spec: the kernel side (`kern/syscall.c`, `kern/pmap.c`, `kern/env.c`) is
missing.  The state the mapping service works on: per-process page directories and page
tables as the raw words user code reads through `uvpd` and `uvpt`, the contents of the
physical frames, the next frame of the allocator, the per-process upcall and status, the
requests received so far (oldest first), and `verdict`, which fixes for the n-th request
whether the service carries it out (`0 ≤ verdict n`) or refuses it with that error code. -/
structure Sys where
  cur : Int
  pd : Int → Nat → Nat
  pt : Int → Nat → Nat
  mem : Nat → Nat → Nat
  nextFree : Nat
  upcall : Int → Nat
  status : Int → Nat
  log : List Req
  verdict : Nat → Int

/-- A page-table entry for physical page number `ppn` with permission bits `perm`. -/
def mkpte (ppn perm : Nat) : Nat := (ppn <<< PGSHIFT) ||| perm

/-- Physical page number a page-table entry refers to. -/
def pteFrame (pte : Nat) : Nat := pte >>> PGSHIFT

/-- The answer of the service to the request it is about to receive. -/
def Sys.answer (s : Sys) : Int :=
  if s.verdict s.log.length < 0 then s.verdict s.log.length else 0

/-- The state after the request `r` has been recorded. -/
def Sys.record (s : Sys) (r : Req) : Sys := { s with log := s.log ++ [r] }

/-- Install entry `pte` for page `va` in process `envid` (the page table is made present). -/
def Sys.install (s : Sys) (envid : Int) (va pte : Nat) : Sys :=
  { s with
    pd := upd s.pd envid (upd (s.pd envid) (PDX va) (s.pd envid (PDX va) ||| PTE_P))
    pt := upd s.pt envid (upd (s.pt envid) (PGNUM va) pte) }

/-- Modelled from the spec: "page allocation bound to a target process".  A frame not in use
is zero-filled and mapped at `va` in `envid` with exactly `perm`. -/
def sys_page_alloc (envid : Int) (va perm : Nat) (s : Sys) : Int × Sys :=
  let r := s.answer
  let s1 := s.record (Req.page_alloc envid va perm)
  if r < 0 then (r, s1)
  else
    let s2 := s1.install envid va (mkpte s.nextFree perm)
    (0, { s2 with mem := upd s2.mem s.nextFree (fun _ => 0), nextFree := s.nextFree + 1 })

/-- Modelled from the spec: "permission-only mapping/remapping between two arbitrary processes
by virtual address".  The frame mapped at `srcva` in `srcenvid` is mapped at `dstva` in
`dstenvid` with exactly `perm`. -/
def sys_page_map (srcenvid : Int) (srcva : Nat) (dstenvid : Int) (dstva perm : Nat)
    (s : Sys) : Int × Sys :=
  let r := s.answer
  let s1 := s.record (Req.page_map srcenvid srcva dstenvid dstva perm)
  if r < 0 then (r, s1)
  else (0, s1.install dstenvid dstva (mkpte (pteFrame (s.pt srcenvid (PGNUM srcva))) perm))

/-- Modelled from the spec: set the fault-handler entry point of a process. -/
def sys_env_set_pgfault_upcall (envid : Int) (func : Nat) (s : Sys) : Int × Sys :=
  let r := s.answer
  let s1 := s.record (Req.env_set_pgfault_upcall envid func)
  if r < 0 then (r, s1) else (0, { s1 with upcall := upd s1.upcall envid func })

/-- Modelled from the spec: set the status of a process. -/
def sys_env_set_status (envid : Int) (status : Nat) (s : Sys) : Int × Sys :=
  let r := s.answer
  let s1 := s.record (Req.env_set_status envid status)
  if r < 0 then (r, s1) else (0, { s1 with status := upd s1.status envid status })

/-- Modelled from the spec: identity of the running process (a query, not recorded). -/
def sys_getenvid (s : Sys) : Int := s.cur

/-- Modelled from the spec: `lib/string.c` is missing.  The copy `pgfault` performs: `n` bytes
from the page mapped at `src` to the page mapped at `dst`, both in the running process. -/
def memcpy (dst src n : Nat) (s : Sys) : Sys :=
  let df := pteFrame (s.pt s.cur (PGNUM dst))
  let sf := pteFrame (s.pt s.cur (PGNUM src))
  { s with mem := upd s.mem df (fun off => if off < n then s.mem sf off else s.mem df off) }

/-! ## `lib/fork.c` -/

/-- The user fault handler `pgfault` of `lib/fork.c`. -/
def pgfault (utf : UTrapframe) (s : Sys) : Res Unit × Sys :=
  let pdx := PDX utf.utf_fault_va
  let pde := s.pd s.cur pdx
  if pde &&& PTE_P = 0 then (Res.panic "pde does not exist", s)
  else
    let pte := s.pt s.cur (PGNUM utf.utf_fault_va)
    if utf.utf_err &&& FEC_WR = 0 ∨ not32 pte &&& (PTE_P ||| PTE_COW) ≠ 0 then
      (Res.panic "Panic utf_fault_va", s)
    else
      let envid := sys_getenvid s
      let perm := PTE_P ||| PTE_W ||| PTE_U
      let a := sys_page_alloc envid PFTEMP perm s
      if a.1 < 0 then (Res.panic "sys_page_alloc error", a.2)
      else
        let s2 := memcpy PFTEMP (ROUNDDOWN utf.utf_fault_va PGSIZE) PGSIZE a.2
        let m := sys_page_map envid PFTEMP envid (ROUNDDOWN utf.utf_fault_va PGSIZE)
          ((pte &&& 0xfff &&& not32 PTE_COW) ||| PTE_W) s2
        if m.1 < 0 then (Res.panic "sys_page_map error", m.2)
        else (Res.ok (), m.2)

/-- The permission `duppage` computes for a source entry `pte` (its local `perm`). -/
def duppagePerm (pte : Nat) : Nat :=
  if pte &&& (PTE_W ||| PTE_COW) ≠ 0 then (pte &&& 0xfff &&& not32 PTE_W) ||| PTE_COW
  else pte &&& 0xfff

/-- The per-page duplication routine `duppage` of `lib/fork.c`.  The local `err` keeps the
result of the first mapping request; the result of the second one is not stored. -/
def duppage (envid : Int) (pn : Nat) (s : Sys) : Res Int × Sys :=
  let curenvid := sys_getenvid s
  let va := wrap32 (pn * PGSIZE)
  if ¬ va < UTOP then (Res.panic "assertion failed: va < UTOP", s)
  else
    let pde := s.pd s.cur (PDX va)
    if pde &&& PTE_P = 0 then (Res.panic "pde does not exist", s)
    else
      let pte := s.pt s.cur (PGNUM va)
      let perm := duppagePerm pte
      let m := sys_page_map curenvid va envid va perm s
      let err := m.1
      if err < 0 then (Res.ok err, m.2)
      else if pte &&& (PTE_W ||| PTE_COW) ≠ 0 then
        let m2 := sys_page_map curenvid va curenvid va perm m.2
        if err < 0 then (Res.ok err, m2.2) else (Res.ok 0, m2.2)
      else (Res.ok 0, m.2)

/-- The loop `for (va = 0; va < UTOP; va += PGSIZE)` of `fork` and `sfork`: `n` iterations
of `body` starting at `va`, stopping at the first iteration that aborts.  `UTOP` is a
multiple of `PGSIZE`, so `UTOP / PGSIZE` iterations from `0` are the iterations of the loop. -/
def walk (body : Nat → Sys → Res Unit × Sys) : Nat → Nat → Sys → Res Unit × Sys
  | 0, _, s => (Res.ok (), s)
  | n + 1, va, s =>
    match body va s with
    | (Res.ok _, s1) => walk body n (va + PGSIZE) s1
    | (Res.panic msg, s1) => (Res.panic msg, s1)

/-- One iteration of the loop of `fork`. -/
def forkBody (child_envid : Int) (va : Nat) (s : Sys) : Res Unit × Sys :=
  if va = UXSTACKTOP - PGSIZE then
    let a := sys_page_alloc child_envid va (PTE_U ||| PTE_P ||| PTE_W) s
    if a.1 < 0 then (Res.panic "sys_page_alloc panic", a.2) else (Res.ok (), a.2)
  else if s.pd s.cur (PDX va) &&& PTE_P = 0 then (Res.ok (), s)
  else
    let pte := s.pt s.cur (PGNUM va)
    if pte &&& PTE_P ≠ 0 then
      match duppage child_envid (PGNUM va) s with
      | (Res.panic msg, s1) => (Res.panic msg, s1)
      | (Res.ok err, s1) =>
        if err ≠ 0 then (Res.panic "duppage panic", s1) else (Res.ok (), s1)
    else (Res.ok (), s)

/-- The part of `fork` and of `sfork` that follows the loop: hand the upcall to the child and
mark it runnable (neither result is examined). -/
def finish (child_envid : Int) (s : Sys) : Sys :=
  let u := sys_env_set_pgfault_upcall child_envid (s.upcall s.cur) s
  (sys_env_set_status child_envid ENV_RUNNABLE u.2).2

/-- The routine `fork` of `lib/fork.c`.  `set_pgfault_handler` (`lib/pgfault.c`) and
`sys_exofork` (`kern/syscall.c`) are missing and taken as parameters: the first as its effect
on the state, the second as its effect together with the value it returns in this process. -/
def fork (set_pgfault_handler : Sys → Sys) (sys_exofork : Sys → Int × Sys) (s : Sys) :
    Res Int × Sys :=
  let s0 := set_pgfault_handler s
  let e := sys_exofork s0
  let child_envid := e.1
  if child_envid ≠ 0 then
    match walk (forkBody child_envid) (UTOP / PGSIZE) 0 e.2 with
    | (Res.panic msg, s1) => (Res.panic msg, s1)
    | (Res.ok _, s1) => (Res.ok child_envid, finish child_envid s1)
  else (Res.ok child_envid, e.2)

/-- The statements of one iteration of the loop of `sfork`, for the address `va`. -/
def sforkBody (child_envid : Int) (va : Nat) (s : Sys) : Res Unit × Sys :=
  if va = UXSTACKTOP - PGSIZE then
    let a := sys_page_alloc child_envid va (PTE_U ||| PTE_P ||| PTE_W) s
    if a.1 < 0 then (Res.panic "sys_page_alloc panic", a.2) else (Res.ok (), a.2)
  else if va = USTACKTOP - PGSIZE then
    match duppage child_envid (va >>> PGSHIFT) s with
    | (Res.panic msg, s1) => (Res.panic msg, s1)
    | (Res.ok err, s1) =>
      if err < 0 then (Res.panic "duppage panic", s1) else (Res.ok (), s1)
  else if s.pd s.cur (PDX va) &&& PTE_P = 0 then (Res.ok (), s)
  else
    let pte := s.pt s.cur (PGNUM va)
    if pte &&& PTE_P ≠ 0 then
      let m := sys_page_map s.cur va child_envid va (pte &&& 0xfff) s
      if m.1 ≠ 0 then (Res.panic "sys_page_map panic", m.2) else (Res.ok (), m.2)
    else (Res.ok (), s)

/-- Modelled from the spec: `inc/mmu.h` is missing; the "protection violation" bit of a
page-fault error code. -/
def FEC_PR : Nat := 0x1

/-- Modelled from the spec: `inc/mmu.h` is missing; the "user mode" bit of a page-fault error
code. -/
def FEC_U : Nat := 0x4

/-- Modelled from the spec: the paging hardware and the upcall path of the kernel are not part
of `lib/fork.c`.  The caller of `sfork` runs on its normal stack, the page below `USTACKTOP`,
and `ctx` is its context (`utf_esp` its stack pointer).  A store of the caller to its stack,
at the offset of the stack pointer in the stack page, lands when the page is present and
writable; the word stored is not tracked.  Otherwise the processor raises a write fault, which
reaches the handler the caller registered, `pgfault`, with the faulting address and the error
code in the record and the rest of the record as in `ctx`; when `pgfault` returns the store
lands on the page `pgfault` has mapped. -/
def stackPush (ctx : UTrapframe) (s : Sys) : Res Unit × Sys :=
  let va := USTACKTOP - PGSIZE + ctx.utf_esp % PGSIZE
  let pte := s.pt s.cur (PGNUM va)
  if s.pd s.cur (PDX va) &&& PTE_P ≠ 0 ∧ pte &&& PTE_P ≠ 0 ∧ pte &&& PTE_W ≠ 0 then
    (Res.ok (), s)
  else
    pgfault
      { ctx with
        utf_fault_va := va
        utf_err := FEC_U ||| FEC_WR |||
          (if s.pd s.cur (PDX va) &&& PTE_P ≠ 0 ∧ pte &&& PTE_P ≠ 0 then FEC_PR else 0) } s

/-- One iteration of the loop of `sfork` as the caller runs it: the statements of the body
(`sforkBody`), after which the caller stores to its stack before it issues another request
(every call pushes a return address).  As long as the stack page is writable the store
changes nothing here; once `duppage` has made the stack page copy-on-write, the store faults
and `pgfault` runs in the caller. -/
def sforkIter (child_envid : Int) (ctx : UTrapframe) (va : Nat) (s : Sys) : Res Unit × Sys :=
  match sforkBody child_envid va s with
  | (Res.ok _, s1) => stackPush ctx s1
  | (Res.panic msg, s1) => (Res.panic msg, s1)

/-- The loop of `sfork` as the caller runs it: a store to its stack before the first request
(the call that issues it), then the iterations `sforkIter` for every page below `UTOP`. -/
def sforkWalk (child_envid : Int) (ctx : UTrapframe) (s : Sys) : Res Unit × Sys :=
  match stackPush ctx s with
  | (Res.ok _, s1) => walk (sforkIter child_envid ctx) (UTOP / PGSIZE) 0 s1
  | (Res.panic msg, s1) => (Res.panic msg, s1)

/-- The routine `sfork` of `lib/fork.c`, with the same parameters as `fork` and the context
`ctx` of the caller, which runs the loop on the stack page the loop hands to `duppage`. -/
def sfork (set_pgfault_handler : Sys → Sys) (sys_exofork : Sys → Int × Sys)
    (ctx : UTrapframe) (s : Sys) : Res Int × Sys :=
  let s0 := set_pgfault_handler s
  let e := sys_exofork s0
  let child_envid := e.1
  if child_envid ≠ 0 then
    match sforkWalk child_envid ctx e.2 with
    | (Res.panic msg, s1) => (Res.panic msg, s1)
    | (Res.ok _, s1) => (Res.ok child_envid, finish child_envid s1)
  else (Res.ok child_envid, e.2)

/-! ## `kern/trap.c` -/

/-- Modelled from the spec: `inc/trap.h` is missing; the context snapshot saved at a trap. -/
structure Trapframe where
  tf_regs : PushRegs
  tf_es : Nat
  tf_ds : Nat
  tf_trapno : Nat
  tf_err : Nat
  tf_eip : Nat
  tf_cs : Nat
  tf_eflags : Nat
  tf_esp : Nat
  tf_ss : Nat
  deriving DecidableEq, Repr

/-- Modelled from the spec: `inc/trap.h` is missing; `sizeof(struct UTrapframe)`, thirteen
32-bit words. -/
def sizeof_UTrapframe : Nat := 52

/-- What `page_fault_handler` does to the world outside its arguments, in order. -/
inductive KEvent where
  | check (va len perm : Nat)
  | store32 (addr val : Nat)
  | storeUtf (addr : Nat) (utf : UTrapframe)
  | report (envid fault_va eip : Nat)
  | print_trapframe
  deriving DecidableEq, Repr

/-- How `page_fault_handler` ends: kernel panic, the process destroyed, or the process
resumed through `env_run`. -/
inductive KEnd where
  | panic (msg : String)
  | destroyed
  | resumed
  deriving DecidableEq, Repr

/-- Outcome of `page_fault_handler`: the saved context of the process afterwards, the
events in order, and how the handler ended. -/
structure KResult where
  tf : Trapframe
  events : List KEvent
  fin : KEnd
  deriving DecidableEq, Repr

/-- Subtraction on `uint32_t`. -/
def sub32 (a b : Nat) : Nat := wrap32 (a + 2 ^ 32 - b % 2 ^ 32)

/-- The routine `page_fault_handler` of `kern/trap.c`.  `user_mem_check va len perm` is the
verdict of the missing `user_mem_assert` (`kern/pmap.c`), which destroys the process when the
range is not accessible; `env_id` and `upcall` are the identity and the registered handler
of `curenv`; `fault_va` is the value of `rcr2()`. -/
def page_fault_handler (user_mem_check : Nat → Nat → Nat → Bool) (env_id upcall fault_va : Nat)
    (tf : Trapframe) : KResult :=
  if tf.tf_cs &&& 3 = 0 then ⟨tf, [], KEnd.panic "page fault in kernel"⟩
  else if upcall = 0 then
    ⟨tf, [KEvent.report env_id fault_va tf.tf_eip, KEvent.print_trapframe], KEnd.destroyed⟩
  else
    let recursive : Bool := tf.tf_esp < UXSTACKTOP ∧ tf.tf_esp ≥ UXSTACKTOP - PGSIZE
    let utrapframe :=
      if recursive then sub32 (sub32 tf.tf_esp 32) sizeof_UTrapframe
      else UXSTACKTOP - sizeof_UTrapframe
    let checked := [KEvent.check utrapframe sizeof_UTrapframe PTE_W]
    if user_mem_check utrapframe sizeof_UTrapframe PTE_W = false then
      ⟨tf, checked, KEnd.destroyed⟩
    else
      let sentinel := if recursive then [KEvent.store32 (sub32 tf.tf_esp 32) 0] else []
      let utf : UTrapframe :=
        { utf_fault_va := fault_va
          utf_err := tf.tf_err
          utf_regs := tf.tf_regs
          utf_eip := tf.tf_eip
          utf_eflags := tf.tf_eflags
          utf_esp := tf.tf_esp }
      ⟨{ tf with tf_esp := utrapframe, tf_eip := upcall },
        checked ++ sentinel ++ [KEvent.storeUtf utrapframe utf], KEnd.resumed⟩

/-! ## Predicates used by the statements -/

/-- The condition under which `pgfault` goes on to allocate: a write fault on an address whose
page-directory entry is present and whose page-table entry is present and copy-on-write. -/
def cowWriteFault (utf : UTrapframe) (s : Sys) : Prop :=
  utf.utf_err &&& FEC_WR ≠ 0 ∧ s.pd s.cur (PDX utf.utf_fault_va) &&& PTE_P ≠ 0 ∧
    s.pt s.cur (PGNUM utf.utf_fault_va) &&& PTE_P ≠ 0 ∧
    s.pt s.cur (PGNUM utf.utf_fault_va) &&& PTE_COW ≠ 0

instance (utf : UTrapframe) (s : Sys) : Decidable (cowWriteFault utf s) := by
  unfold cowWriteFault; infer_instance


/-- Every frame some process has mapped lies below the next frame of the allocator: the
allocator hands out frames that are not in use. -/
def Sys.fresh (s : Sys) : Prop :=
  ∀ e pn, s.pt e pn &&& PTE_P ≠ 0 → pteFrame (s.pt e pn) < s.nextFree

/-- A process 1 whose page at `PFTEMP` is present, user and copy-on-write, on frame 5, which
holds the byte `0xAA` everywhere; the service carries out every request. -/
def scratchCowSys : Sys where
  cur := 1
  pd := fun _ pdx => if pdx = 1 then 0x007 else 0
  pt := fun e pn => if e = 1 ∧ pn = 0x7ff then 0x5805 else 0
  mem := fun f _ => if f = 5 then 0xAA else 0
  nextFree := 6
  upcall := fun _ => 0
  status := fun _ => 0
  log := []
  verdict := fun _ => 0

/-- A write fault at the address `PFTEMP` itself. -/
def scratchCowUtf : UTrapframe where
  utf_fault_va := 0x7ff000
  utf_err := 0x7
  utf_regs := ⟨0, 0, 0, 0, 0, 0, 0, 0⟩
  utf_eip := 0x800020
  utf_eflags := 0
  utf_esp := 0xeebfdf00

/-- A process 1 whose page at `0x800000` is present, user and copy-on-write, on frame 5,
which holds the byte `0xAA` everywhere; the service carries out every request. -/
def cowSys : Sys where
  cur := 1
  pd := fun _ pdx => if pdx = 2 then 0x007 else 0
  pt := fun e pn => if e = 1 ∧ pn = 0x800 then 0x5805 else 0
  mem := fun f _ => if f = 5 then 0xAA else 0
  nextFree := 6
  upcall := fun _ => 0
  status := fun _ => 0
  log := []
  verdict := fun _ => 0

/-- A write fault at `0x800abc`. -/
def cowUtf : UTrapframe where
  utf_fault_va := 0x800abc
  utf_err := 0x7
  utf_regs := ⟨0, 0, 0, 0, 0, 0, 0, 0⟩
  utf_eip := 0x800020
  utf_eflags := 0
  utf_esp := 0xeebfdf00

/-- A process 1 (the parent) with a writable page at `0x800000` on frame 5 and a read-only
page at `0x801000` on frame 4; the service carries out every request. -/
def parentSys : Sys where
  cur := 1
  pd := fun e pdx => if e = 1 ∧ pdx = 2 then 0x007 else 0
  pt := fun e pn => if e = 1 ∧ pn = 0x800 then 0x5007 else if e = 1 ∧ pn = 0x801 then 0x4005 else 0
  mem := fun f _ => if f = 5 then 0xAA else 0
  nextFree := 6
  upcall := fun _ => 0
  status := fun _ => 0
  log := []
  verdict := fun _ => 0

/-- The state `parentSys` with a service that refuses the second request it receives (with
the error code of "out of memory") and carries out every other one. -/
def refusingSys : Sys :=
  { parentSys with verdict := fun n => if n = 1 then -4 else 0 }

/-- A user-mode context (code segment `0x1b`) whose stack pointer lies on the exception stack,
sixteen bytes below its top: a fault taken while a fault handler runs. -/
def nestedTf : Trapframe where
  tf_regs := ⟨1, 2, 3, 4, 5, 6, 7, 8⟩
  tf_es := 0x23
  tf_ds := 0x23
  tf_trapno := 14
  tf_err := 0x7
  tf_eip := 0x800123
  tf_cs := 0x1b
  tf_eflags := 0x202
  tf_esp := 0xeebffff0
  tf_ss := 0x23

/-- A user-mode context (code segment `0x1b`) whose stack pointer lies on the normal stack. -/
def plainTf : Trapframe where
  tf_regs := ⟨1, 2, 3, 4, 5, 6, 7, 8⟩
  tf_es := 0x23
  tf_ds := 0x23
  tf_trapno := 14
  tf_err := 0x7
  tf_eip := 0x800123
  tf_cs := 0x1b
  tf_eflags := 0x202
  tf_esp := 0xeebfdf00
  tf_ss := 0x23

/-- Whether a request names the page with number `pn`, as the page to allocate or as the
source or the destination of a mapping. -/
def Req.namesPage (pn : Nat) : Req → Bool
  | Req.page_alloc _ va _ => PGNUM va = pn
  | Req.page_map _ srcva _ dstva _ => PGNUM srcva = pn ∨ PGNUM dstva = pn
  | Req.env_set_pgfault_upcall _ _ => false
  | Req.env_set_status _ _ => false

/-- The iteration `forkBody` with the per-page routine as a parameter: `forkBody` is
`forkBodyWith duppage`. -/
def forkBodyWith (dup : Int → Nat → Sys → Res Int × Sys) (child_envid : Int) (va : Nat)
    (s : Sys) : Res Unit × Sys :=
  if va = UXSTACKTOP - PGSIZE then
    let a := sys_page_alloc child_envid va (PTE_U ||| PTE_P ||| PTE_W) s
    if a.1 < 0 then (Res.panic "sys_page_alloc panic", a.2) else (Res.ok (), a.2)
  else if s.pd s.cur (PDX va) &&& PTE_P = 0 then (Res.ok (), s)
  else
    let pte := s.pt s.cur (PGNUM va)
    if pte &&& PTE_P ≠ 0 then
      match dup child_envid (PGNUM va) s with
      | (Res.panic msg, s1) => (Res.panic msg, s1)
      | (Res.ok err, s1) =>
        if err ≠ 0 then (Res.panic "duppage panic", s1) else (Res.ok (), s1)
    else (Res.ok (), s)

/-- The routine `fork` with the per-page routine as a parameter: `fork` is
`forkWith duppage`. -/
def forkWith (dup : Int → Nat → Sys → Res Int × Sys) (set_pgfault_handler : Sys → Sys)
    (sys_exofork : Sys → Int × Sys) (s : Sys) : Res Int × Sys :=
  let s0 := set_pgfault_handler s
  let e := sys_exofork s0
  let child_envid := e.1
  if child_envid ≠ 0 then
    match walk (forkBodyWith dup child_envid) (UTOP / PGSIZE) 0 e.2 with
    | (Res.panic msg, s1) => (Res.panic msg, s1)
    | (Res.ok _, s1) => (Res.ok child_envid, finish child_envid s1)
  else (Res.ok child_envid, e.2)

/-- The iteration `sforkBody` with the per-page routine as a parameter: `sforkBody` is
`sforkBodyWith duppage`. -/
def sforkBodyWith (dup : Int → Nat → Sys → Res Int × Sys) (child_envid : Int) (va : Nat)
    (s : Sys) : Res Unit × Sys :=
  if va = UXSTACKTOP - PGSIZE then
    let a := sys_page_alloc child_envid va (PTE_U ||| PTE_P ||| PTE_W) s
    if a.1 < 0 then (Res.panic "sys_page_alloc panic", a.2) else (Res.ok (), a.2)
  else if va = USTACKTOP - PGSIZE then
    match dup child_envid (va >>> PGSHIFT) s with
    | (Res.panic msg, s1) => (Res.panic msg, s1)
    | (Res.ok err, s1) =>
      if err < 0 then (Res.panic "duppage panic", s1) else (Res.ok (), s1)
  else if s.pd s.cur (PDX va) &&& PTE_P = 0 then (Res.ok (), s)
  else
    let pte := s.pt s.cur (PGNUM va)
    if pte &&& PTE_P ≠ 0 then
      let m := sys_page_map s.cur va child_envid va (pte &&& 0xfff) s
      if m.1 ≠ 0 then (Res.panic "sys_page_map panic", m.2) else (Res.ok (), m.2)
    else (Res.ok (), s)

/-- The iteration `sforkIter` with the per-page routine as a parameter: `sforkIter` is
`sforkIterWith duppage`. -/
def sforkIterWith (dup : Int → Nat → Sys → Res Int × Sys) (child_envid : Int)
    (ctx : UTrapframe) (va : Nat) (s : Sys) : Res Unit × Sys :=
  match sforkBodyWith dup child_envid va s with
  | (Res.ok _, s1) => stackPush ctx s1
  | (Res.panic msg, s1) => (Res.panic msg, s1)

/-- The loop `sforkWalk` with the per-page routine as a parameter. -/
def sforkWalkWith (dup : Int → Nat → Sys → Res Int × Sys) (child_envid : Int)
    (ctx : UTrapframe) (s : Sys) : Res Unit × Sys :=
  match stackPush ctx s with
  | (Res.ok _, s1) => walk (sforkIterWith dup child_envid ctx) (UTOP / PGSIZE) 0 s1
  | (Res.panic msg, s1) => (Res.panic msg, s1)

/-- The routine `sfork` with the per-page routine as a parameter: `sfork` is
`sforkWith duppage`. -/
def sforkWith (dup : Int → Nat → Sys → Res Int × Sys) (set_pgfault_handler : Sys → Sys)
    (sys_exofork : Sys → Int × Sys) (ctx : UTrapframe) (s : Sys) : Res Int × Sys :=
  let s0 := set_pgfault_handler s
  let e := sys_exofork s0
  let child_envid := e.1
  if child_envid ≠ 0 then
    match sforkWalkWith dup child_envid ctx e.2 with
    | (Res.panic msg, s1) => (Res.panic msg, s1)
    | (Res.ok _, s1) => (Res.ok child_envid, finish child_envid s1)
  else (Res.ok child_envid, e.2)

/-- A per-page routine that aborts when handed the exception-stack page and is `duppage` on
every other page. -/
def duppageExceptXstack (envid : Int) (pn : Nat) (s : Sys) : Res Int × Sys :=
  if pn = PGNUM (UXSTACKTOP - PGSIZE) then (Res.panic "exception stack handed to duppage", s)
  else duppage envid pn s

/-- What a run that started in `s0` and ended in `s1` did about the exception-stack page, for
the child `child`: every request issued that names the page is the allocation of a page for
the child with permissions `PTE_U | PTE_P | PTE_W`; the entry every process other than the
child has for the page is as it was; and the entry of the child is as it was or maps a frame
with exactly those permissions. -/
def xstackExclusive (child : Int) (s0 s1 : Sys) : Prop :=
  (∃ reqs, s1.log = s0.log ++ reqs ∧
    ∀ q ∈ reqs, q.namesPage (PGNUM (UXSTACKTOP - PGSIZE)) = true →
      q = Req.page_alloc child (UXSTACKTOP - PGSIZE) (PTE_U ||| PTE_P ||| PTE_W)) ∧
  (∀ e, e ≠ child →
    s1.pt e (PGNUM (UXSTACKTOP - PGSIZE)) = s0.pt e (PGNUM (UXSTACKTOP - PGSIZE))) ∧
  (s1.pt child (PGNUM (UXSTACKTOP - PGSIZE)) = s0.pt child (PGNUM (UXSTACKTOP - PGSIZE)) ∨
    ∃ f, s1.pt child (PGNUM (UXSTACKTOP - PGSIZE)) = mkpte f (PTE_U ||| PTE_P ||| PTE_W))

/-- Modelled from the spec: the paging hardware is not part of the sources.  A store of the
byte `b` at address `va` by process `e` lands in the frame mapped at `va` when the page is
present and writable in `e`; otherwise it raises a page fault (`none`). -/
def userWrite (e : Int) (va b : Nat) (s : Sys) : Option Sys :=
  if s.pd e (PDX va) &&& PTE_P ≠ 0 ∧ s.pt e (PGNUM va) &&& PTE_P ≠ 0 ∧
      s.pt e (PGNUM va) &&& PTE_W ≠ 0 then
    some { s with
      mem := upd s.mem (pteFrame (s.pt e (PGNUM va)))
        (upd (s.mem (pteFrame (s.pt e (PGNUM va)))) (va % PGSIZE) b) }
  else none

/-- Modelled from the spec: the paging hardware is not part of the sources.  A load at
address `va` by process `e` yields the byte of the frame mapped at `va` when the page is
present in `e`; otherwise it raises a page fault (`none`). -/
def userRead (e : Int) (va : Nat) (s : Sys) : Option Nat :=
  if s.pd e (PDX va) &&& PTE_P ≠ 0 ∧ s.pt e (PGNUM va) &&& PTE_P ≠ 0 then
    some (s.mem (pteFrame (s.pt e (PGNUM va))) (va % PGSIZE))
  else none

/-- A process 1 with a writable page at `0x800000` on frame 5, a copy-on-write page at
`0x801000` on frame 4, a writable page at `PFTEMP` on frame 2 (left there by an earlier run
of `pgfault`) and a writable normal-stack page on frame 3; the allocator hands out frames
from 6 on and the service carries out every request. -/
def sharingSys : Sys where
  cur := 1
  pd := fun e pdx => if e = 1 ∧ (pdx = 1 ∨ pdx = 2 ∨ pdx = 0x3ba) then 0x007 else 0
  pt := fun e pn =>
    if e = 1 ∧ pn = 0x800 then 0x5007
    else if e = 1 ∧ pn = 0x801 then 0x4805
    else if e = 1 ∧ pn = 0x7ff then 0x2007
    else if e = 1 ∧ pn = 0xeebfd then 0x3007
    else 0
  mem := fun _ _ => 0
  nextFree := 6
  upcall := fun _ => 0
  status := fun _ => 0
  log := []
  verdict := fun _ => 0

/-- A context of the caller of `sfork`: its stack pointer is at offset `0xf00` of the
normal-stack page. -/
def pushCtx : UTrapframe where
  utf_fault_va := 0
  utf_err := 0
  utf_regs := ⟨0, 0, 0, 0, 0, 0, 0, 0⟩
  utf_eip := 0x800020
  utf_eflags := 0
  utf_esp := 0xeebfdf00

/-- What the pages walked so far look like during a walk of `sfork` from `s0` for the child
`c`, when the walk is about to treat page `k`: the caller is the same, every page table it
had is still present, its page-table entries other than those of the normal-stack page and of
the page at `PFTEMP` are as in `s0`, and for every page below `k`, other than the two stack
pages and the page at `PFTEMP`, that was present in `s0` the child holds the entry of the
caller and has the page table present. -/
def sforkInv (c : Int) (s0 : Sys) (k : Nat) (t : Sys) : Prop :=
  t.cur = s0.cur ∧
  (∀ pdx, s0.pd s0.cur pdx &&& PTE_P ≠ 0 → t.pd s0.cur pdx &&& PTE_P ≠ 0) ∧
  (∀ pn, pn ≠ PGNUM (USTACKTOP - PGSIZE) → pn ≠ PGNUM PFTEMP →
    t.pt s0.cur pn = s0.pt s0.cur pn) ∧
  (∀ pn, pn < k → pn ≠ PGNUM (USTACKTOP - PGSIZE) → pn ≠ PGNUM (UXSTACKTOP - PGSIZE) →
    pn ≠ PGNUM PFTEMP →
    s0.pd s0.cur (PDX (pn * PGSIZE)) &&& PTE_P ≠ 0 → s0.pt s0.cur pn &&& PTE_P ≠ 0 →
    t.pt c pn = s0.pt s0.cur pn ∧ t.pd c (PDX (pn * PGSIZE)) &&& PTE_P ≠ 0)

/-- What the statements of the body of `sfork` for the child `c` on page `i` may change
between `s` and `t`: not the caller, nor its page directory; no page table of the child
becomes absent; in the child no page-table entry of another page; and in the caller at most
the entry of the normal-stack page. -/
def sforkFrame (c : Int) (i : Nat) (s t : Sys) : Prop :=
  t.cur = s.cur ∧ (∀ pdx, t.pd s.cur pdx = s.pd s.cur pdx) ∧
  (∀ pdx, s.pd c pdx &&& PTE_P ≠ 0 → t.pd c pdx &&& PTE_P ≠ 0) ∧
  (∀ pn, pn ≠ i → t.pt c pn = s.pt c pn) ∧
  (∀ pn, pn ≠ PGNUM (USTACKTOP - PGSIZE) → t.pt s.cur pn = s.pt s.cur pn)

/-- What a store of the caller to its stack may change between `s` and `t`, by the run of
`pgfault` it may cause: not the caller, nor the verdicts of the service; no page table
becomes absent; no page-table entry of another process; and in the caller at most the entries
of the normal-stack page and of the page at `PFTEMP`. -/
def pushFrame (s t : Sys) : Prop :=
  t.cur = s.cur ∧ t.verdict = s.verdict ∧
  (∀ e pdx, s.pd e pdx &&& PTE_P ≠ 0 → t.pd e pdx &&& PTE_P ≠ 0) ∧
  (∀ e, e ≠ s.cur → t.pt e = s.pt e) ∧
  (∀ pn, pn ≠ PGNUM (USTACKTOP - PGSIZE) → pn ≠ PGNUM PFTEMP →
    t.pt s.cur pn = s.pt s.cur pn)

/-- The state of a walk of `sfork` from `s0` for the child `c` that is about to treat page
`i`, when the service carries out every request and the caller started on a present and
writable stack page.  Until the stack page has been treated the caller's page-table entries
and the allocator are as in `s0`; afterwards the stack page of the caller is present and
writable again and the page at `PFTEMP` is mapped in the caller on the frame the allocator
handed out, `s0.nextFree`.  Once the page at `PFTEMP` has been treated, the child holds for it
the entry the caller had in `s0`, if that was present. -/
def sforkRun (c : Int) (s0 : Sys) (i : Nat) (t : Sys) : Prop :=
  (∀ n, 0 ≤ t.verdict n) ∧ t.cur = s0.cur ∧
  (∀ pdx, s0.pd s0.cur pdx &&& PTE_P ≠ 0 → t.pd s0.cur pdx &&& PTE_P ≠ 0) ∧
  (i ≤ PGNUM (USTACKTOP - PGSIZE) → t.pt s0.cur = s0.pt s0.cur ∧ t.nextFree = s0.nextFree) ∧
  (PGNUM (USTACKTOP - PGSIZE) < i →
    t.pt s0.cur (PGNUM (USTACKTOP - PGSIZE)) &&& PTE_P ≠ 0 ∧
    t.pt s0.cur (PGNUM (USTACKTOP - PGSIZE)) &&& PTE_W ≠ 0 ∧
    t.pt s0.cur (PGNUM PFTEMP) = mkpte s0.nextFree (PTE_P ||| PTE_W ||| PTE_U)) ∧
  (PGNUM PFTEMP < i → s0.pd s0.cur (PDX PFTEMP) &&& PTE_P ≠ 0 →
    s0.pt s0.cur (PGNUM PFTEMP) &&& PTE_P ≠ 0 →
    t.pt c (PGNUM PFTEMP) = s0.pt s0.cur (PGNUM PFTEMP))

/-- What no request changes between `s` and `t`: the verdicts of the service and the running
process; and no page table that was present becomes absent. -/
def coopFrame (s t : Sys) : Prop :=
  t.verdict = s.verdict ∧ t.cur = s.cur ∧
  ∀ e pdx, s.pd e pdx &&& PTE_P ≠ 0 → t.pd e pdx &&& PTE_P ≠ 0

/-- The requests a run of `fork` for the child 2 has issued on `refusingSys` when its walk is
about to treat page `i`. -/
def refusingLog (i : Nat) : List Req :=
  if i ≤ 0x800 then []
  else if i ≤ 0x801 then
    [Req.page_map 1 0x800000 2 0x800000 0x805, Req.page_map 1 0x800000 1 0x800000 0x805]
  else if i ≤ 0xeebff then
    [Req.page_map 1 0x800000 2 0x800000 0x805, Req.page_map 1 0x800000 1 0x800000 0x805,
     Req.page_map 1 0x801000 2 0x801000 0x005]
  else
    [Req.page_map 1 0x800000 2 0x800000 0x805, Req.page_map 1 0x800000 1 0x800000 0x805,
     Req.page_map 1 0x801000 2 0x801000 0x005, Req.page_alloc 2 0xeebff000 0x007]

/-- The state of a run of `fork` for the child 2 on `refusingSys` when its walk is about to
treat page `i`: the parent's tables are still those of `refusingSys`. -/
def refusingInv (i : Nat) (t : Sys) : Prop :=
  t.cur = 1 ∧ t.verdict = refusingSys.verdict ∧ t.pd 1 = refusingSys.pd 1 ∧
  t.pt 1 = refusingSys.pt 1 ∧ t.log = refusingLog i ∧ t.upcall = refusingSys.upcall

/-- Modelled from the spec: `inc/trap.h` is missing; divide error. -/
def T_DIVIDE : Nat := 0

/-- Modelled from the spec: `inc/trap.h` is missing; debug exception. -/
def T_DEBUG : Nat := 1

/-- Modelled from the spec: `inc/trap.h` is missing; non-maskable interrupt. -/
def T_NMI : Nat := 2

/-- Modelled from the spec: `inc/trap.h` is missing; breakpoint. -/
def T_BRKPT : Nat := 3

/-- Modelled from the spec: `inc/trap.h` is missing; overflow. -/
def T_OFLOW : Nat := 4

/-- Modelled from the spec: `inc/trap.h` is missing; bounds check. -/
def T_BOUND : Nat := 5

/-- Modelled from the spec: `inc/trap.h` is missing; illegal opcode. -/
def T_ILLOP : Nat := 6

/-- Modelled from the spec: `inc/trap.h` is missing; device not available. -/
def T_DEVICE : Nat := 7

/-- Modelled from the spec: `inc/trap.h` is missing; double fault. -/
def T_DBLFLT : Nat := 8

/-- Modelled from the spec: `inc/trap.h` is missing; invalid task switch segment. -/
def T_TSS : Nat := 10

/-- Modelled from the spec: `inc/trap.h` is missing; segment not present. -/
def T_SEGNP : Nat := 11

/-- Modelled from the spec: `inc/trap.h` is missing; stack exception. -/
def T_STACK : Nat := 12

/-- Modelled from the spec: `inc/trap.h` is missing; general protection fault. -/
def T_GPFLT : Nat := 13

/-- Modelled from the spec: `inc/trap.h` is missing; page fault. -/
def T_PGFLT : Nat := 14

/-- Modelled from the spec: `inc/trap.h` is missing; floating point error. -/
def T_FPERR : Nat := 16

/-- Modelled from the spec: `inc/trap.h` is missing; alignment check. -/
def T_ALIGN : Nat := 17

/-- Modelled from the spec: `inc/trap.h` is missing; machine check. -/
def T_MCHK : Nat := 18

/-- Modelled from the spec: `inc/trap.h` is missing; SIMD floating point error. -/
def T_SIMDERR : Nat := 19

/-- Modelled from the spec: `inc/trap.h` is missing; the system-call vector. -/
def T_SYSCALL : Nat := 48

/-- Modelled from the spec: `inc/trap.h` is missing; the catch-all number. -/
def T_DEFAULT : Nat := 500

/-- Modelled from the spec: `inc/trap.h` is missing; the vector of IRQ 0. -/
def IRQ_OFFSET : Nat := 32

/-- Modelled from the spec: `inc/trap.h` is missing; the timer IRQ. -/
def IRQ_TIMER : Nat := 0

/-- Modelled from the spec: `inc/trap.h` is missing; the keyboard IRQ. -/
def IRQ_KBD : Nat := 1

/-- Modelled from the spec: `inc/trap.h` is missing; the serial IRQ. -/
def IRQ_SERIAL : Nat := 4

/-- Modelled from the spec: `inc/trap.h` is missing; the spurious IRQ. -/
def IRQ_SPURIOUS : Nat := 7

/-- Modelled from the spec: `inc/memlayout.h` is missing; the kernel text selector. -/
def GD_KT : Nat := 0x08

/-- What `trap_dispatch` does to the world outside its argument, in order.  A page fault is
handed to `page_fault_handler`, whose outcome is kept whole. -/
inductive DEvent where
  | page_fault (r : KResult)
  | monitor
  | syscall (num a1 a2 a3 a4 a5 : Nat)
  | cprintf (msg : String)
  | print_trapframe
  | lapic_eoi
  | sched_yield
  | kbd_intr
  | serial_intr
  | env_destroy
  deriving DecidableEq, Repr

/-- How `trap_dispatch` ends: it returns to `trap`, the kernel panics, or control went to a
routine that does not come back (`sched_yield`, `env_run`). -/
inductive DEnd where
  | returned
  | panic (msg : String)
  | noreturn
  deriving DecidableEq, Repr

/-- Outcome of `trap_dispatch`: the context snapshot afterwards, the events in order, and how
the dispatcher ended. -/
structure DResult where
  tf : Trapframe
  events : List DEvent
  fin : DEnd
  deriving DecidableEq, Repr

/-- The routine `trap_dispatch` of `kern/trap.c`.  `syscall` is the missing system-call
handler (`kern/syscall.c`); the other parameters are those of `page_fault_handler`.  The
calls to `monitor`, the device drivers, `print_trapframe` and `env_destroy` are recorded as
events, after which the routine goes on as the source does. -/
def trap_dispatch (user_mem_check : Nat → Nat → Nat → Bool)
    (syscall : Nat → Nat → Nat → Nat → Nat → Nat → Nat) (env_id upcall fault_va : Nat)
    (tf : Trapframe) : DResult :=
  if tf.tf_trapno = T_PGFLT then
    let r := page_fault_handler user_mem_check env_id upcall fault_va tf
    ⟨r.tf, [DEvent.page_fault r],
      match r.fin with
      | KEnd.panic msg => DEnd.panic msg
      | KEnd.resumed => DEnd.noreturn
      | KEnd.destroyed => DEnd.returned⟩
  else if tf.tf_trapno = T_BRKPT then ⟨tf, [DEvent.monitor], DEnd.returned⟩
  else if tf.tf_trapno = T_DEBUG then ⟨tf, [DEvent.monitor], DEnd.returned⟩
  else if tf.tf_trapno = T_SYSCALL then
    ⟨{ tf with
        tf_regs := { tf.tf_regs with
          reg_eax := syscall tf.tf_regs.reg_eax tf.tf_regs.reg_edx tf.tf_regs.reg_ecx
            tf.tf_regs.reg_ebx tf.tf_regs.reg_edi tf.tf_regs.reg_esi } },
      [DEvent.syscall tf.tf_regs.reg_eax tf.tf_regs.reg_edx tf.tf_regs.reg_ecx
        tf.tf_regs.reg_ebx tf.tf_regs.reg_edi tf.tf_regs.reg_esi],
      DEnd.returned⟩
  else if tf.tf_trapno = IRQ_OFFSET + IRQ_SPURIOUS then
    ⟨tf, [DEvent.cprintf "Spurious interrupt on irq 7", DEvent.print_trapframe], DEnd.returned⟩
  else if tf.tf_trapno = IRQ_OFFSET + IRQ_TIMER then
    ⟨tf, [DEvent.lapic_eoi, DEvent.sched_yield], DEnd.noreturn⟩
  else if tf.tf_trapno = IRQ_OFFSET + IRQ_KBD then ⟨tf, [DEvent.kbd_intr], DEnd.returned⟩
  else if tf.tf_trapno = IRQ_OFFSET + IRQ_SERIAL then ⟨tf, [DEvent.serial_intr], DEnd.returned⟩
  else if tf.tf_cs = GD_KT then
    ⟨tf, [DEvent.print_trapframe], DEnd.panic "unhandled trap in kernel"⟩
  else ⟨tf, [DEvent.print_trapframe, DEvent.env_destroy], DEnd.returned⟩

/-- A trap number is one `trap_dispatch` has a case for. -/
def recognized (trapno : Nat) : Prop :=
  trapno = T_PGFLT ∨ trapno = T_BRKPT ∨ trapno = T_DEBUG ∨ trapno = T_SYSCALL ∨
  trapno = IRQ_OFFSET + IRQ_SPURIOUS ∨ trapno = IRQ_OFFSET + IRQ_TIMER ∨
  trapno = IRQ_OFFSET + IRQ_KBD ∨ trapno = IRQ_OFFSET + IRQ_SERIAL

instance (trapno : Nat) : Decidable (recognized trapno) := by
  unfold recognized; infer_instance

/-- An illegal-opcode trap taken in user mode (code segment `0x1b`). -/
def userIllopTf : Trapframe := { plainTf with tf_trapno := 6 }

/-- An illegal-opcode trap taken with the kernel text selector as code segment. -/
def kernelIllopTf : Trapframe := { plainTf with tf_trapno := 6, tf_cs := 0x08 }

/-- Modelled from the spec: the processor and the segment table (`kern/env.c`,
`inc/memlayout.h`) are missing.  A code segment selector the processor can save when it takes
a trap: the kernel runs under the kernel text selector `GD_KT`, the one every gate installed
by `trap_init` loads, and user code runs under a selector whose privilege bits are 3. -/
def savedCodeSegment (cs : Nat) : Prop := cs = GD_KT ∨ cs &&& 3 = 3

instance (cs : Nat) : Decidable (savedCodeSegment cs) := by
  unfold savedCodeSegment; infer_instance

/-- Number of entries of the table `idt` (`struct Gatedesc idt[256]`). -/
def idt_entries : Nat := 256

/-- The arguments `SETGATE` receives besides the gate itself: whether it is a trap gate, the
code segment selector, the entry point (by its name) and the required privilege level. -/
structure Gate where
  istrap : Nat
  sel : Nat
  off : String
  dpl : Nat
  deriving DecidableEq, Repr

/-- The routine `trap_init` of `kern/trap.c`, as the gates it installs after
`trap_init_percpu()`, in order: the index into `idt` and the arguments of `SETGATE`. -/
def trap_init : List (Nat × Gate) :=
  [ (T_DIVIDE, ⟨0, GD_KT, "trap_divide", 0⟩),
    (T_DEBUG, ⟨0, GD_KT, "trap_debug", 0⟩),
    (T_NMI, ⟨0, GD_KT, "intr_nmi", 0⟩),
    (T_BRKPT, ⟨0, GD_KT, "trap_brkpt", 3⟩),
    (T_OFLOW, ⟨0, GD_KT, "trap_oflow", 0⟩),
    (T_BOUND, ⟨0, GD_KT, "trap_bound", 0⟩),
    (T_ILLOP, ⟨0, GD_KT, "trap_illop", 0⟩),
    (T_DEVICE, ⟨0, GD_KT, "intr_device", 0⟩),
    (T_DBLFLT, ⟨0, GD_KT, "trap_dblflt", 0⟩),
    (T_TSS, ⟨0, GD_KT, "trap_tss", 0⟩),
    (T_SEGNP, ⟨0, GD_KT, "trap_segnp", 0⟩),
    (T_STACK, ⟨0, GD_KT, "trap_stack", 0⟩),
    (T_GPFLT, ⟨0, GD_KT, "trap_gpflt", 0⟩),
    (T_PGFLT, ⟨0, GD_KT, "trap_pgflt", 0⟩),
    (T_FPERR, ⟨0, GD_KT, "trap_fperr", 0⟩),
    (T_ALIGN, ⟨0, GD_KT, "trap_align", 0⟩),
    (T_MCHK, ⟨0, GD_KT, "trap_mchk", 0⟩),
    (T_SIMDERR, ⟨0, GD_KT, "trap_simderr", 0⟩),
    (T_SYSCALL, ⟨0, GD_KT, "trap_syscall", 3⟩),
    (T_DEFAULT, ⟨0, GD_KT, "trap_default", 0⟩),
    (IRQ_OFFSET + 0, ⟨0, GD_KT, "trap_irq0", 0⟩),
    (IRQ_OFFSET + 1, ⟨0, GD_KT, "trap_irq1", 0⟩),
    (IRQ_OFFSET + 2, ⟨0, GD_KT, "trap_irq2", 0⟩),
    (IRQ_OFFSET + 3, ⟨0, GD_KT, "trap_irq3", 0⟩),
    (IRQ_OFFSET + 4, ⟨0, GD_KT, "trap_irq4", 0⟩),
    (IRQ_OFFSET + 5, ⟨0, GD_KT, "trap_irq5", 0⟩),
    (IRQ_OFFSET + 6, ⟨0, GD_KT, "trap_irq6", 0⟩),
    (IRQ_OFFSET + 7, ⟨0, GD_KT, "trap_irq7", 0⟩),
    (IRQ_OFFSET + 8, ⟨0, GD_KT, "trap_irq8", 0⟩),
    (IRQ_OFFSET + 9, ⟨0, GD_KT, "trap_irq9", 0⟩),
    (IRQ_OFFSET + 10, ⟨0, GD_KT, "trap_irq10", 0⟩),
    (IRQ_OFFSET + 11, ⟨0, GD_KT, "trap_irq11", 0⟩),
    (IRQ_OFFSET + 12, ⟨0, GD_KT, "trap_irq12", 0⟩),
    (IRQ_OFFSET + 13, ⟨0, GD_KT, "trap_irq13", 0⟩),
    (IRQ_OFFSET + 14, ⟨0, GD_KT, "trap_irq14", 0⟩),
    (IRQ_OFFSET + 15, ⟨0, GD_KT, "trap_irq15", 0⟩) ]

/-- The indices of `idt` at which `trap_init` installs a gate, in order. -/
def trap_init_indices : List Nat := trap_init.map Prod.fst

/-- The ranges of user memory an event of `page_fault_handler` writes, as start address and
length in bytes: four bytes for the sentinel word, `sizeof(struct UTrapframe)` bytes for
the record. -/
def KEvent.writes : KEvent → List (Nat × Nat)
  | KEvent.store32 addr _ => [(addr, 4)]
  | KEvent.storeUtf addr _ => [(addr, sizeof_UTrapframe)]
  | _ => []

/-- The ranges of user memory an event of `page_fault_handler` hands to the writability
check, as start address and length in bytes. -/
def KEvent.checks : KEvent → List (Nat × Nat)
  | KEvent.check va len _ => [(va, len)]
  | _ => []

/-- Every byte of the range `w` lies inside the range `c`. -/
def inside (w c : Nat × Nat) : Prop := c.1 ≤ w.1 ∧ w.1 + w.2 ≤ c.1 + c.2

instance (w c : Nat × Nat) : Decidable (inside w c) := by
  unfold inside; infer_instance

/-- Every range of user memory written by an event of the list lies inside a range handed
to the writability check by an earlier event of the list. -/
def writesChecked : List KEvent → List (Nat × Nat) → Prop
  | [], _ => True
  | e :: es, seen =>
    (∀ w ∈ e.writes, ∃ c ∈ seen, inside w c) ∧ writesChecked es (seen ++ e.checks)
/-! ## Bit-level facts -/

theorem and_two_pow_eq_zero_iff (a k : Nat) : a &&& 2 ^ k = 0 ↔ a.testBit k = false := by
  constructor
  · intro h
    have := congrArg (fun x => x.testBit k) h
    simpa [Nat.testBit_two_pow] using this
  · intro h
    apply Nat.eq_of_testBit_eq
    intro i
    simp only [Nat.testBit_and, Nat.testBit_two_pow, Nat.zero_testBit]
    by_cases hk : k = i
    · subst hk; simp [h]
    · simp [hk]

theorem and_two_pow_ne_zero_iff (a k : Nat) : a &&& 2 ^ k ≠ 0 ↔ a.testBit k = true := by
  rw [Ne, and_two_pow_eq_zero_iff]; simp

theorem and_PTE_P_ne_zero_iff (a : Nat) : a &&& PTE_P ≠ 0 ↔ a.testBit 0 = true :=
  and_two_pow_ne_zero_iff a 0

theorem and_PTE_W_ne_zero_iff (a : Nat) : a &&& PTE_W ≠ 0 ↔ a.testBit 1 = true :=
  and_two_pow_ne_zero_iff a 1

theorem and_PTE_COW_ne_zero_iff (a : Nat) : a &&& PTE_COW ≠ 0 ↔ a.testBit 11 = true :=
  and_two_pow_ne_zero_iff a 11

theorem eq_zero_iff_testBit (x : Nat) : x = 0 ↔ ∀ i, x.testBit i = false := by
  constructor
  · intro h i; simp [h]
  · intro h; apply Nat.eq_of_testBit_eq; intro i; simp [h i]

theorem testBit_not32 (a i : Nat) : (not32 a).testBit i = (decide (i < 32) ^^ a.testBit i) := by
  unfold not32
  rw [Nat.testBit_xor, show (0xFFFFFFFF : Nat) = 2 ^ 32 - 1 from rfl, Nat.testBit_two_pow_sub_one]

theorem testBit_mask2 (j k i : Nat) :
    (2 ^ j ||| 2 ^ k).testBit i = (decide (j = i) || decide (k = i)) := by
  rw [Nat.testBit_or, Nat.testBit_two_pow, Nat.testBit_two_pow]

theorem and_mask2_eq_zero_iff (a j k : Nat) :
    a &&& (2 ^ j ||| 2 ^ k) = 0 ↔ a.testBit j = false ∧ a.testBit k = false := by
  rw [Nat.and_or_distrib_left, eq_zero_iff_testBit]
  constructor
  · intro h
    have hj := h j
    have hk := h k
    simp only [Nat.testBit_or, Nat.testBit_and, Nat.testBit_two_pow] at hj hk
    simp at hj hk
    exact ⟨hj.1, hk.2⟩
  · rintro ⟨hj, hk⟩ i
    simp only [Nat.testBit_or, Nat.testBit_and, Nat.testBit_two_pow]
    by_cases h1 : j = i
    · subst h1; by_cases h2 : j = k
      · subst h2; simp [hj]
      · simp [hj]
    · by_cases h2 : k = i
      · subst h2; simp [hk, h1]
      · simp [h1, h2]

theorem not32_PCOW (pte : Nat) :
    not32 pte &&& (PTE_P ||| PTE_COW) ≠ 0 ↔ ¬ (pte &&& PTE_P ≠ 0 ∧ pte &&& PTE_COW ≠ 0) := by
  rw [and_PTE_P_ne_zero_iff, and_PTE_COW_ne_zero_iff, Ne,
    show PTE_P ||| PTE_COW = 2 ^ 0 ||| 2 ^ 11 from rfl, and_mask2_eq_zero_iff,
    testBit_not32, testBit_not32]
  simp

theorem and_WCOW (pte : Nat) :
    pte &&& (PTE_W ||| PTE_COW) ≠ 0 ↔ (pte &&& PTE_W ≠ 0 ∨ pte &&& PTE_COW ≠ 0) := by
  rw [and_PTE_W_ne_zero_iff, and_PTE_COW_ne_zero_iff, Ne,
    show PTE_W ||| PTE_COW = 2 ^ 1 ||| 2 ^ 11 from rfl, and_mask2_eq_zero_iff]
  cases pte.testBit 1 <;> cases pte.testBit 11 <;> simp

theorem pteFrame_mkpte (f p : Nat) (hp : p < 4096) : pteFrame (mkpte f p) = f := by
  unfold pteFrame mkpte PGSHIFT
  apply Nat.eq_of_testBit_eq
  intro i
  rw [Nat.testBit_shiftRight, Nat.testBit_or, Nat.testBit_shiftLeft]
  have h12 : (2:Nat) ^ 12 ≤ 2 ^ (12 + i) := Nat.pow_le_pow_right (by decide) (by omega)
  have : p.testBit (12 + i) = false := Nat.testBit_lt_two_pow (by omega)
  simp [this]

theorem mkpte_and_fff (f p : Nat) (hp : p < 4096) : mkpte f p &&& 0xfff = p := by
  unfold mkpte PGSHIFT
  rw [show (0xfff : Nat) = 2 ^ 12 - 1 from rfl, Nat.and_pow_two_sub_one_eq_mod]
  apply Nat.eq_of_testBit_eq
  intro i
  rw [Nat.testBit_mod_two_pow, Nat.testBit_or, Nat.testBit_shiftLeft]
  by_cases h : i < 12
  · have : ¬ i ≥ 12 := by omega
    simp [h, this]
  · have h12 : (2:Nat) ^ 12 ≤ 2 ^ i := Nat.pow_le_pow_right (by decide) (by omega)
    have : p.testBit i = false := Nat.testBit_lt_two_pow (by omega)
    simp [h, this]

theorem mkpte_and_mask (f p m : Nat) (hp : p < 4096) (hm : 0xfff &&& m = m) :
    mkpte f p &&& m = p &&& m := by
  calc mkpte f p &&& m = mkpte f p &&& (0xfff &&& m) := by rw [hm]
    _ = (mkpte f p &&& 0xfff) &&& m := by rw [Nat.and_assoc]
    _ = p &&& m := by rw [mkpte_and_fff f p hp]

/-! ## Facts about the mapping service -/

theorem upd_same {κ α : Type} [DecidableEq κ] (f : κ → α) (k : κ) (v : α) : upd f k v k = v := by
  simp [upd]

theorem upd_other {κ α : Type} [DecidableEq κ] (f : κ → α) (k : κ) (v : α) (x : κ)
    (h : x ≠ k) : upd f k v x = f x := by
  simp [upd, h]

theorem answer_neg_iff (s : Sys) : s.answer < 0 ↔ s.verdict s.log.length < 0 := by
  unfold Sys.answer
  split <;> simp_all

theorem answer_eq_zero (s : Sys) (h : ¬ s.answer < 0) : s.answer = 0 := by
  unfold Sys.answer at h ⊢
  split <;> simp_all

theorem sys_page_alloc_refused (envid : Int) (va perm : Nat) (s : Sys) (h : s.answer < 0) :
    sys_page_alloc envid va perm s = (s.answer, s.record (Req.page_alloc envid va perm)) := by
  simp [sys_page_alloc, h]

theorem sys_page_alloc_done (envid : Int) (va perm : Nat) (s : Sys) (h : ¬ s.answer < 0) :
    sys_page_alloc envid va perm s =
      (0, { cur := s.cur
            pd := upd s.pd envid (upd (s.pd envid) (PDX va) (s.pd envid (PDX va) ||| PTE_P))
            pt := upd s.pt envid (upd (s.pt envid) (PGNUM va) (mkpte s.nextFree perm))
            mem := upd s.mem s.nextFree (fun _ => 0)
            nextFree := s.nextFree + 1
            upcall := s.upcall
            status := s.status
            log := s.log ++ [Req.page_alloc envid va perm]
            verdict := s.verdict }) := by
  simp [sys_page_alloc, h, Sys.install, Sys.record]

theorem sys_page_map_refused (se : Int) (sva : Nat) (de : Int) (dva perm : Nat) (s : Sys)
    (h : s.answer < 0) :
    sys_page_map se sva de dva perm s = (s.answer, s.record (Req.page_map se sva de dva perm)) := by
  simp [sys_page_map, h]

theorem sys_page_map_done (se : Int) (sva : Nat) (de : Int) (dva perm : Nat) (s : Sys)
    (h : ¬ s.answer < 0) :
    sys_page_map se sva de dva perm s =
      (0, { cur := s.cur
            pd := upd s.pd de (upd (s.pd de) (PDX dva) (s.pd de (PDX dva) ||| PTE_P))
            pt := upd s.pt de
              (upd (s.pt de) (PGNUM dva) (mkpte (pteFrame (s.pt se (PGNUM sva))) perm))
            mem := s.mem
            nextFree := s.nextFree
            upcall := s.upcall
            status := s.status
            log := s.log ++ [Req.page_map se sva de dva perm]
            verdict := s.verdict }) := by
  simp [sys_page_map, h, Sys.install, Sys.record]

theorem sys_page_alloc_fst (envid : Int) (va perm : Nat) (s : Sys) :
    (sys_page_alloc envid va perm s).1 = s.answer := by
  by_cases h : s.answer < 0
  · rw [sys_page_alloc_refused _ _ _ _ h]
  · rw [sys_page_alloc_done _ _ _ _ h, answer_eq_zero s h]

theorem sys_page_map_fst (se : Int) (sva : Nat) (de : Int) (dva perm : Nat) (s : Sys) :
    (sys_page_map se sva de dva perm s).1 = s.answer := by
  by_cases h : s.answer < 0
  · rw [sys_page_map_refused _ _ _ _ _ _ h]
  · rw [sys_page_map_done _ _ _ _ _ _ h, answer_eq_zero s h]

theorem sys_page_alloc_log (envid : Int) (va perm : Nat) (s : Sys) :
    (sys_page_alloc envid va perm s).2.log = s.log ++ [Req.page_alloc envid va perm] := by
  by_cases h : s.answer < 0
  · rw [sys_page_alloc_refused _ _ _ _ h]; rfl
  · rw [sys_page_alloc_done _ _ _ _ h]

theorem sys_page_map_log (se : Int) (sva : Nat) (de : Int) (dva perm : Nat) (s : Sys) :
    (sys_page_map se sva de dva perm s).2.log = s.log ++ [Req.page_map se sva de dva perm] := by
  by_cases h : s.answer < 0
  · rw [sys_page_map_refused _ _ _ _ _ _ h]; rfl
  · rw [sys_page_map_done _ _ _ _ _ _ h]

theorem sys_page_alloc_cur (envid : Int) (va perm : Nat) (s : Sys) :
    (sys_page_alloc envid va perm s).2.cur = s.cur := by
  by_cases h : s.answer < 0
  · rw [sys_page_alloc_refused _ _ _ _ h]; rfl
  · rw [sys_page_alloc_done _ _ _ _ h]

theorem sys_page_map_cur (se : Int) (sva : Nat) (de : Int) (dva perm : Nat) (s : Sys) :
    (sys_page_map se sva de dva perm s).2.cur = s.cur := by
  by_cases h : s.answer < 0
  · rw [sys_page_map_refused _ _ _ _ _ _ h]; rfl
  · rw [sys_page_map_done _ _ _ _ _ _ h]

theorem sys_page_alloc_verdict (envid : Int) (va perm : Nat) (s : Sys) :
    (sys_page_alloc envid va perm s).2.verdict = s.verdict := by
  by_cases h : s.answer < 0
  · rw [sys_page_alloc_refused _ _ _ _ h]; rfl
  · rw [sys_page_alloc_done _ _ _ _ h]

theorem sys_page_map_verdict (se : Int) (sva : Nat) (de : Int) (dva perm : Nat) (s : Sys) :
    (sys_page_map se sva de dva perm s).2.verdict = s.verdict := by
  by_cases h : s.answer < 0
  · rw [sys_page_map_refused _ _ _ _ _ _ h]; rfl
  · rw [sys_page_map_done _ _ _ _ _ _ h]

theorem memcpy_log (dst src n : Nat) (s : Sys) : (memcpy dst src n s).log = s.log := rfl

theorem memcpy_verdict (dst src n : Nat) (s : Sys) : (memcpy dst src n s).verdict = s.verdict :=
  rfl

theorem memcpy_answer (dst src n : Nat) (s : Sys) : (memcpy dst src n s).answer = s.answer := rfl

/-! ## The user fault handler -/

theorem pgfault_of_not_cow (utf : UTrapframe) (s : Sys) (h : ¬ cowWriteFault utf s) :
    (∃ msg, (pgfault utf s).1 = Res.panic msg) ∧ (pgfault utf s).2 = s := by
  unfold pgfault
  by_cases hpde : s.pd s.cur (PDX utf.utf_fault_va) &&& PTE_P = 0
  · simp [hpde]
  · have hg : utf.utf_err &&& FEC_WR = 0 ∨
        not32 (s.pt s.cur (PGNUM utf.utf_fault_va)) &&& (PTE_P ||| PTE_COW) ≠ 0 := by
      by_cases hw : utf.utf_err &&& FEC_WR = 0
      · exact Or.inl hw
      · right
        rw [not32_PCOW]
        intro hc
        exact h ⟨hw, hpde, hc.1, hc.2⟩
    simp [hpde, hg]

theorem pgfault_of_cow (utf : UTrapframe) (s : Sys) (h : cowWriteFault utf s) :
    pgfault utf s =
      (if (sys_page_alloc s.cur PFTEMP (PTE_P ||| PTE_W ||| PTE_U) s).1 < 0 then
        (Res.panic "sys_page_alloc error",
          (sys_page_alloc s.cur PFTEMP (PTE_P ||| PTE_W ||| PTE_U) s).2)
       else if (sys_page_map s.cur PFTEMP s.cur (ROUNDDOWN utf.utf_fault_va PGSIZE)
          ((s.pt s.cur (PGNUM utf.utf_fault_va) &&& 0xfff &&& not32 PTE_COW) ||| PTE_W)
          (memcpy PFTEMP (ROUNDDOWN utf.utf_fault_va PGSIZE) PGSIZE
            (sys_page_alloc s.cur PFTEMP (PTE_P ||| PTE_W ||| PTE_U) s).2)).1 < 0 then
        (Res.panic "sys_page_map error",
          (sys_page_map s.cur PFTEMP s.cur (ROUNDDOWN utf.utf_fault_va PGSIZE)
          ((s.pt s.cur (PGNUM utf.utf_fault_va) &&& 0xfff &&& not32 PTE_COW) ||| PTE_W)
          (memcpy PFTEMP (ROUNDDOWN utf.utf_fault_va PGSIZE) PGSIZE
            (sys_page_alloc s.cur PFTEMP (PTE_P ||| PTE_W ||| PTE_U) s).2)).2)
       else (Res.ok (),
          (sys_page_map s.cur PFTEMP s.cur (ROUNDDOWN utf.utf_fault_va PGSIZE)
          ((s.pt s.cur (PGNUM utf.utf_fault_va) &&& 0xfff &&& not32 PTE_COW) ||| PTE_W)
          (memcpy PFTEMP (ROUNDDOWN utf.utf_fault_va PGSIZE) PGSIZE
            (sys_page_alloc s.cur PFTEMP (PTE_P ||| PTE_W ||| PTE_U) s).2)).2)) := by
  obtain ⟨hw, hpde, hp, hc⟩ := h
  have hg : ¬ (utf.utf_err &&& FEC_WR = 0 ∨
      not32 (s.pt s.cur (PGNUM utf.utf_fault_va)) &&& (PTE_P ||| PTE_COW) ≠ 0) := by
    rw [not32_PCOW]
    push_neg
    exact ⟨hw, hp, hc⟩
  unfold pgfault
  simp only [hpde, hg, if_false, sys_getenvid]

/-- C3: `pgfault` issues its allocation request exactly when the fault is a write to an address
whose page-directory entry is present and whose page-table entry is present and
copy-on-write (and then continues with the re-mapping request when the allocation is carried
out); for every other fault-context record it panics with the state, and so every mapping
and the list of requests, unchanged. -/
theorem pgfault_proceeds_iff (utf : UTrapframe) (s : Sys) :
    (cowWriteFault utf s ↔
      (pgfault utf s).2.log =
        s.log ++ Req.page_alloc s.cur PFTEMP (PTE_P ||| PTE_W ||| PTE_U) ::
          (if s.answer < 0 then []
           else [Req.page_map s.cur PFTEMP s.cur (ROUNDDOWN utf.utf_fault_va PGSIZE)
              ((s.pt s.cur (PGNUM utf.utf_fault_va) &&& 0xfff &&& not32 PTE_COW) ||| PTE_W)])) ∧
    (cowWriteFault utf s ∨
      ((∃ msg, (pgfault utf s).1 = Res.panic msg) ∧ (pgfault utf s).2 = s)) := by
  by_cases h : cowWriteFault utf s
  · refine ⟨⟨fun _ => ?_, fun _ => h⟩, Or.inl h⟩
    rw [pgfault_of_cow utf s h, sys_page_alloc_fst]
    by_cases ha : s.answer < 0
    · simp [ha, sys_page_alloc_log]
    · simp only [ha, if_false]
      split <;> simp [sys_page_map_log, memcpy_log, sys_page_alloc_log]
  · obtain ⟨hmsg, hs⟩ := pgfault_of_not_cow utf s h
    refine ⟨⟨fun h2 => absurd h2 h, fun hl => ?_⟩, Or.inr ⟨hmsg, hs⟩⟩
    rw [hs] at hl
    have := congrArg List.length hl
    simp at this

theorem PGNUM_ROUNDDOWN (va : Nat) : PGNUM (ROUNDDOWN va PGSIZE) = PGNUM va := by
  unfold PGNUM ROUNDDOWN PGSIZE PGSHIFT
  rw [Nat.shiftRight_eq_div_pow, Nat.shiftRight_eq_div_pow]
  omega

theorem PGNUM_ne_PFTEMP (va : Nat) (h : ROUNDDOWN va PGSIZE ≠ PFTEMP) :
    PGNUM va ≠ PGNUM PFTEMP := by
  simp only [PGNUM, ROUNDDOWN, PGSIZE, PGSHIFT, PFTEMP, UTEMP, PTSIZE,
    Nat.shiftRight_eq_div_pow] at h ⊢
  omega

theorem promoted_perm_lt (pte : Nat) : (pte &&& 0xfff &&& not32 PTE_COW) ||| PTE_W < 4096 := by
  have h1 : pte &&& 0xfff < 2 ^ 12 := Nat.and_lt_two_pow pte (by decide)
  have h2 : pte &&& 0xfff &&& not32 PTE_COW < 2 ^ 12 :=
    lt_of_le_of_lt Nat.and_le_left h1
  exact Nat.or_lt_two_pow h2 (by decide)

theorem testBit_promoted (pte i : Nat) :
    ((pte &&& 0xfff &&& not32 PTE_COW) ||| PTE_W).testBit i =
      ((pte.testBit i && decide (i < 12) && !decide (11 = i)) || decide (1 = i)) := by
  rw [Nat.testBit_or, Nat.testBit_and, Nat.testBit_and, testBit_not32,
    show PTE_W = 2 ^ 1 from rfl, show PTE_COW = 2 ^ 11 from rfl,
    show (0xfff : Nat) = 2 ^ 12 - 1 from rfl, Nat.testBit_two_pow, Nat.testBit_two_pow,
    Nat.testBit_two_pow_sub_one]
  by_cases h1 : i < 12
  · have h32 : i < 32 := by omega
    simp [h1, h32]
  · simp [h1]

theorem promoted_perm_bits (pte : Nat) (hp : pte &&& PTE_P ≠ 0) :
    ((pte &&& 0xfff &&& not32 PTE_COW) ||| PTE_W) &&& PTE_W ≠ 0 ∧
    ((pte &&& 0xfff &&& not32 PTE_COW) ||| PTE_W) &&& PTE_P ≠ 0 ∧
    ((pte &&& 0xfff &&& not32 PTE_COW) ||| PTE_W) &&& PTE_COW = 0 := by
  rw [and_PTE_P_ne_zero_iff] at hp
  refine ⟨?_, ?_, ?_⟩
  · rw [and_PTE_W_ne_zero_iff, testBit_promoted]
    simp
  · rw [and_PTE_P_ne_zero_iff, testBit_promoted, hp]
    simp
  · rw [show PTE_COW = 2 ^ 11 from rfl, and_two_pow_eq_zero_iff,
      show (2 : Nat) ^ 11 = PTE_COW from rfl, testBit_promoted]
    simp

theorem answer_after (s t : Sys) (hv : t.verdict = s.verdict) (n : Nat)
    (hl : t.log.length = s.log.length + n) (h : 0 ≤ s.verdict (s.log.length + n)) :
    ¬ t.answer < 0 := by
  rw [answer_neg_iff, hv, hl]
  omega

theorem pgfault_copies_aux (utf : UTrapframe) (s : Sys)
    (hcow : cowWriteFault utf s) (hfresh : s.fresh)
    (h1 : 0 ≤ s.verdict s.log.length) (h2 : 0 ≤ s.verdict (s.log.length + 1))
    (hne : ROUNDDOWN utf.utf_fault_va PGSIZE ≠ PFTEMP) :
    (pgfault utf s).1 = Res.ok () ∧
    (pgfault utf s).2.pt s.cur (PGNUM utf.utf_fault_va) =
      mkpte s.nextFree
        ((s.pt s.cur (PGNUM utf.utf_fault_va) &&& 0xfff &&& not32 PTE_COW) ||| PTE_W) ∧
    (∀ off, off < PGSIZE → (pgfault utf s).2.mem s.nextFree off =
      s.mem (pteFrame (s.pt s.cur (PGNUM utf.utf_fault_va))) off) ∧
    (∀ off, (pgfault utf s).2.mem (pteFrame (s.pt s.cur (PGNUM utf.utf_fault_va))) off =
      s.mem (pteFrame (s.pt s.cur (PGNUM utf.utf_fault_va))) off) ∧
    (∀ e, e ≠ s.cur → ∀ pn, (pgfault utf s).2.pt e pn = s.pt e pn) := by
  have hold : pteFrame (s.pt s.cur (PGNUM utf.utf_fault_va)) ≠ s.nextFree :=
    Nat.ne_of_lt (hfresh _ _ hcow.2.2.1)
  have hpn : PGNUM utf.utf_fault_va ≠ PGNUM PFTEMP := PGNUM_ne_PFTEMP _ hne
  have ha : ¬ s.answer < 0 := by rw [answer_neg_iff]; omega
  have hb : ¬ (memcpy PFTEMP (ROUNDDOWN utf.utf_fault_va PGSIZE) PGSIZE
      (sys_page_alloc s.cur PFTEMP (PTE_P ||| PTE_W ||| PTE_U) s).2).answer < 0 := by
    apply answer_after s _ _ 1 _ h2
    · rw [memcpy_verdict, sys_page_alloc_verdict]
    · rw [memcpy_log, sys_page_alloc_log]; simp
  rw [pgfault_of_cow utf s hcow, sys_page_alloc_fst, if_neg ha, sys_page_map_fst, if_neg hb,
    sys_page_map_done _ _ _ _ _ _ hb, sys_page_alloc_done _ _ _ _ ha]
  simp only [memcpy, PGNUM_ROUNDDOWN, upd_same, upd_other _ _ _ _ hpn,
    pteFrame_mkpte _ _ (show PTE_P ||| PTE_W ||| PTE_U < 4096 by decide)]
  refine ⟨trivial, trivial, ?_, ?_, ?_⟩
  · intro off hoff
    simp only [upd_same, hoff, if_true, upd_other _ _ _ _ hold]
  · intro off
    rw [upd_other _ _ _ _ hold, upd_other _ _ _ _ hold]
  · intro e he pn
    rw [upd_other _ _ _ _ he, upd_other _ _ _ _ he]

theorem scratchCowSys_fresh : scratchCowSys.fresh := by
  intro e pn h
  simp only [scratchCowSys] at h ⊢
  split at h
  · simp [pteFrame, PGSHIFT, *]
  · simp at h

theorem cowSys_fresh : cowSys.fresh := by
  intro e pn h
  simp only [cowSys] at h ⊢
  split at h
  · simp [pteFrame, PGSHIFT, *]
  · simp at h

/-- C1 (as amended): for every write fault on a page that is mapped present and copy-on-write
and is not the page at `PFTEMP`, when the allocator hands out a frame not in use and the
service carries out the allocation and the re-mapping, `pgfault` returns, the page-aligned
faulting address is mapped to the frame freshly allocated at `PFTEMP`, which differs from the
original frame, that frame holds the `PGSIZE` bytes the original frame held before, the new
permissions are `(pte & 0xfff & ~PTE_COW) | PTE_W` (writable, present, not copy-on-write), and
the original frame and the mappings of every other process are unchanged. -/
theorem pgfault_write_triggers_copy (utf : UTrapframe) (s : Sys)
    (hw : utf.utf_err &&& FEC_WR ≠ 0)
    (hpde : s.pd s.cur (PDX utf.utf_fault_va) &&& PTE_P ≠ 0)
    (hp : s.pt s.cur (PGNUM utf.utf_fault_va) &&& PTE_P ≠ 0)
    (hc : s.pt s.cur (PGNUM utf.utf_fault_va) &&& PTE_COW ≠ 0)
    (hfresh : s.fresh)
    (h1 : 0 ≤ s.verdict s.log.length) (h2 : 0 ≤ s.verdict (s.log.length + 1))
    (hne : ROUNDDOWN utf.utf_fault_va PGSIZE ≠ PFTEMP) :
    (pgfault utf s).1 = Res.ok () ∧
    (sys_page_alloc s.cur PFTEMP (PTE_P ||| PTE_W ||| PTE_U) s).2.pt s.cur (PGNUM PFTEMP) =
      mkpte s.nextFree (PTE_P ||| PTE_W ||| PTE_U) ∧
    pteFrame ((pgfault utf s).2.pt s.cur (PGNUM (ROUNDDOWN utf.utf_fault_va PGSIZE))) =
      s.nextFree ∧
    s.nextFree ≠ pteFrame (s.pt s.cur (PGNUM utf.utf_fault_va)) ∧
    (∀ off, off < PGSIZE → (pgfault utf s).2.mem s.nextFree off =
      s.mem (pteFrame (s.pt s.cur (PGNUM utf.utf_fault_va))) off) ∧
    (pgfault utf s).2.pt s.cur (PGNUM (ROUNDDOWN utf.utf_fault_va PGSIZE)) &&& 0xfff =
      (s.pt s.cur (PGNUM utf.utf_fault_va) &&& 0xfff &&& not32 PTE_COW) ||| PTE_W ∧
    (pgfault utf s).2.pt s.cur (PGNUM (ROUNDDOWN utf.utf_fault_va PGSIZE)) &&& PTE_W ≠ 0 ∧
    (pgfault utf s).2.pt s.cur (PGNUM (ROUNDDOWN utf.utf_fault_va PGSIZE)) &&& PTE_P ≠ 0 ∧
    (pgfault utf s).2.pt s.cur (PGNUM (ROUNDDOWN utf.utf_fault_va PGSIZE)) &&& PTE_COW = 0 ∧
    (∀ off, (pgfault utf s).2.mem (pteFrame (s.pt s.cur (PGNUM utf.utf_fault_va))) off =
      s.mem (pteFrame (s.pt s.cur (PGNUM utf.utf_fault_va))) off) ∧
    (∀ e, e ≠ s.cur → ∀ pn, (pgfault utf s).2.pt e pn = s.pt e pn) := by
  obtain ⟨hok, hpt, hnew, hold, hoth⟩ :=
    pgfault_copies_aux utf s ⟨hw, hpde, hp, hc⟩ hfresh h1 h2 hne
  have ha : ¬ s.answer < 0 := by rw [answer_neg_iff]; omega
  have hlt := promoted_perm_lt (s.pt s.cur (PGNUM utf.utf_fault_va))
  obtain ⟨bw, bp, bc⟩ := promoted_perm_bits (s.pt s.cur (PGNUM utf.utf_fault_va)) hp
  rw [PGNUM_ROUNDDOWN, hpt]
  refine ⟨hok, ?_, pteFrame_mkpte _ _ hlt, (Nat.ne_of_lt (hfresh _ _ hp)).symm, hnew,
    mkpte_and_fff _ _ hlt, ?_, ?_, ?_, hold, hoth⟩
  · rw [sys_page_alloc_done _ _ _ _ ha]
    simp only [upd_same]
  · rw [mkpte_and_mask _ _ _ hlt (by decide)]; exact bw
  · rw [mkpte_and_mask _ _ _ hlt (by decide)]; exact bp
  · rw [mkpte_and_mask _ _ _ hlt (by decide)]; exact bc

/-- Witness of `pgfault_write_triggers_copy`: the write fault `cowUtf` at `0x800abc` of the
process of `cowSys`. -/
theorem pgfault_write_triggers_copy_witness :
    (pgfault cowUtf cowSys).1 = Res.ok () ∧
    pteFrame ((pgfault cowUtf cowSys).2.pt 1 0x800) = 6 ∧
    (∀ off, off < PGSIZE → (pgfault cowUtf cowSys).2.mem 6 off = 0xAA) :=
  have h := pgfault_write_triggers_copy cowUtf cowSys (by decide) (by decide) (by decide)
    (by decide) cowSys_fresh (by decide) (by decide) (by decide)
  ⟨h.1, h.2.2.1, fun off hoff => (h.2.2.2.2.1 off hoff).trans rfl⟩

/-- C1 (counterexample): a write fault on the page at `PFTEMP` itself, mapped present and
copy-on-write on a frame full of `0xAA`.  Both requests are carried out and `pgfault` returns,
yet the frame then mapped at the faulting page holds `0`, not the byte the original frame
held: the allocation replaced the original mapping before the copy was made. -/
theorem pgfault_at_PFTEMP_loses_contents :
    scratchCowUtf.utf_err &&& FEC_WR ≠ 0 ∧
    scratchCowSys.pd scratchCowSys.cur (PDX scratchCowUtf.utf_fault_va) &&& PTE_P ≠ 0 ∧
    scratchCowSys.pt scratchCowSys.cur (PGNUM scratchCowUtf.utf_fault_va) &&& PTE_P ≠ 0 ∧
    scratchCowSys.pt scratchCowSys.cur (PGNUM scratchCowUtf.utf_fault_va) &&& PTE_COW ≠ 0 ∧
    scratchCowSys.fresh ∧
    (pgfault scratchCowUtf scratchCowSys).1 = Res.ok () ∧
    (pgfault scratchCowUtf scratchCowSys).2.log =
      [Req.page_alloc 1 PFTEMP 7, Req.page_map 1 PFTEMP 1 PFTEMP 7] ∧
    scratchCowSys.mem
      (pteFrame (scratchCowSys.pt scratchCowSys.cur (PGNUM scratchCowUtf.utf_fault_va))) 0
      = 0xAA ∧
    (pgfault scratchCowUtf scratchCowSys).2.mem
      (pteFrame ((pgfault scratchCowUtf scratchCowSys).2.pt scratchCowSys.cur
        (PGNUM (ROUNDDOWN scratchCowUtf.utf_fault_va PGSIZE)))) 0 = 0 :=
  ⟨by decide, by decide, by decide, by decide, scratchCowSys_fresh, by decide, by decide,
    by decide, by decide⟩

/-- C4 (what the code does instead): for every fault that `pgfault` services successfully, the
page at `PFTEMP` is still mapped when `pgfault` returns, present and on the very frame that was
allocated for the copy; the only requests issued are the allocation and the re-mapping, there
is no request that removes the scratch mapping. -/
theorem pgfault_leaves_scratch_mapped (utf : UTrapframe) (s : Sys)
    (hw : utf.utf_err &&& FEC_WR ≠ 0)
    (hpde : s.pd s.cur (PDX utf.utf_fault_va) &&& PTE_P ≠ 0)
    (hp : s.pt s.cur (PGNUM utf.utf_fault_va) &&& PTE_P ≠ 0)
    (hc : s.pt s.cur (PGNUM utf.utf_fault_va) &&& PTE_COW ≠ 0)
    (h1 : 0 ≤ s.verdict s.log.length) (h2 : 0 ≤ s.verdict (s.log.length + 1)) :
    (pgfault utf s).1 = Res.ok () ∧
    (pgfault utf s).2.pd s.cur (PDX PFTEMP) &&& PTE_P ≠ 0 ∧
    (pgfault utf s).2.pt s.cur (PGNUM PFTEMP) &&& PTE_P ≠ 0 ∧
    pteFrame ((pgfault utf s).2.pt s.cur (PGNUM PFTEMP)) = s.nextFree ∧
    pteFrame ((pgfault utf s).2.pt s.cur (PGNUM (ROUNDDOWN utf.utf_fault_va PGSIZE))) =
      s.nextFree ∧
    (pgfault utf s).2.log =
      s.log ++ [Req.page_alloc s.cur PFTEMP (PTE_P ||| PTE_W ||| PTE_U),
        Req.page_map s.cur PFTEMP s.cur (ROUNDDOWN utf.utf_fault_va PGSIZE)
          ((s.pt s.cur (PGNUM utf.utf_fault_va) &&& 0xfff &&& not32 PTE_COW) ||| PTE_W)] := by
  have hcow : cowWriteFault utf s := ⟨hw, hpde, hp, hc⟩
  have ha : ¬ s.answer < 0 := by rw [answer_neg_iff]; omega
  have hb : ¬ (memcpy PFTEMP (ROUNDDOWN utf.utf_fault_va PGSIZE) PGSIZE
      (sys_page_alloc s.cur PFTEMP (PTE_P ||| PTE_W ||| PTE_U) s).2).answer < 0 := by
    apply answer_after s _ _ 1 _ h2
    · rw [memcpy_verdict, sys_page_alloc_verdict]
    · rw [memcpy_log, sys_page_alloc_log]; simp
  have hlt := promoted_perm_lt (s.pt s.cur (PGNUM utf.utf_fault_va))
  have h7 : PTE_P ||| PTE_W ||| PTE_U < 4096 := by decide
  obtain ⟨-, bp, -⟩ := promoted_perm_bits (s.pt s.cur (PGNUM utf.utf_fault_va)) hp
  rw [pgfault_of_cow utf s hcow, sys_page_alloc_fst, if_neg ha, sys_page_map_fst, if_neg hb,
    sys_page_map_done _ _ _ _ _ _ hb, sys_page_alloc_done _ _ _ _ ha]
  simp only [memcpy, PGNUM_ROUNDDOWN, upd_same, pteFrame_mkpte _ _ h7, pteFrame_mkpte _ _ hlt]
  refine ⟨trivial, ?_, ?_, ?_, trivial, by simp⟩
  · by_cases hx : PDX PFTEMP = PDX (ROUNDDOWN utf.utf_fault_va PGSIZE)
    · rw [← hx, upd_same, upd_same, and_PTE_P_ne_zero_iff, Nat.testBit_or, Nat.testBit_or]
      simp [PTE_P]
    · rw [upd_other _ _ _ _ hx, upd_same, and_PTE_P_ne_zero_iff, Nat.testBit_or]
      simp [PTE_P]
  · by_cases hx : PGNUM PFTEMP = PGNUM utf.utf_fault_va
    · rw [hx, upd_same, mkpte_and_mask _ _ _ hlt (by decide)]
      exact bp
    · rw [upd_other _ _ _ _ hx, upd_same, mkpte_and_mask _ _ _ h7 (by decide)]
      decide
  · by_cases hx : PGNUM PFTEMP = PGNUM utf.utf_fault_va
    · rw [hx, upd_same, pteFrame_mkpte _ _ hlt]
    · rw [upd_other _ _ _ _ hx, upd_same, pteFrame_mkpte _ _ h7]

/-- Witness of `pgfault_leaves_scratch_mapped`: the write fault `cowUtf` of `cowSys`; after
the handler the page at `PFTEMP` and the faulting page are both mapped on frame 6. -/
theorem pgfault_leaves_scratch_mapped_witness :
    (pgfault cowUtf cowSys).1 = Res.ok () ∧
    (pgfault cowUtf cowSys).2.pt 1 (PGNUM PFTEMP) &&& PTE_P ≠ 0 ∧
    pteFrame ((pgfault cowUtf cowSys).2.pt 1 (PGNUM PFTEMP)) = 6 ∧
    pteFrame ((pgfault cowUtf cowSys).2.pt 1 (PGNUM 0x800000)) = 6 :=
  have h := pgfault_leaves_scratch_mapped cowUtf cowSys (by decide) (by decide) (by decide)
    (by decide) (by decide) (by decide)
  ⟨h.1, h.2.2.1, h.2.2.2.1, h.2.2.2.2.1⟩

/-! ## The per-page duplication routine -/

theorem testBit_demoted (pte i : Nat) :
    ((pte &&& 0xfff &&& not32 PTE_W) ||| PTE_COW).testBit i =
      ((pte.testBit i && decide (i < 12) && !decide (1 = i)) || decide (11 = i)) := by
  rw [Nat.testBit_or, Nat.testBit_and, Nat.testBit_and, testBit_not32,
    show PTE_W = 2 ^ 1 from rfl, show PTE_COW = 2 ^ 11 from rfl,
    show (0xfff : Nat) = 2 ^ 12 - 1 from rfl, Nat.testBit_two_pow, Nat.testBit_two_pow,
    Nat.testBit_two_pow_sub_one]
  by_cases h1 : i < 12
  · have h32 : i < 32 := by omega
    simp [h1, h32]
  · simp [h1]

theorem duppagePerm_lt (pte : Nat) : duppagePerm pte < 4096 := by
  have h1 : pte &&& 0xfff < 2 ^ 12 := Nat.and_lt_two_pow pte (by decide)
  unfold duppagePerm
  split
  · exact Nat.or_lt_two_pow (lt_of_le_of_lt Nat.and_le_left h1) (by decide)
  · exact h1

theorem duppagePerm_of_shared (pte : Nat) (h : pte &&& (PTE_W ||| PTE_COW) ≠ 0) :
    duppagePerm pte = (pte &&& 0xfff &&& not32 PTE_W) ||| PTE_COW := by
  simp [duppagePerm, h]

theorem duppagePerm_of_readonly (pte : Nat) (h : pte &&& (PTE_W ||| PTE_COW) = 0) :
    duppagePerm pte = pte &&& 0xfff := by
  simp [duppagePerm, h]

theorem and_fff_and_mask (pte m : Nat) (hm : 0xfff &&& m = m) :
    pte &&& 0xfff &&& m = pte &&& m := by
  rw [Nat.and_assoc, hm]

theorem duppagePerm_bits (pte : Nat) :
    (pte &&& (PTE_W ||| PTE_COW) ≠ 0 →
      duppagePerm pte &&& PTE_W = 0 ∧ duppagePerm pte &&& PTE_COW ≠ 0) ∧
    (pte &&& (PTE_W ||| PTE_COW) = 0 →
      duppagePerm pte &&& PTE_W = 0 ∧ duppagePerm pte &&& PTE_COW = 0) := by
  constructor
  · intro h
    rw [duppagePerm_of_shared pte h]
    constructor
    · rw [show PTE_W = 2 ^ 1 from rfl, and_two_pow_eq_zero_iff,
        show (2 : Nat) ^ 1 = PTE_W from rfl, testBit_demoted]
      simp
    · rw [and_PTE_COW_ne_zero_iff, testBit_demoted]
      simp
  · intro h
    rw [duppagePerm_of_readonly pte h]
    have h2 : ¬ (pte &&& PTE_W ≠ 0 ∨ pte &&& PTE_COW ≠ 0) := by
      rw [← and_WCOW]; exact not_not.mpr h
    push_neg at h2
    rw [and_fff_and_mask _ _ (by decide), and_fff_and_mask _ _ (by decide)]
    exact h2

theorem duppagePerm_not_both (pte : Nat) :
    ¬ (duppagePerm pte &&& PTE_W ≠ 0 ∧ duppagePerm pte &&& PTE_COW ≠ 0) := by
  rintro ⟨hw, -⟩
  by_cases h : pte &&& (PTE_W ||| PTE_COW) ≠ 0
  · exact hw ((duppagePerm_bits pte).1 h).1
  · exact hw ((duppagePerm_bits pte).2 (not_not.mp h)).1

theorem mkpte_split (pte : Nat) : mkpte (pteFrame pte) (pte &&& 0xfff) = pte := by
  unfold mkpte pteFrame PGSHIFT
  apply Nat.eq_of_testBit_eq
  intro i
  rw [Nat.testBit_or, Nat.testBit_shiftLeft, Nat.testBit_shiftRight, Nat.testBit_and,
    show (0xfff : Nat) = 2 ^ 12 - 1 from rfl, Nat.testBit_two_pow_sub_one]
  by_cases h : i < 12
  · have : ¬ i ≥ 12 := by omega
    simp [h, this]
  · have h2 : i ≥ 12 := by omega
    have h3 : 12 + (i - 12) = i := by omega
    simp [h, h2, h3]

theorem wrap32_page (pn : Nat) (h : pn < UTOP / PGSIZE) : wrap32 (pn * PGSIZE) = pn * PGSIZE := by
  simp only [wrap32, UTOP, PGSIZE] at h ⊢
  omega

theorem page_lt_UTOP (pn : Nat) (h : pn < UTOP / PGSIZE) : pn * PGSIZE < UTOP := by
  simp only [UTOP, PGSIZE] at h ⊢
  omega

theorem PGNUM_page (pn : Nat) : PGNUM (pn * PGSIZE) = pn := by
  simp only [PGNUM, PGSIZE, PGSHIFT, Nat.shiftRight_eq_div_pow]
  omega

theorem duppage_eq (envid : Int) (pn : Nat) (s : Sys) (hpn : pn < UTOP / PGSIZE)
    (hpde : s.pd s.cur (PDX (pn * PGSIZE)) &&& PTE_P ≠ 0) :
    duppage envid pn s =
      (if (sys_page_map s.cur (pn * PGSIZE) envid (pn * PGSIZE)
          (duppagePerm (s.pt s.cur pn)) s).1 < 0 then
        (Res.ok (sys_page_map s.cur (pn * PGSIZE) envid (pn * PGSIZE)
          (duppagePerm (s.pt s.cur pn)) s).1,
         (sys_page_map s.cur (pn * PGSIZE) envid (pn * PGSIZE)
          (duppagePerm (s.pt s.cur pn)) s).2)
       else if s.pt s.cur pn &&& (PTE_W ||| PTE_COW) ≠ 0 then
        (Res.ok 0, (sys_page_map s.cur (pn * PGSIZE) s.cur (pn * PGSIZE)
          (duppagePerm (s.pt s.cur pn))
          (sys_page_map s.cur (pn * PGSIZE) envid (pn * PGSIZE)
            (duppagePerm (s.pt s.cur pn)) s).2).2)
       else
        (Res.ok 0, (sys_page_map s.cur (pn * PGSIZE) envid (pn * PGSIZE)
          (duppagePerm (s.pt s.cur pn)) s).2)) := by
  unfold duppage
  simp only [wrap32_page pn hpn, page_lt_UTOP pn hpn, not_true_eq_false, if_false, hpde,
    PGNUM_page, sys_getenvid]
  split
  · rfl
  · split
    · rfl
    · rfl

theorem duppage_shared (envid : Int) (pn : Nat) (s : Sys) (hpn : pn < UTOP / PGSIZE)
    (hpde : s.pd s.cur (PDX (pn * PGSIZE)) &&& PTE_P ≠ 0)
    (h1 : 0 ≤ s.verdict s.log.length) (h2 : 0 ≤ s.verdict (s.log.length + 1))
    (hsh : s.pt s.cur pn &&& (PTE_W ||| PTE_COW) ≠ 0) :
    (duppage envid pn s).1 = Res.ok 0 ∧
    (duppage envid pn s).2.pt envid pn =
      mkpte (pteFrame (s.pt s.cur pn)) (duppagePerm (s.pt s.cur pn)) ∧
    (duppage envid pn s).2.pt s.cur pn =
      mkpte (pteFrame (s.pt s.cur pn)) (duppagePerm (s.pt s.cur pn)) ∧
    (duppage envid pn s).2.log =
      s.log ++ [Req.page_map s.cur (pn * PGSIZE) envid (pn * PGSIZE) (duppagePerm (s.pt s.cur pn)),
        Req.page_map s.cur (pn * PGSIZE) s.cur (pn * PGSIZE) (duppagePerm (s.pt s.cur pn))] := by
  have ha : ¬ s.answer < 0 := by rw [answer_neg_iff]; omega
  have hb : ¬ (sys_page_map s.cur (pn * PGSIZE) envid (pn * PGSIZE)
      (duppagePerm (s.pt s.cur pn)) s).2.answer < 0 := by
    apply answer_after s _ _ 1 _ h2
    · rw [sys_page_map_verdict]
    · rw [sys_page_map_log]; simp
  have hlt := duppagePerm_lt (s.pt s.cur pn)
  rw [duppage_eq envid pn s hpn hpde, sys_page_map_fst, if_neg ha, if_pos hsh,
    sys_page_map_done _ _ _ _ _ _ hb, sys_page_map_done _ _ _ _ _ _ ha]
  simp only [PGNUM_page, upd_same]
  refine ⟨trivial, ?_, ?_, by simp⟩
  · by_cases he : envid = s.cur
    · rw [he]
      simp only [upd_same, pteFrame_mkpte _ _ hlt]
    · rw [upd_other _ _ _ _ he, upd_same, upd_same]
  · by_cases he : s.cur = envid
    · rw [← he]
      simp only [upd_same, pteFrame_mkpte _ _ hlt]
    · rw [upd_other _ _ _ _ he]

theorem duppage_readonly (envid : Int) (pn : Nat) (s : Sys) (hpn : pn < UTOP / PGSIZE)
    (hpde : s.pd s.cur (PDX (pn * PGSIZE)) &&& PTE_P ≠ 0)
    (h1 : 0 ≤ s.verdict s.log.length)
    (hro : s.pt s.cur pn &&& (PTE_W ||| PTE_COW) = 0) :
    (duppage envid pn s).1 = Res.ok 0 ∧
    (duppage envid pn s).2.pt envid pn = s.pt s.cur pn ∧
    (∀ e, e ≠ envid → (duppage envid pn s).2.pt e = s.pt e) ∧
    (duppage envid pn s).2.log =
      s.log ++ [Req.page_map s.cur (pn * PGSIZE) envid (pn * PGSIZE) (s.pt s.cur pn &&& 0xfff)] := by
  have ha : ¬ s.answer < 0 := by rw [answer_neg_iff]; omega
  rw [duppage_eq envid pn s hpn hpde, sys_page_map_fst, if_neg ha, if_neg (not_not.mpr hro),
    sys_page_map_done _ _ _ _ _ _ ha, duppagePerm_of_readonly _ hro]
  simp only [PGNUM_page, upd_same, mkpte_split]
  refine ⟨trivial, trivial, ?_, trivial⟩
  intro e he
  rw [upd_other _ _ _ _ he]

/-- C2: for a present page below `UTOP` whose page-directory entry is present, handed to
`duppage` for a child other than the caller, with a service that carries out every request:
`duppage` returns 0, afterwards the parent and the child map the page on the same frame and
are never one writable and the other copy-on-write.  When the source entry had `PTE_W` or
`PTE_COW`, both carry exactly `(pte & 0xfff & ~PTE_W) | PTE_COW`; otherwise the child carries
exactly `pte & 0xfff` (its entry equals the parent's), the only request issued targets the
child and the parent's page table is untouched.  No permission `duppage` computes has
`PTE_W` and `PTE_COW` both set. -/
theorem duppage_mapping_disjointness (envid : Int) (pn : Nat) (s : Sys)
    (hpn : pn < UTOP / PGSIZE)
    (hpde : s.pd s.cur (PDX (pn * PGSIZE)) &&& PTE_P ≠ 0)
    (hp : s.pt s.cur pn &&& PTE_P ≠ 0)
    (hne : envid ≠ s.cur)
    (hserv : ∀ n, 0 ≤ s.verdict n) :
    (duppage envid pn s).1 = Res.ok 0 ∧
    pteFrame ((duppage envid pn s).2.pt envid pn) = pteFrame (s.pt s.cur pn) ∧
    pteFrame ((duppage envid pn s).2.pt s.cur pn) = pteFrame (s.pt s.cur pn) ∧
    (duppage envid pn s).2.pt envid pn &&& PTE_P ≠ 0 ∧
    (duppage envid pn s).2.pt s.cur pn &&& PTE_P ≠ 0 ∧
    ¬ ((duppage envid pn s).2.pt envid pn &&& PTE_W ≠ 0 ∧
        (duppage envid pn s).2.pt s.cur pn &&& PTE_COW ≠ 0) ∧
    ¬ ((duppage envid pn s).2.pt s.cur pn &&& PTE_W ≠ 0 ∧
        (duppage envid pn s).2.pt envid pn &&& PTE_COW ≠ 0) ∧
    (s.pt s.cur pn &&& (PTE_W ||| PTE_COW) ≠ 0 →
      (duppage envid pn s).2.pt envid pn &&& 0xfff =
        (s.pt s.cur pn &&& 0xfff &&& not32 PTE_W) ||| PTE_COW ∧
      (duppage envid pn s).2.pt s.cur pn &&& 0xfff =
        (s.pt s.cur pn &&& 0xfff &&& not32 PTE_W) ||| PTE_COW) ∧
    (s.pt s.cur pn &&& (PTE_W ||| PTE_COW) = 0 →
      (duppage envid pn s).2.pt envid pn &&& 0xfff = s.pt s.cur pn &&& 0xfff ∧
      (duppage envid pn s).2.pt envid pn = s.pt s.cur pn ∧
      (duppage envid pn s).2.pt s.cur = s.pt s.cur ∧
      (duppage envid pn s).2.log = s.log ++
        [Req.page_map s.cur (pn * PGSIZE) envid (pn * PGSIZE) (s.pt s.cur pn &&& 0xfff)]) ∧
    (∀ q, ¬ (duppagePerm q &&& PTE_W ≠ 0 ∧ duppagePerm q &&& PTE_COW ≠ 0)) := by
  have hlt := duppagePerm_lt (s.pt s.cur pn)
  by_cases hsh : s.pt s.cur pn &&& (PTE_W ||| PTE_COW) ≠ 0
  · obtain ⟨hok, hc, hpar, -⟩ := duppage_shared envid pn s hpn hpde (hserv _) (hserv _) hsh
    obtain ⟨bw, -⟩ := (duppagePerm_bits (s.pt s.cur pn)).1 hsh
    rw [hc, hpar]
    have bp : duppagePerm (s.pt s.cur pn) &&& PTE_P ≠ 0 := by
      rw [duppagePerm_of_shared _ hsh, and_PTE_P_ne_zero_iff, testBit_demoted,
        (and_PTE_P_ne_zero_iff _).1 hp]
      simp
    refine ⟨hok, pteFrame_mkpte _ _ hlt, pteFrame_mkpte _ _ hlt, ?_, ?_, ?_, ?_, ?_, ?_,
      duppagePerm_not_both⟩
    · rw [mkpte_and_mask _ _ _ hlt (by decide)]
      exact bp
    · rw [mkpte_and_mask _ _ _ hlt (by decide)]
      exact bp
    · rw [mkpte_and_mask _ _ _ hlt (by decide)]
      exact fun h => h.1 bw
    · rw [mkpte_and_mask _ _ _ hlt (by decide)]
      exact fun h => h.1 bw
    · intro _
      rw [mkpte_and_fff _ _ hlt, duppagePerm_of_shared _ hsh]
      exact ⟨rfl, rfl⟩
    · intro h
      exact absurd h hsh
  · have hro := not_not.mp hsh
    obtain ⟨hok, hc, hoth, hlog⟩ := duppage_readonly envid pn s hpn hpde (hserv _) hro
    have hpar := hoth s.cur hne.symm
    have h2 : ¬ (s.pt s.cur pn &&& PTE_W ≠ 0 ∨ s.pt s.cur pn &&& PTE_COW ≠ 0) := by
      rw [← and_WCOW]; exact hsh
    push_neg at h2
    rw [hc, hpar]
    refine ⟨hok, rfl, rfl, hp, hp, fun h => h.1 h2.1, fun h => h.1 h2.1, fun h => absurd h hsh,
      fun _ => ⟨rfl, rfl, rfl, hlog⟩, duppagePerm_not_both⟩

/-- Witness of `duppage_mapping_disjointness`: the writable page `0x800` of `parentSys`,
duplicated into process 2. -/
theorem duppage_mapping_disjointness_witness :
    (duppage 2 0x800 parentSys).1 = Res.ok 0 ∧
    pteFrame ((duppage 2 0x800 parentSys).2.pt 2 0x800) = 5 ∧
    pteFrame ((duppage 2 0x800 parentSys).2.pt 1 0x800) = 5 :=
  have h := duppage_mapping_disjointness 2 0x800 parentSys (by decide) (by decide) (by decide)
    (by decide) (fun _ => le_refl _)
  ⟨h.1, h.2.1, h.2.2.1⟩

/-- C5 (what the code does instead): when the source entry is writable or copy-on-write, the
request that installs the page in the child is carried out and the request that re-installs
it in the parent fails, `duppage` still returns 0: the result of the second request is never
stored, the test after it looks at the result of the first.  The parent (when it is not
the child) keeps its entry for the page as it was. -/
theorem duppage_ignores_failed_parent_remap (envid : Int) (pn : Nat) (s : Sys)
    (hpn : pn < UTOP / PGSIZE)
    (hpde : s.pd s.cur (PDX (pn * PGSIZE)) &&& PTE_P ≠ 0)
    (hsh : s.pt s.cur pn &&& (PTE_W ||| PTE_COW) ≠ 0)
    (h1 : 0 ≤ s.verdict s.log.length) (h2 : s.verdict (s.log.length + 1) < 0) :
    (duppage envid pn s).1 = Res.ok 0 ∧
    (sys_page_map s.cur (pn * PGSIZE) s.cur (pn * PGSIZE) (duppagePerm (s.pt s.cur pn))
      (sys_page_map s.cur (pn * PGSIZE) envid (pn * PGSIZE)
        (duppagePerm (s.pt s.cur pn)) s).2).1 < 0 ∧
    (duppage envid pn s).2.log =
      s.log ++ [Req.page_map s.cur (pn * PGSIZE) envid (pn * PGSIZE) (duppagePerm (s.pt s.cur pn)),
        Req.page_map s.cur (pn * PGSIZE) s.cur (pn * PGSIZE) (duppagePerm (s.pt s.cur pn))] ∧
    (envid ≠ s.cur → (duppage envid pn s).2.pt s.cur pn = s.pt s.cur pn) := by
  have ha : ¬ s.answer < 0 := by rw [answer_neg_iff]; omega
  have hb : (sys_page_map s.cur (pn * PGSIZE) envid (pn * PGSIZE)
      (duppagePerm (s.pt s.cur pn)) s).2.answer < 0 := by
    rw [answer_neg_iff, sys_page_map_verdict, sys_page_map_log]
    simpa using h2
  rw [duppage_eq envid pn s hpn hpde, sys_page_map_fst, if_neg ha, if_pos hsh,
    sys_page_map_fst, sys_page_map_refused _ _ _ _ _ _ hb, sys_page_map_done _ _ _ _ _ _ ha]
  refine ⟨rfl, ?_, by simp [Sys.record], ?_⟩
  · rw [sys_page_map_done _ _ _ _ _ _ ha] at hb
    exact hb
  · intro hne
    simp only [Sys.record]
    rw [upd_other _ _ _ _ hne.symm]

/-- Witness of `duppage_ignores_failed_parent_remap`: the writable page `0x800` of
`refusingSys` duplicated into process 2.  `duppage` returns 0 although the parent's request
was refused; the child then holds the page copy-on-write (`0x5805`) while the parent still
holds it writable (`0x5007`), on the same frame. -/
theorem duppage_ignores_failed_parent_remap_witness :
    (duppage 2 0x800 refusingSys).1 = Res.ok 0 ∧
    (duppage 2 0x800 refusingSys).2.log =
      [Req.page_map 1 0x800000 2 0x800000 0x805, Req.page_map 1 0x800000 1 0x800000 0x805] ∧
    (duppage 2 0x800 refusingSys).2.pt 2 0x800 = 0x5805 ∧
    (duppage 2 0x800 refusingSys).2.pt 1 0x800 = 0x5007 :=
  have h := duppage_ignores_failed_parent_remap 2 0x800 refusingSys (by decide) (by decide)
    (by decide) (by decide) (by decide)
  ⟨h.1, h.2.2.1, by decide, h.2.2.2 (by decide)⟩

/-! ## The page-fault upcall of the kernel -/

theorem sub32_of_le (a b : Nat) (hb : b ≤ a) (ha : a < 2 ^ 32) : sub32 a b = a - b := by
  unfold sub32 wrap32
  have h1 : b % 2 ^ 32 = b := Nat.mod_eq_of_lt (lt_of_le_of_lt hb ha)
  rw [h1]
  omega

/-- C6 (what the code does instead): for every user-mode page fault with a registered handler
whose trap-time stack pointer lies on the exception stack and whose target passes the
writability check, `page_fault_handler` places the record at `tf_esp - 32 -
sizeof(struct UTrapframe)`, so that it ends at `tf_esp - 32`, and writes the sentinel word
at `tf_esp - 32`: eight words, not one, lie between the interrupted frame and the record,
and the word at `tf_esp - 4` is not written. -/
theorem page_fault_handler_recursive_gap (user_mem_check : Nat → Nat → Nat → Bool)
    (env_id upcall fault_va : Nat) (tf : Trapframe)
    (huser : tf.tf_cs &&& 3 ≠ 0) (hup : upcall ≠ 0)
    (hlo : UXSTACKTOP - PGSIZE ≤ tf.tf_esp) (hhi : tf.tf_esp < UXSTACKTOP)
    (hchk : user_mem_check (tf.tf_esp - 32 - sizeof_UTrapframe) sizeof_UTrapframe PTE_W = true) :
    (page_fault_handler user_mem_check env_id upcall fault_va tf).events =
      [KEvent.check (tf.tf_esp - 32 - sizeof_UTrapframe) sizeof_UTrapframe PTE_W,
       KEvent.store32 (tf.tf_esp - 32) 0,
       KEvent.storeUtf (tf.tf_esp - 32 - sizeof_UTrapframe)
        { utf_fault_va := fault_va, utf_err := tf.tf_err, utf_regs := tf.tf_regs,
          utf_eip := tf.tf_eip, utf_eflags := tf.tf_eflags, utf_esp := tf.tf_esp }] ∧
    (page_fault_handler user_mem_check env_id upcall fault_va tf).tf.tf_esp =
      tf.tf_esp - 32 - sizeof_UTrapframe ∧
    (page_fault_handler user_mem_check env_id upcall fault_va tf).fin = KEnd.resumed ∧
    tf.tf_esp - 32 - sizeof_UTrapframe + sizeof_UTrapframe + 28 = tf.tf_esp - 4 ∧
    tf.tf_esp - 32 ≠ tf.tf_esp - 4 := by
  have h1 : sub32 tf.tf_esp 32 = tf.tf_esp - 32 :=
    sub32_of_le _ _ (by simp only [UXSTACKTOP, UTOP, PGSIZE] at hlo; omega)
      (by simp only [UXSTACKTOP, UTOP] at hhi; omega)
  have h2 : sub32 (tf.tf_esp - 32) sizeof_UTrapframe = tf.tf_esp - 32 - sizeof_UTrapframe :=
    sub32_of_le _ _ (by simp only [UXSTACKTOP, UTOP, PGSIZE, sizeof_UTrapframe] at hlo ⊢; omega)
      (by simp only [UXSTACKTOP, UTOP] at hhi; omega)
  have hr : (decide (tf.tf_esp < UXSTACKTOP ∧ tf.tf_esp ≥ UXSTACKTOP - PGSIZE)) = true := by
    simp [hlo, hhi]
  unfold page_fault_handler
  simp only [huser, hup, if_false, hr, if_true, h1, h2, hchk]
  refine ⟨by simp, by simp, by simp, ?_, ?_⟩
  · simp only [UXSTACKTOP, UTOP, PGSIZE, sizeof_UTrapframe] at hlo ⊢; omega
  · simp only [UXSTACKTOP, UTOP, PGSIZE] at hlo; omega

/-- Witness of `page_fault_handler_recursive_gap`: the nested fault `nestedTf`, whose stack
pointer is `0xeebffff0`; the sentinel goes to `0xeebfffd0` and the record to `0xeebfff9c`. -/
theorem page_fault_handler_recursive_gap_witness :
    (page_fault_handler (fun _ _ _ => true) 0x1001 0x800040 0x800abc nestedTf).events =
      [KEvent.check 0xeebfff9c 52 PTE_W,
       KEvent.store32 0xeebfffd0 0,
       KEvent.storeUtf 0xeebfff9c
        { utf_fault_va := 0x800abc, utf_err := 0x7, utf_regs := ⟨1, 2, 3, 4, 5, 6, 7, 8⟩,
          utf_eip := 0x800123, utf_eflags := 0x202, utf_esp := 0xeebffff0 }] :=
  (page_fault_handler_recursive_gap (fun _ _ _ => true) 0x1001 0x800040 0x800abc nestedTf
    (by decide) (by decide) (by decide) (by decide) rfl).1

/-- C7: for every user-mode page fault of a process with a registered handler whose trap-time
stack pointer lies outside `[UXSTACKTOP - PGSIZE, UXSTACKTOP)` and whose exception stack
passes the writability check, `page_fault_handler` writes at `UXSTACKTOP -
sizeof(struct UTrapframe)` a record holding the interrupted flags, instruction pointer,
error code, stack pointer and registers and the faulting address, sets the saved stack
pointer to the address of the record and the saved instruction pointer to the handler,
leaves every other field of the saved context as it was, and resumes the process. -/
theorem page_fault_handler_top_of_stack (user_mem_check : Nat → Nat → Nat → Bool)
    (env_id upcall fault_va : Nat) (tf : Trapframe)
    (huser : tf.tf_cs &&& 3 ≠ 0) (hup : upcall ≠ 0)
    (hout : ¬ (UXSTACKTOP - PGSIZE ≤ tf.tf_esp ∧ tf.tf_esp < UXSTACKTOP))
    (hchk : user_mem_check (UXSTACKTOP - sizeof_UTrapframe) sizeof_UTrapframe PTE_W = true) :
    page_fault_handler user_mem_check env_id upcall fault_va tf =
      { tf :=
          { tf_regs := tf.tf_regs, tf_es := tf.tf_es, tf_ds := tf.tf_ds,
            tf_trapno := tf.tf_trapno, tf_err := tf.tf_err, tf_eip := upcall,
            tf_cs := tf.tf_cs, tf_eflags := tf.tf_eflags,
            tf_esp := UXSTACKTOP - sizeof_UTrapframe, tf_ss := tf.tf_ss }
        events :=
          [KEvent.check (UXSTACKTOP - sizeof_UTrapframe) sizeof_UTrapframe PTE_W,
           KEvent.storeUtf (UXSTACKTOP - sizeof_UTrapframe)
            { utf_fault_va := fault_va, utf_err := tf.tf_err, utf_regs := tf.tf_regs,
              utf_eip := tf.tf_eip, utf_eflags := tf.tf_eflags, utf_esp := tf.tf_esp }]
        fin := KEnd.resumed } := by
  have hr : (decide (tf.tf_esp < UXSTACKTOP ∧ tf.tf_esp ≥ UXSTACKTOP - PGSIZE)) = false := by
    simp only [decide_eq_false_iff_not]
    intro h
    exact hout ⟨h.2, h.1⟩
  unfold page_fault_handler
  simp only [huser, hup, if_false, hr]
  simp [hchk]

/-- Witness of `page_fault_handler_top_of_stack`: the fault `plainTf` taken on the normal
stack; the record is written at `0xeebfffcc`. -/
theorem page_fault_handler_top_of_stack_witness :
    (page_fault_handler (fun _ _ _ => true) 0x1001 0x800040 0x800abc plainTf).tf.tf_esp =
      0xeebfffcc ∧
    (page_fault_handler (fun _ _ _ => true) 0x1001 0x800040 0x800abc plainTf).tf.tf_eip =
      0x800040 ∧
    (page_fault_handler (fun _ _ _ => true) 0x1001 0x800040 0x800abc plainTf).fin =
      KEnd.resumed :=
  have h := page_fault_handler_top_of_stack (fun _ _ _ => true) 0x1001 0x800040 0x800abc
    plainTf (by decide) (by decide) (by decide) rfl
  ⟨by rw [h]; rfl, by rw [h], by rw [h]⟩

/-! ## The duplication walk -/

theorem forkBody_skip (child_envid : Int) (va : Nat) (s : Sys)
    (hx : va ≠ UXSTACKTOP - PGSIZE)
    (h : s.pd s.cur (PDX va) &&& PTE_P = 0 ∨ s.pt s.cur (PGNUM va) &&& PTE_P = 0) :
    forkBody child_envid va s = (Res.ok (), s) := by
  unfold forkBody
  rw [if_neg hx]
  by_cases hpde : s.pd s.cur (PDX va) &&& PTE_P = 0
  · rw [if_pos hpde]
  · rw [if_neg hpde]
    have hp : s.pt s.cur (PGNUM va) &&& PTE_P = 0 := h.resolve_left hpde
    simp [hp]

theorem sforkBody_skip (child_envid : Int) (va : Nat) (s : Sys)
    (hx : va ≠ UXSTACKTOP - PGSIZE) (hs : va ≠ USTACKTOP - PGSIZE)
    (h : s.pd s.cur (PDX va) &&& PTE_P = 0 ∨ s.pt s.cur (PGNUM va) &&& PTE_P = 0) :
    sforkBody child_envid va s = (Res.ok (), s) := by
  unfold sforkBody
  rw [if_neg hx, if_neg hs]
  by_cases hpde : s.pd s.cur (PDX va) &&& PTE_P = 0
  · rw [if_pos hpde]
  · rw [if_neg hpde]
    have hp : s.pt s.cur (PGNUM va) &&& PTE_P = 0 := h.resolve_left hpde
    simp [hp]

theorem walk_succ (body : Nat → Sys → Res Unit × Sys) (n k : Nat) (s : Sys) :
    walk body (n + 1) (k * PGSIZE) s =
      match body (k * PGSIZE) s with
      | (Res.ok _, s1) => walk body n ((k + 1) * PGSIZE) s1
      | (Res.panic msg, s1) => (Res.panic msg, s1) := by
  rw [walk, Nat.add_mul, Nat.one_mul]

theorem walk_preserves (body : Nat → Sys → Res Unit × Sys) (R : Sys → Sys → Prop) (N : Nat)
    (hrefl : ∀ s, R s s) (htrans : ∀ a b c, R a b → R b c → R a c)
    (hbody : ∀ i s, i < N → R s (body (i * PGSIZE) s).2) :
    ∀ n k s, k + n ≤ N → R s (walk body n (k * PGSIZE) s).2 := by
  intro n
  induction n with
  | zero => intro k s _; exact hrefl s
  | succ n ih =>
    intro k s hk
    rw [walk_succ]
    have hb := hbody k s (by omega)
    cases hres : body (k * PGSIZE) s with
    | mk r s1 =>
      rw [hres] at hb
      cases r with
      | ok u => exact htrans _ _ _ hb (ih (k + 1) s1 (by omega))
      | panic msg => exact hb

theorem walk_congr (body1 body2 : Nat → Sys → Res Unit × Sys) (N : Nat)
    (h : ∀ i s, i < N → body1 (i * PGSIZE) s = body2 (i * PGSIZE) s) :
    ∀ n k s, k + n ≤ N → walk body1 n (k * PGSIZE) s = walk body2 n (k * PGSIZE) s := by
  intro n
  induction n with
  | zero => intro k s _; rfl
  | succ n ih =>
    intro k s hk
    rw [walk_succ, walk_succ, h k s (by omega)]
    cases hres : body2 (k * PGSIZE) s with
    | mk r s1 =>
      cases r with
      | ok u => exact ih (k + 1) s1 (by omega)
      | panic msg => rfl

theorem xstackExclusive_refl (child : Int) (s : Sys) : xstackExclusive child s s :=
  ⟨⟨[], by simp, by simp⟩, fun _ _ => rfl, Or.inl rfl⟩

theorem xstackExclusive_trans (child : Int) (a b c : Sys)
    (h1 : xstackExclusive child a b) (h2 : xstackExclusive child b c) :
    xstackExclusive child a c := by
  obtain ⟨⟨r1, hl1, hq1⟩, ho1, hc1⟩ := h1
  obtain ⟨⟨r2, hl2, hq2⟩, ho2, hc2⟩ := h2
  refine ⟨⟨r1 ++ r2, by rw [hl2, hl1, List.append_assoc], ?_⟩, ?_, ?_⟩
  · intro q hq hn
    rcases List.mem_append.1 hq with h | h
    · exact hq1 q h hn
    · exact hq2 q h hn
  · intro e he
    rw [ho2 e he, ho1 e he]
  · rcases hc2 with h | h
    · rw [h]; exact hc1
    · exact Or.inr h

theorem xstackExclusive_of_same (child : Int) (s t : Sys) (q : Req)
    (hlog : t.log = s.log ++ [q])
    (hq : q.namesPage (PGNUM (UXSTACKTOP - PGSIZE)) = false)
    (hpt : ∀ e, t.pt e (PGNUM (UXSTACKTOP - PGSIZE)) = s.pt e (PGNUM (UXSTACKTOP - PGSIZE))) :
    xstackExclusive child s t := by
  refine ⟨⟨[q], hlog, ?_⟩, fun e _ => hpt e, Or.inl (hpt child)⟩
  intro q2 hq2 hn
  rw [List.mem_singleton.1 hq2, hq] at hn
  exact absurd hn (by decide)

theorem xstackExclusive_alloc (child : Int) (s : Sys) :
    xstackExclusive child s
      (sys_page_alloc child (UXSTACKTOP - PGSIZE) (PTE_U ||| PTE_P ||| PTE_W) s).2 := by
  refine ⟨⟨[Req.page_alloc child (UXSTACKTOP - PGSIZE) (PTE_U ||| PTE_P ||| PTE_W)],
    sys_page_alloc_log _ _ _ _, ?_⟩, ?_, ?_⟩
  · intro q hq _
    exact List.mem_singleton.1 hq
  · intro e he
    by_cases ha : s.answer < 0
    · rw [sys_page_alloc_refused _ _ _ _ ha]; rfl
    · rw [sys_page_alloc_done _ _ _ _ ha]
      simp only []
      rw [upd_other _ _ _ _ he]
  · by_cases ha : s.answer < 0
    · rw [sys_page_alloc_refused _ _ _ _ ha]; exact Or.inl rfl
    · rw [sys_page_alloc_done _ _ _ _ ha]
      exact Or.inr ⟨s.nextFree, by simp only [upd_same]⟩

theorem xstackExclusive_map (child : Int) (se de : Int) (va perm : Nat) (s : Sys)
    (hva : PGNUM va ≠ PGNUM (UXSTACKTOP - PGSIZE)) :
    xstackExclusive child s (sys_page_map se va de va perm s).2 := by
  apply xstackExclusive_of_same child s _ (Req.page_map se va de va perm)
    (sys_page_map_log _ _ _ _ _ _)
  · simp [Req.namesPage, hva]
  · intro e
    by_cases ha : s.answer < 0
    · rw [sys_page_map_refused _ _ _ _ _ _ ha]; rfl
    · rw [sys_page_map_done _ _ _ _ _ _ ha]
      simp only []
      by_cases he : e = de
      · rw [he, upd_same, upd_other _ _ _ _ (Ne.symm hva)]
      · rw [upd_other _ _ _ _ he]

theorem duppage_no_pde (envid : Int) (pn : Nat) (s : Sys) (hpn : pn < UTOP / PGSIZE)
    (hpde : s.pd s.cur (PDX (pn * PGSIZE)) &&& PTE_P = 0) :
    duppage envid pn s = (Res.panic "pde does not exist", s) := by
  unfold duppage
  simp only [wrap32_page pn hpn, page_lt_UTOP pn hpn, not_true_eq_false, if_false, hpde, if_true]

theorem xstackExclusive_duppage (child envid : Int) (pn : Nat) (s : Sys)
    (hpn : pn < UTOP / PGSIZE) (hne : pn ≠ PGNUM (UXSTACKTOP - PGSIZE)) :
    xstackExclusive child s (duppage envid pn s).2 := by
  have hva : PGNUM (pn * PGSIZE) ≠ PGNUM (UXSTACKTOP - PGSIZE) := by
    rw [PGNUM_page]; exact hne
  by_cases hpde : s.pd s.cur (PDX (pn * PGSIZE)) &&& PTE_P = 0
  · rw [duppage_no_pde envid pn s hpn hpde]
    exact xstackExclusive_refl child s
  · rw [duppage_eq envid pn s hpn hpde]
    split
    · exact xstackExclusive_map child _ _ _ _ s hva
    · split
      · exact xstackExclusive_trans child _ _ _ (xstackExclusive_map child _ _ _ _ s hva)
          (xstackExclusive_map child _ _ _ _ _ hva)
      · exact xstackExclusive_map child _ _ _ _ s hva

theorem page_ne_xstack (i : Nat) (h : i * PGSIZE ≠ UXSTACKTOP - PGSIZE) :
    i ≠ PGNUM (UXSTACKTOP - PGSIZE) := by
  intro hi
  apply h
  rw [hi]
  decide

theorem forkBody_xstack_snd (child : Int) (va : Nat) (s : Sys) (hx : va = UXSTACKTOP - PGSIZE) :
    (forkBody child va s).2 = (sys_page_alloc child va (PTE_U ||| PTE_P ||| PTE_W) s).2 := by
  unfold forkBody
  rw [if_pos hx]
  simp only []
  split <;> rfl

theorem forkBody_dup_snd (child : Int) (va : Nat) (s : Sys) (hx : va ≠ UXSTACKTOP - PGSIZE)
    (hpde : s.pd s.cur (PDX va) &&& PTE_P ≠ 0) (hp : s.pt s.cur (PGNUM va) &&& PTE_P ≠ 0) :
    (forkBody child va s).2 = (duppage child (PGNUM va) s).2 := by
  unfold forkBody
  rw [if_neg hx, if_neg hpde]
  simp only [hp, ne_eq, not_false_eq_true, if_true]
  cases hres : duppage child (PGNUM va) s with
  | mk r s1 =>
    cases r with
    | ok err => simp only []; split <;> rfl
    | panic msg => rfl

theorem sforkBody_xstack_snd (child : Int) (va : Nat) (s : Sys)
    (hx : va = UXSTACKTOP - PGSIZE) :
    (sforkBody child va s).2 = (sys_page_alloc child va (PTE_U ||| PTE_P ||| PTE_W) s).2 := by
  unfold sforkBody
  rw [if_pos hx]
  simp only []
  split <;> rfl

theorem sforkBody_stack_snd (child : Int) (va : Nat) (s : Sys) (hx : va ≠ UXSTACKTOP - PGSIZE)
    (hs : va = USTACKTOP - PGSIZE) :
    (sforkBody child va s).2 = (duppage child (va >>> PGSHIFT) s).2 := by
  unfold sforkBody
  rw [if_neg hx, if_pos hs]
  cases hres : duppage child (va >>> PGSHIFT) s with
  | mk r s1 =>
    cases r with
    | ok err => simp only []; split <;> rfl
    | panic msg => rfl

theorem sforkBody_map_snd (child : Int) (va : Nat) (s : Sys) (hx : va ≠ UXSTACKTOP - PGSIZE)
    (hs : va ≠ USTACKTOP - PGSIZE)
    (hpde : s.pd s.cur (PDX va) &&& PTE_P ≠ 0) (hp : s.pt s.cur (PGNUM va) &&& PTE_P ≠ 0) :
    (sforkBody child va s).2 =
      (sys_page_map s.cur va child va (s.pt s.cur (PGNUM va) &&& 0xfff) s).2 := by
  unfold sforkBody
  rw [if_neg hx, if_neg hs, if_neg hpde]
  simp only [hp, ne_eq, not_false_eq_true, if_true]
  split <;> rfl

theorem xstackExclusive_forkBody (child : Int) (i : Nat) (s : Sys) (hi : i < UTOP / PGSIZE) :
    xstackExclusive child s (forkBody child (i * PGSIZE) s).2 := by
  by_cases hx : i * PGSIZE = UXSTACKTOP - PGSIZE
  · rw [forkBody_xstack_snd child _ s hx, hx]
    exact xstackExclusive_alloc child s
  · by_cases hpres : s.pd s.cur (PDX (i * PGSIZE)) &&& PTE_P = 0 ∨
        s.pt s.cur (PGNUM (i * PGSIZE)) &&& PTE_P = 0
    · rw [forkBody_skip child _ s hx hpres]
      exact xstackExclusive_refl child s
    · push_neg at hpres
      rw [forkBody_dup_snd child _ s hx hpres.1 hpres.2, PGNUM_page]
      exact xstackExclusive_duppage child child i s hi (page_ne_xstack i hx)

theorem xstackExclusive_sforkBody (child : Int) (i : Nat) (s : Sys) (hi : i < UTOP / PGSIZE) :
    xstackExclusive child s (sforkBody child (i * PGSIZE) s).2 := by
  by_cases hx : i * PGSIZE = UXSTACKTOP - PGSIZE
  · rw [sforkBody_xstack_snd child _ s hx, hx]
    exact xstackExclusive_alloc child s
  · by_cases hs : i * PGSIZE = USTACKTOP - PGSIZE
    · rw [sforkBody_stack_snd child _ s hx hs, show (i * PGSIZE) >>> PGSHIFT = i from PGNUM_page i]
      exact xstackExclusive_duppage child child i s hi (page_ne_xstack i hx)
    · by_cases hpres : s.pd s.cur (PDX (i * PGSIZE)) &&& PTE_P = 0 ∨
          s.pt s.cur (PGNUM (i * PGSIZE)) &&& PTE_P = 0
      · rw [sforkBody_skip child _ s hx hs hpres]
        exact xstackExclusive_refl child s
      · push_neg at hpres
        rw [sforkBody_map_snd child _ s hx hs hpres.1 hpres.2]
        apply xstackExclusive_map
        rw [PGNUM_page]
        exact page_ne_xstack i hx

theorem finish_log (child : Int) (s : Sys) :
    (finish child s).log = s.log ++ [Req.env_set_pgfault_upcall child (s.upcall s.cur),
      Req.env_set_status child ENV_RUNNABLE] := by
  unfold finish sys_env_set_pgfault_upcall sys_env_set_status
  simp only []
  split <;> split <;> simp [Sys.record]

theorem finish_pt (child : Int) (s : Sys) : (finish child s).pt = s.pt := by
  unfold finish sys_env_set_pgfault_upcall sys_env_set_status
  simp only []
  split <;> split <;> simp [Sys.record]

theorem finish_pd (child : Int) (s : Sys) : (finish child s).pd = s.pd := by
  unfold finish sys_env_set_pgfault_upcall sys_env_set_status
  simp only []
  split <;> split <;> simp [Sys.record]

theorem finish_mem (child : Int) (s : Sys) : (finish child s).mem = s.mem := by
  unfold finish sys_env_set_pgfault_upcall sys_env_set_status
  simp only []
  split <;> split <;> simp [Sys.record]

theorem xstackExclusive_finish (child : Int) (s : Sys) :
    xstackExclusive child s (finish child s) := by
  refine ⟨⟨_, finish_log child s, ?_⟩, ?_, ?_⟩
  · intro q hq hn
    simp only [List.mem_cons, List.mem_singleton, List.not_mem_nil, or_false] at hq
    rcases hq with h | h <;> rw [h] at hn <;> simp [Req.namesPage] at hn
  · intro e _
    rw [finish_pt]
  · left
    rw [finish_pt]

theorem forkBodyWith_eq (dup : Int → Nat → Sys → Res Int × Sys)
    (hdup : ∀ e pn s, pn ≠ PGNUM (UXSTACKTOP - PGSIZE) → dup e pn s = duppage e pn s)
    (child : Int) (i : Nat) (s : Sys) :
    forkBodyWith dup child (i * PGSIZE) s = forkBody child (i * PGSIZE) s := by
  unfold forkBodyWith forkBody
  by_cases hx : i * PGSIZE = UXSTACKTOP - PGSIZE
  · rw [if_pos hx, if_pos hx]
  · rw [if_neg hx, if_neg hx, PGNUM_page, hdup child i s (page_ne_xstack i hx)]

theorem sforkBodyWith_eq (dup : Int → Nat → Sys → Res Int × Sys)
    (hdup : ∀ e pn s, pn ≠ PGNUM (UXSTACKTOP - PGSIZE) → dup e pn s = duppage e pn s)
    (child : Int) (i : Nat) (s : Sys) :
    sforkBodyWith dup child (i * PGSIZE) s = sforkBody child (i * PGSIZE) s := by
  unfold sforkBodyWith sforkBody
  by_cases hx : i * PGSIZE = UXSTACKTOP - PGSIZE
  · rw [if_pos hx, if_pos hx]
  · rw [if_neg hx, if_neg hx, show (i * PGSIZE) >>> PGSHIFT = i from PGNUM_page i,
      hdup child i s (page_ne_xstack i hx)]

theorem stack_page : PGNUM (USTACKTOP - PGSIZE) * PGSIZE = USTACKTOP - PGSIZE := by decide

theorem stack_page_lt : PGNUM (USTACKTOP - PGSIZE) < UTOP / PGSIZE := by decide

theorem PGNUM_page_add (pn off : Nat) (h : off < PGSIZE) : PGNUM (pn * PGSIZE + off) = pn := by
  simp only [PGNUM, PGSIZE, PGSHIFT, Nat.shiftRight_eq_div_pow] at h ⊢
  omega

theorem PDX_page_add (pn off : Nat) (h : off < PGSIZE) :
    PDX (pn * PGSIZE + off) = PDX (pn * PGSIZE) := by
  simp only [PGSIZE] at h
  have h1 : (pn * 4096 + off) / 4194304 = pn * 4096 / 4194304 := by omega
  have h2 : (2 : Nat) ^ 22 = 4194304 := by norm_num
  simp only [PDX, PGSIZE, Nat.shiftRight_eq_div_pow, h2, h1]

theorem page_add_mod (pn off : Nat) (h : off < PGSIZE) : (pn * PGSIZE + off) % PGSIZE = off := by
  simp only [PGSIZE] at h ⊢
  omega

theorem stack_store_page (x : Nat) :
    PGNUM (USTACKTOP - PGSIZE + x % PGSIZE) = PGNUM (USTACKTOP - PGSIZE) ∧
    PDX (USTACKTOP - PGSIZE + x % PGSIZE) = PDX (USTACKTOP - PGSIZE) ∧
    ROUNDDOWN (USTACKTOP - PGSIZE + x % PGSIZE) PGSIZE = USTACKTOP - PGSIZE := by
  have hx : x % PGSIZE < PGSIZE := Nat.mod_lt _ (by decide)
  have h1 := PGNUM_page_add (PGNUM (USTACKTOP - PGSIZE)) (x % PGSIZE) hx
  have h2 := PDX_page_add (PGNUM (USTACKTOP - PGSIZE)) (x % PGSIZE) hx
  have h3 := page_add_mod (PGNUM (USTACKTOP - PGSIZE)) (x % PGSIZE) hx
  rw [stack_page] at h1 h2 h3
  refine ⟨h1.trans (by decide), h2, ?_⟩
  unfold ROUNDDOWN
  rw [h3]
  omega

theorem stackPush_writable (ctx : UTrapframe) (s : Sys)
    (hpd : s.pd s.cur (PDX (USTACKTOP - PGSIZE)) &&& PTE_P ≠ 0)
    (hp : s.pt s.cur (PGNUM (USTACKTOP - PGSIZE)) &&& PTE_P ≠ 0)
    (hw : s.pt s.cur (PGNUM (USTACKTOP - PGSIZE)) &&& PTE_W ≠ 0) :
    stackPush ctx s = (Res.ok (), s) := by
  obtain ⟨h1, h2, -⟩ := stack_store_page ctx.utf_esp
  unfold stackPush
  simp only [h1, h2]
  rw [if_pos ⟨hpd, hp, hw⟩]

theorem stackPush_cases (ctx : UTrapframe) (s : Sys) :
    stackPush ctx s = (Res.ok (), s) ∨
    ∃ utf : UTrapframe, utf.utf_fault_va = USTACKTOP - PGSIZE + ctx.utf_esp % PGSIZE ∧
      utf.utf_err &&& FEC_WR ≠ 0 ∧ stackPush ctx s = pgfault utf s := by
  unfold stackPush
  simp only []
  split
  · exact Or.inl rfl
  · right
    refine ⟨_, rfl, ?_, rfl⟩
    simp only []
    split <;> decide

theorem sforkIter_snd (child : Int) (ctx : UTrapframe) (va : Nat) (s : Sys) :
    (sforkIter child ctx va s).2 =
      match (sforkBody child va s).1 with
      | Res.ok _ => (stackPush ctx (sforkBody child va s).2).2
      | Res.panic _ => (sforkBody child va s).2 := by
  unfold sforkIter
  cases hres : sforkBody child va s with
  | mk r s1 =>
    cases r with
    | ok u => rfl
    | panic msg => rfl

theorem sforkWalk_snd (child : Int) (ctx : UTrapframe) (s : Sys) :
    (sforkWalk child ctx s).2 =
      match (stackPush ctx s).1 with
      | Res.ok _ =>
        (walk (sforkIter child ctx) (UTOP / PGSIZE) 0 (stackPush ctx s).2).2
      | Res.panic _ => (stackPush ctx s).2 := by
  unfold sforkWalk
  cases hres : stackPush ctx s with
  | mk r s1 =>
    cases r with
    | ok u => rfl
    | panic msg => rfl

theorem xstackExclusive_map_two (child : Int) (se de : Int) (sva dva perm : Nat) (s : Sys)
    (hsva : PGNUM sva ≠ PGNUM (UXSTACKTOP - PGSIZE))
    (hdva : PGNUM dva ≠ PGNUM (UXSTACKTOP - PGSIZE)) :
    xstackExclusive child s (sys_page_map se sva de dva perm s).2 := by
  apply xstackExclusive_of_same child s _ (Req.page_map se sva de dva perm)
    (sys_page_map_log _ _ _ _ _ _)
  · simp [Req.namesPage, hsva, hdva]
  · intro e
    by_cases ha : s.answer < 0
    · rw [sys_page_map_refused _ _ _ _ _ _ ha]; rfl
    · rw [sys_page_map_done _ _ _ _ _ _ ha]
      simp only []
      by_cases he : e = de
      · rw [he, upd_same, upd_other _ _ _ _ (Ne.symm hdva)]
      · rw [upd_other _ _ _ _ he]

theorem xstackExclusive_alloc_elsewhere (child : Int) (envid : Int) (va perm : Nat) (s : Sys)
    (hva : PGNUM va ≠ PGNUM (UXSTACKTOP - PGSIZE)) :
    xstackExclusive child s (sys_page_alloc envid va perm s).2 := by
  apply xstackExclusive_of_same child s _ (Req.page_alloc envid va perm)
    (sys_page_alloc_log _ _ _ _)
  · simp [Req.namesPage, hva]
  · intro e
    by_cases ha : s.answer < 0
    · rw [sys_page_alloc_refused _ _ _ _ ha]; rfl
    · rw [sys_page_alloc_done _ _ _ _ ha]
      simp only []
      by_cases he : e = envid
      · rw [he, upd_same, upd_other _ _ _ _ (Ne.symm hva)]
      · rw [upd_other _ _ _ _ he]

theorem xstackExclusive_memcpy (child : Int) (dst src n : Nat) (s : Sys) :
    xstackExclusive child s (memcpy dst src n s) :=
  ⟨⟨[], by simp [memcpy], by simp⟩, fun _ _ => rfl, Or.inl rfl⟩

theorem xstackExclusive_pgfault (child : Int) (utf : UTrapframe) (s : Sys)
    (hva : PGNUM utf.utf_fault_va ≠ PGNUM (UXSTACKTOP - PGSIZE)) :
    xstackExclusive child s (pgfault utf s).2 := by
  by_cases hcow : cowWriteFault utf s
  · have h1 := xstackExclusive_alloc_elsewhere child s.cur PFTEMP (PTE_P ||| PTE_W ||| PTE_U) s
      (by decide)
    have h2 := xstackExclusive_memcpy child PFTEMP (ROUNDDOWN utf.utf_fault_va PGSIZE) PGSIZE
      (sys_page_alloc s.cur PFTEMP (PTE_P ||| PTE_W ||| PTE_U) s).2
    have h3 := xstackExclusive_map_two child s.cur s.cur PFTEMP
      (ROUNDDOWN utf.utf_fault_va PGSIZE)
      ((s.pt s.cur (PGNUM utf.utf_fault_va) &&& 0xfff &&& not32 PTE_COW) ||| PTE_W)
      (memcpy PFTEMP (ROUNDDOWN utf.utf_fault_va PGSIZE) PGSIZE
        (sys_page_alloc s.cur PFTEMP (PTE_P ||| PTE_W ||| PTE_U) s).2)
      (by decide) (by rw [PGNUM_ROUNDDOWN]; exact hva)
    have h := xstackExclusive_trans child _ _ _ (xstackExclusive_trans child _ _ _ h1 h2) h3
    rw [pgfault_of_cow utf s hcow]
    split
    · exact h1
    · split
      · exact h
      · exact h
  · rw [(pgfault_of_not_cow utf s hcow).2]
    exact xstackExclusive_refl child s

theorem xstackExclusive_stackPush (child : Int) (ctx : UTrapframe) (s : Sys) :
    xstackExclusive child s (stackPush ctx s).2 := by
  rcases stackPush_cases ctx s with h | ⟨utf, hva, -, h⟩
  · rw [h]
    exact xstackExclusive_refl child s
  · rw [h]
    apply xstackExclusive_pgfault
    rw [hva, (stack_store_page ctx.utf_esp).1]
    decide

theorem xstackExclusive_sforkIter (child : Int) (ctx : UTrapframe) (i : Nat) (s : Sys)
    (hi : i < UTOP / PGSIZE) :
    xstackExclusive child s (sforkIter child ctx (i * PGSIZE) s).2 := by
  have hb := xstackExclusive_sforkBody child i s hi
  rw [sforkIter_snd]
  split
  · exact xstackExclusive_trans child _ _ _ hb (xstackExclusive_stackPush child ctx _)
  · exact hb

theorem sforkIterWith_eq (dup : Int → Nat → Sys → Res Int × Sys)
    (hdup : ∀ e pn s, pn ≠ PGNUM (UXSTACKTOP - PGSIZE) → dup e pn s = duppage e pn s)
    (child : Int) (ctx : UTrapframe) (i : Nat) (s : Sys) :
    sforkIterWith dup child ctx (i * PGSIZE) s = sforkIter child ctx (i * PGSIZE) s := by
  unfold sforkIterWith sforkIter
  rw [sforkBodyWith_eq dup hdup child i s]

theorem forkWith_eq (dup : Int → Nat → Sys → Res Int × Sys)
    (hdup : ∀ e pn s, pn ≠ PGNUM (UXSTACKTOP - PGSIZE) → dup e pn s = duppage e pn s)
    (setup : Sys → Sys) (exofork : Sys → Int × Sys) (s : Sys) :
    forkWith dup setup exofork s = fork setup exofork s := by
  unfold forkWith fork
  have h := walk_congr (forkBodyWith dup (exofork (setup s)).1) (forkBody (exofork (setup s)).1)
    (UTOP / PGSIZE) (fun i t _ => forkBodyWith_eq dup hdup _ i t) (UTOP / PGSIZE) 0
    (exofork (setup s)).2 (by omega)
  rw [Nat.zero_mul] at h
  simp only [h]

theorem sforkWith_eq (dup : Int → Nat → Sys → Res Int × Sys)
    (hdup : ∀ e pn s, pn ≠ PGNUM (UXSTACKTOP - PGSIZE) → dup e pn s = duppage e pn s)
    (setup : Sys → Sys) (exofork : Sys → Int × Sys) (ctx : UTrapframe) (s : Sys) :
    sforkWith dup setup exofork ctx s = sfork setup exofork ctx s := by
  have h : ∀ t, sforkWalkWith dup (exofork (setup s)).1 ctx t =
      sforkWalk (exofork (setup s)).1 ctx t := by
    intro t
    unfold sforkWalkWith sforkWalk
    have hw : ∀ u, walk (sforkIterWith dup (exofork (setup s)).1 ctx) (UTOP / PGSIZE) 0 u =
        walk (sforkIter (exofork (setup s)).1 ctx) (UTOP / PGSIZE) 0 u := by
      intro u
      have h := walk_congr (sforkIterWith dup (exofork (setup s)).1 ctx)
        (sforkIter (exofork (setup s)).1 ctx) (UTOP / PGSIZE)
        (fun i v _ => sforkIterWith_eq dup hdup _ ctx i v) (UTOP / PGSIZE) 0 u (by omega)
      rw [Nat.zero_mul] at h
      exact h
    simp only [hw]
  unfold sforkWith sfork
  simp only [h]

theorem fork_snd (setup : Sys → Sys) (exofork : Sys → Int × Sys) (s : Sys) :
    (fork setup exofork s).2 =
      if (exofork (setup s)).1 ≠ 0 then
        match (walk (forkBody (exofork (setup s)).1) (UTOP / PGSIZE) 0 (exofork (setup s)).2).1 with
        | Res.panic _ =>
          (walk (forkBody (exofork (setup s)).1) (UTOP / PGSIZE) 0 (exofork (setup s)).2).2
        | Res.ok _ => finish (exofork (setup s)).1
          (walk (forkBody (exofork (setup s)).1) (UTOP / PGSIZE) 0 (exofork (setup s)).2).2
      else (exofork (setup s)).2 := by
  unfold fork
  simp only []
  split
  · cases hres : walk (forkBody (exofork (setup s)).1) (UTOP / PGSIZE) 0 (exofork (setup s)).2 with
    | mk r s1 =>
      cases r with
      | ok u => rfl
      | panic msg => rfl
  · rfl

theorem sfork_snd (setup : Sys → Sys) (exofork : Sys → Int × Sys) (ctx : UTrapframe)
    (s : Sys) :
    (sfork setup exofork ctx s).2 =
      if (exofork (setup s)).1 ≠ 0 then
        match (sforkWalk (exofork (setup s)).1 ctx (exofork (setup s)).2).1 with
        | Res.panic _ => (sforkWalk (exofork (setup s)).1 ctx (exofork (setup s)).2).2
        | Res.ok _ => finish (exofork (setup s)).1
          (sforkWalk (exofork (setup s)).1 ctx (exofork (setup s)).2).2
      else (exofork (setup s)).2 := by
  unfold sfork
  simp only []
  split
  · generalize sforkWalk (exofork (setup s)).1 ctx (exofork (setup s)).2 = w
    obtain ⟨r, s1⟩ := w
    cases r with
    | ok u => rfl
    | panic msg => rfl
  · rfl

theorem xstackExclusive_sforkWalk (child : Int) (ctx : UTrapframe) (s : Sys) :
    xstackExclusive child s (sforkWalk child ctx s).2 := by
  have hp := xstackExclusive_stackPush child ctx s
  have hw := walk_preserves (sforkIter child ctx) (xstackExclusive child) (UTOP / PGSIZE)
    (xstackExclusive_refl _) (xstackExclusive_trans _)
    (fun i t hi => xstackExclusive_sforkIter child ctx i t hi)
    (UTOP / PGSIZE) 0 (stackPush ctx s).2 (by omega)
  rw [Nat.zero_mul] at hw
  rw [sforkWalk_snd]
  split
  · exact xstackExclusive_trans child _ _ _ hp hw
  · exact hp

theorem fork_xstackExclusive (setup : Sys → Sys) (exofork : Sys → Int × Sys) (s : Sys) :
    xstackExclusive (exofork (setup s)).1 (exofork (setup s)).2 (fork setup exofork s).2 := by
  have hw := walk_preserves (forkBody (exofork (setup s)).1)
    (xstackExclusive (exofork (setup s)).1) (UTOP / PGSIZE) (xstackExclusive_refl _)
    (xstackExclusive_trans _) (fun i t hi => xstackExclusive_forkBody _ i t hi)
    (UTOP / PGSIZE) 0 (exofork (setup s)).2 (by omega)
  rw [Nat.zero_mul] at hw
  rw [fork_snd]
  split
  · split
    · exact hw
    · exact xstackExclusive_trans _ _ _ _ hw (xstackExclusive_finish _ _)
  · exact xstackExclusive_refl _ _

theorem sfork_xstackExclusive (setup : Sys → Sys) (exofork : Sys → Int × Sys)
    (ctx : UTrapframe) (s : Sys) :
    xstackExclusive (exofork (setup s)).1 (exofork (setup s)).2
      (sfork setup exofork ctx s).2 := by
  have hw := xstackExclusive_sforkWalk (exofork (setup s)).1 ctx (exofork (setup s)).2
  rw [sfork_snd]
  split
  · split
    · exact hw
    · exact xstackExclusive_trans _ _ _ _ hw (xstackExclusive_finish _ _)
  · exact xstackExclusive_refl _ _

/-- C8: whatever `set_pgfault_handler` and `sys_exofork` do, in every run of `fork` and of
`sfork` every request issued after them that names the exception-stack page is the
allocation of a page for the child with permissions exactly `PTE_U | PTE_P | PTE_W` (which
do not contain `PTE_COW`); the entry every process other than the child has for that page is
left as it was, and the entry of the child is left as it was or maps a frame with exactly
those permissions.  The per-page routine is never handed that page: replacing `duppage` by
any routine that differs from it only on the exception-stack page changes nothing in
`fork` or `sfork`. -/
theorem exception_stack_exclusive (dup : Int → Nat → Sys → Res Int × Sys)
    (hdup : ∀ e pn s, pn ≠ PGNUM (UXSTACKTOP - PGSIZE) → dup e pn s = duppage e pn s)
    (set_pgfault_handler : Sys → Sys) (sys_exofork : Sys → Int × Sys) (ctx : UTrapframe)
    (s : Sys) :
    forkWith dup set_pgfault_handler sys_exofork s = fork set_pgfault_handler sys_exofork s ∧
    sforkWith dup set_pgfault_handler sys_exofork ctx s =
      sfork set_pgfault_handler sys_exofork ctx s ∧
    xstackExclusive (sys_exofork (set_pgfault_handler s)).1 (sys_exofork (set_pgfault_handler s)).2
      (fork set_pgfault_handler sys_exofork s).2 ∧
    xstackExclusive (sys_exofork (set_pgfault_handler s)).1 (sys_exofork (set_pgfault_handler s)).2
      (sfork set_pgfault_handler sys_exofork ctx s).2 ∧
    (PTE_U ||| PTE_P ||| PTE_W) &&& PTE_COW = 0 :=
  ⟨forkWith_eq dup hdup _ _ s, sforkWith_eq dup hdup _ _ ctx s, fork_xstackExclusive _ _ s,
    sfork_xstackExclusive _ _ ctx s, by decide⟩

/-- Witness of `exception_stack_exclusive`: the routine `duppageExceptXstack`, which aborts on
the exception-stack page, in place of `duppage`, for the parent `parentSys` and child 2. -/
theorem exception_stack_exclusive_witness :
    forkWith duppageExceptXstack id (fun s => (2, s)) parentSys =
      fork id (fun s => (2, s)) parentSys ∧
    sforkWith duppageExceptXstack id (fun s => (2, s)) pushCtx parentSys =
      sfork id (fun s => (2, s)) pushCtx parentSys ∧
    xstackExclusive 2 parentSys (fork id (fun s => (2, s)) parentSys).2 ∧
    xstackExclusive 2 parentSys (sfork id (fun s => (2, s)) pushCtx parentSys).2 :=
  have h := exception_stack_exclusive duppageExceptXstack
    (fun e pn s hne => by simp [duppageExceptXstack, hne]) id (fun s => (2, s)) pushCtx
    parentSys
  ⟨h.1, h.2.1, h.2.2.1, h.2.2.2.1⟩

/-! ## Addresses the walk skips -/

theorem walk_bound : UTOP / PGSIZE * PGSIZE = UTOP ∧ UXSTACKTOP - PGSIZE < UTOP ∧
    (UXSTACKTOP - PGSIZE) % PGSIZE = 0 := by decide

theorem walk_ok_indexed (body : Nat → Sys → Res Unit × Sys) (Q : Nat → Sys → Prop) (N : Nat)
    (hbody : ∀ i s, i < N → Q i s →
      (body (i * PGSIZE) s).1 = Res.ok () ∧ Q (i + 1) (body (i * PGSIZE) s).2) :
    ∀ n k s, k + n ≤ N → Q k s →
      (walk body n (k * PGSIZE) s).1 = Res.ok () ∧ Q (k + n) (walk body n (k * PGSIZE) s).2 := by
  intro n
  induction n with
  | zero => intro k s _ hQ; exact ⟨rfl, hQ⟩
  | succ n ih =>
    intro k s hk hQ
    rw [walk_succ]
    have hb := hbody k s (by omega) hQ
    cases hres : body (k * PGSIZE) s with
    | mk r s1 =>
      rw [hres] at hb
      cases r with
      | ok u =>
        have h := ih (k + 1) s1 (by omega) hb.2
        rw [show k + (n + 1) = k + 1 + n by omega]
        exact h
      | panic msg => exact absurd hb.1 (by simp)

theorem sys_page_map_other (se : Int) (sva : Nat) (de : Int) (dva perm : Nat) (s : Sys)
    (e : Int) (he : e ≠ de) :
    (sys_page_map se sva de dva perm s).2.pt e = s.pt e ∧
    (sys_page_map se sva de dva perm s).2.pd e = s.pd e := by
  by_cases ha : s.answer < 0
  · rw [sys_page_map_refused _ _ _ _ _ _ ha]; exact ⟨rfl, rfl⟩
  · rw [sys_page_map_done _ _ _ _ _ _ ha]
    exact ⟨upd_other _ _ _ _ he, upd_other _ _ _ _ he⟩

theorem sys_page_alloc_other (envid : Int) (va perm : Nat) (s : Sys) (e : Int)
    (he : e ≠ envid) :
    (sys_page_alloc envid va perm s).2.pt e = s.pt e ∧
    (sys_page_alloc envid va perm s).2.pd e = s.pd e := by
  by_cases ha : s.answer < 0
  · rw [sys_page_alloc_refused _ _ _ _ ha]; exact ⟨rfl, rfl⟩
  · rw [sys_page_alloc_done _ _ _ _ ha]
    exact ⟨upd_other _ _ _ _ he, upd_other _ _ _ _ he⟩

theorem sys_page_map_upcall (se : Int) (sva : Nat) (de : Int) (dva perm : Nat) (s : Sys) :
    (sys_page_map se sva de dva perm s).2.upcall = s.upcall := by
  by_cases ha : s.answer < 0
  · rw [sys_page_map_refused _ _ _ _ _ _ ha]; rfl
  · rw [sys_page_map_done _ _ _ _ _ _ ha]

theorem sys_page_alloc_upcall (envid : Int) (va perm : Nat) (s : Sys) :
    (sys_page_alloc envid va perm s).2.upcall = s.upcall := by
  by_cases ha : s.answer < 0
  · rw [sys_page_alloc_refused _ _ _ _ ha]; rfl
  · rw [sys_page_alloc_done _ _ _ _ ha]

theorem forkBody_xstack_fst (child : Int) (va : Nat) (s : Sys) (hx : va = UXSTACKTOP - PGSIZE)
    (ha : ¬ s.answer < 0) : (forkBody child va s).1 = Res.ok () := by
  unfold forkBody
  rw [if_pos hx]
  simp only [sys_page_alloc_fst, ha, if_false]

theorem forkBody_dup_fst (child : Int) (va : Nat) (s : Sys) (hx : va ≠ UXSTACKTOP - PGSIZE)
    (hpde : s.pd s.cur (PDX va) &&& PTE_P ≠ 0) (hp : s.pt s.cur (PGNUM va) &&& PTE_P ≠ 0)
    (hd : (duppage child (PGNUM va) s).1 = Res.ok 0) :
    (forkBody child va s).1 = Res.ok () := by
  unfold forkBody
  rw [if_neg hx, if_neg hpde]
  simp only [hp, ne_eq, not_false_eq_true, if_true]
  cases hres : duppage child (PGNUM va) s with
  | mk r s1 =>
    rw [hres] at hd
    simp only [] at hd
    rw [hd]
    simp

theorem duppage_refused_eq (envid : Int) (pn : Nat) (s : Sys) (hpn : pn < UTOP / PGSIZE)
    (hpde : s.pd s.cur (PDX (pn * PGSIZE)) &&& PTE_P ≠ 0)
    (hsh : s.pt s.cur pn &&& (PTE_W ||| PTE_COW) ≠ 0)
    (h1 : 0 ≤ s.verdict s.log.length) (h2 : s.verdict (s.log.length + 1) < 0) :
    duppage envid pn s =
      (Res.ok 0, (sys_page_map s.cur (pn * PGSIZE) envid (pn * PGSIZE)
        (duppagePerm (s.pt s.cur pn)) s).2.record
          (Req.page_map s.cur (pn * PGSIZE) s.cur (pn * PGSIZE) (duppagePerm (s.pt s.cur pn)))) := by
  have ha : ¬ s.answer < 0 := by rw [answer_neg_iff]; omega
  have hb : (sys_page_map s.cur (pn * PGSIZE) envid (pn * PGSIZE)
      (duppagePerm (s.pt s.cur pn)) s).2.answer < 0 := by
    rw [answer_neg_iff, sys_page_map_verdict, sys_page_map_log]
    simpa using h2
  rw [duppage_eq envid pn s hpn hpde, sys_page_map_fst, if_neg ha, if_pos hsh,
    sys_page_map_refused _ _ _ _ _ _ hb]

theorem duppage_readonly_eq (envid : Int) (pn : Nat) (s : Sys) (hpn : pn < UTOP / PGSIZE)
    (hpde : s.pd s.cur (PDX (pn * PGSIZE)) &&& PTE_P ≠ 0)
    (hro : s.pt s.cur pn &&& (PTE_W ||| PTE_COW) = 0)
    (h1 : 0 ≤ s.verdict s.log.length) :
    duppage envid pn s =
      (Res.ok 0, (sys_page_map s.cur (pn * PGSIZE) envid (pn * PGSIZE)
        (duppagePerm (s.pt s.cur pn)) s).2) := by
  have ha : ¬ s.answer < 0 := by rw [answer_neg_iff]; omega
  rw [duppage_eq envid pn s hpn hpde, sys_page_map_fst, if_neg ha, if_neg (not_not.mpr hro)]

theorem refusing_step_writable (t : Sys) (hQ : refusingInv 0x800 t) :
    (forkBody 2 (0x800 * PGSIZE) t).1 = Res.ok () ∧
      refusingInv 0x801 (forkBody 2 (0x800 * PGSIZE) t).2 := by
  obtain ⟨hcur, hv, hpd, hpt, hlog, hupc⟩ := hQ
  have hx : 0x800 * PGSIZE ≠ UXSTACKTOP - PGSIZE := by decide
  have hpde : t.pd t.cur (PDX (0x800 * PGSIZE)) &&& PTE_P ≠ 0 := by rw [hcur, hpd]; decide
  have hp : t.pt t.cur (PGNUM (0x800 * PGSIZE)) &&& PTE_P ≠ 0 := by rw [hcur, hpt]; decide
  have hd := duppage_refused_eq 2 0x800 t (by decide) hpde (by rw [hcur, hpt]; decide)
    (by rw [hv, hlog]; decide) (by rw [hv, hlog]; decide)
  have hpg : PGNUM (0x800 * PGSIZE) = 0x800 := by decide
  refine ⟨forkBody_dup_fst 2 _ t hx hpde hp (by rw [hpg, hd]), ?_⟩
  rw [forkBody_dup_snd 2 _ t hx hpde hp, hpg, hd]
  have ho := sys_page_map_other t.cur (0x800 * PGSIZE) 2 (0x800 * PGSIZE)
    (duppagePerm (t.pt t.cur 0x800)) t 1 (by decide)
  refine ⟨?_, ?_, ?_, ?_, ?_, ?_⟩
  · show (sys_page_map _ _ _ _ _ t).2.cur = 1
    rw [sys_page_map_cur, hcur]
  · show (sys_page_map _ _ _ _ _ t).2.verdict = _
    rw [sys_page_map_verdict, hv]
  · show (sys_page_map _ _ _ _ _ t).2.pd 1 = _
    rw [ho.2, hpd]
  · show (sys_page_map _ _ _ _ _ t).2.pt 1 = _
    rw [ho.1, hpt]
  · show (sys_page_map _ _ _ _ _ t).2.log ++ [_] = _
    rw [sys_page_map_log, hlog, hcur, hpt]
    decide
  · show (sys_page_map _ _ _ _ _ t).2.upcall = _
    rw [sys_page_map_upcall, hupc]

theorem refusing_step_readonly (t : Sys) (hQ : refusingInv 0x801 t) :
    (forkBody 2 (0x801 * PGSIZE) t).1 = Res.ok () ∧
      refusingInv 0x802 (forkBody 2 (0x801 * PGSIZE) t).2 := by
  obtain ⟨hcur, hv, hpd, hpt, hlog, hupc⟩ := hQ
  have hx : 0x801 * PGSIZE ≠ UXSTACKTOP - PGSIZE := by decide
  have hpde : t.pd t.cur (PDX (0x801 * PGSIZE)) &&& PTE_P ≠ 0 := by rw [hcur, hpd]; decide
  have hp : t.pt t.cur (PGNUM (0x801 * PGSIZE)) &&& PTE_P ≠ 0 := by rw [hcur, hpt]; decide
  have hd := duppage_readonly_eq 2 0x801 t (by decide) hpde (by rw [hcur, hpt]; decide)
    (by rw [hv, hlog]; decide)
  have hpg : PGNUM (0x801 * PGSIZE) = 0x801 := by decide
  refine ⟨forkBody_dup_fst 2 _ t hx hpde hp (by rw [hpg, hd]), ?_⟩
  rw [forkBody_dup_snd 2 _ t hx hpde hp, hpg, hd]
  have ho := sys_page_map_other t.cur (0x801 * PGSIZE) 2 (0x801 * PGSIZE)
    (duppagePerm (t.pt t.cur 0x801)) t 1 (by decide)
  refine ⟨?_, ?_, ?_, ?_, ?_, ?_⟩
  · show (sys_page_map _ _ _ _ _ t).2.cur = 1
    rw [sys_page_map_cur, hcur]
  · show (sys_page_map _ _ _ _ _ t).2.verdict = _
    rw [sys_page_map_verdict, hv]
  · show (sys_page_map _ _ _ _ _ t).2.pd 1 = _
    rw [ho.2, hpd]
  · show (sys_page_map _ _ _ _ _ t).2.pt 1 = _
    rw [ho.1, hpt]
  · show (sys_page_map _ _ _ _ _ t).2.log = _
    rw [sys_page_map_log, hlog, hcur, hpt]
    decide
  · rw [sys_page_map_upcall, hupc]

theorem refusing_step_xstack (t : Sys) (hQ : refusingInv 0xeebff t) :
    (forkBody 2 (0xeebff * PGSIZE) t).1 = Res.ok () ∧
      refusingInv 0xeec00 (forkBody 2 (0xeebff * PGSIZE) t).2 := by
  obtain ⟨hcur, hv, hpd, hpt, hlog, hupc⟩ := hQ
  have hx : 0xeebff * PGSIZE = UXSTACKTOP - PGSIZE := by decide
  have ha : ¬ t.answer < 0 := by rw [answer_neg_iff, hv, hlog]; decide
  refine ⟨forkBody_xstack_fst 2 _ t hx ha, ?_⟩
  rw [forkBody_xstack_snd 2 _ t hx]
  have ho := sys_page_alloc_other 2 (0xeebff * PGSIZE) (PTE_U ||| PTE_P ||| PTE_W) t 1
    (by decide)
  refine ⟨by rw [sys_page_alloc_cur, hcur], by rw [sys_page_alloc_verdict, hv],
    by rw [ho.2, hpd], by rw [ho.1, hpt], ?_, by rw [sys_page_alloc_upcall, hupc]⟩
  rw [sys_page_alloc_log, hlog]
  decide

theorem refusingLog_succ (i : Nat) (h0 : i ≠ 0x800) (h1 : i ≠ 0x801) (h2 : i ≠ 0xeebff) :
    refusingLog (i + 1) = refusingLog i := by
  unfold refusingLog
  split_ifs <;> first | rfl | omega

theorem refusing_step (i : Nat) (t : Sys) (hQ : refusingInv i t) :
    (forkBody 2 (i * PGSIZE) t).1 = Res.ok () ∧
      refusingInv (i + 1) (forkBody 2 (i * PGSIZE) t).2 := by
  by_cases h0 : i = 0x800
  · subst h0; exact refusing_step_writable t hQ
  · by_cases h1 : i = 0x801
    · subst h1; exact refusing_step_readonly t hQ
    · by_cases h2 : i = 0xeebff
      · subst h2; exact refusing_step_xstack t hQ
      · obtain ⟨hcur, hv, hpd, hpt, hlog, hupc⟩ := hQ
        have hx : i * PGSIZE ≠ UXSTACKTOP - PGSIZE := by
          simp only [UXSTACKTOP, UTOP, PGSIZE]
          omega
        have hskip : t.pt t.cur (PGNUM (i * PGSIZE)) &&& PTE_P = 0 := by
          rw [hcur, hpt, PGNUM_page]
          simp [refusingSys, parentSys, h0, h1]
        rw [forkBody_skip 2 _ t hx (Or.inr hskip)]
        exact ⟨rfl, hcur, hv, hpd, hpt, by rw [refusingLog_succ i h0 h1 h2]; exact hlog, hupc⟩

theorem fork_fst (setup : Sys → Sys) (exofork : Sys → Int × Sys) (s : Sys)
    (hw : (walk (forkBody (exofork (setup s)).1) (UTOP / PGSIZE) 0 (exofork (setup s)).2).1 =
      Res.ok ()) :
    (fork setup exofork s).1 = Res.ok (exofork (setup s)).1 := by
  unfold fork
  simp only []
  split
  · generalize walk (forkBody (exofork (setup s)).1) (UTOP / PGSIZE) 0 (exofork (setup s)).2 = w
      at hw ⊢
    obtain ⟨res, s1⟩ := w
    cases res with
    | ok u => rfl
    | panic msg => simp at hw
  · rfl

theorem finish_status (child : Int) (s : Sys) (h : 0 ≤ s.verdict (s.log.length + 1)) :
    (finish child s).status child = ENV_RUNNABLE := by
  have hb : ¬ (sys_env_set_pgfault_upcall child (s.upcall s.cur) s).2.answer < 0 := by
    apply answer_after s _ _ 1 _ h
    · unfold sys_env_set_pgfault_upcall; simp only []; split <;> rfl
    · unfold sys_env_set_pgfault_upcall; simp only []; split <;> simp [Sys.record]
  unfold finish
  simp only []
  unfold sys_env_set_status
  simp only [hb, if_false, upd_same]

theorem fork_run (setup : Sys → Sys) (exofork : Sys → Int × Sys) (s : Sys) (c : Int) (s0 : Sys)
    (he : exofork (setup s) = (c, s0)) (hc0 : c ≠ 0)
    (hw : (walk (forkBody c) (UTOP / PGSIZE) 0 s0).1 = Res.ok ()) :
    (fork setup exofork s).1 = Res.ok c ∧
    (fork setup exofork s).2 = finish c (walk (forkBody c) (UTOP / PGSIZE) 0 s0).2 := by
  have h1 : (exofork (setup s)).1 = c := by rw [he]
  have h2 : (exofork (setup s)).2 = s0 := by rw [he]
  have hfst := fork_fst setup exofork s (by rw [h1, h2]; exact hw)
  have hsnd := fork_snd setup exofork s
  rw [h1, h2] at hsnd
  rw [h1] at hfst
  rw [if_pos hc0, hw] at hsnd
  exact ⟨hfst, hsnd⟩

/-- A run of `fork` in which a request of the walk fails and the child is nevertheless marked
runnable: on `refusingSys` the service refuses the second request, the re-mapping of the
writable page `0x800000` in the parent; `fork` returns the child to the parent, having gone on
to issue every later request, the last of which sets the status of the child. -/
theorem fork_marks_child_runnable_despite_failure :
    refusingSys.verdict 1 < 0 ∧
    (fork id (fun s => (2, s)) refusingSys).1 = Res.ok 2 ∧
    (fork id (fun s => (2, s)) refusingSys).2.log =
      [Req.page_map 1 0x800000 2 0x800000 0x805, Req.page_map 1 0x800000 1 0x800000 0x805,
       Req.page_map 1 0x801000 2 0x801000 0x005, Req.page_alloc 2 0xeebff000 0x007,
       Req.env_set_pgfault_upcall 2 0, Req.env_set_status 2 ENV_RUNNABLE] ∧
    (fork id (fun s => (2, s)) refusingSys).2.status 2 = ENV_RUNNABLE ∧
    (fork id (fun s => (2, s)) refusingSys).2.pt 1 0x800 = 0x5007 := by
  have hw := walk_ok_indexed (forkBody 2) refusingInv (UTOP / PGSIZE)
    (fun i t _ hQ => refusing_step i t hQ) (UTOP / PGSIZE) 0 refusingSys (by omega)
    ⟨rfl, rfl, rfl, rfl, rfl, rfl⟩
  rw [Nat.zero_mul, Nat.zero_add] at hw
  obtain ⟨hok, hcur, hv, hpd, hpt, hlog, hupc⟩ := hw
  obtain ⟨hfst, hsnd⟩ := fork_run id (fun s => (2, s)) refusingSys 2 refusingSys rfl
    (by decide) hok
  have hup : (walk (forkBody 2) (UTOP / PGSIZE) 0 refusingSys).2.upcall 1 = 0 := by
    rw [hupc]; rfl
  refine ⟨by decide, hfst, ?_, ?_, ?_⟩
  · rw [hsnd, finish_log, hlog, hcur, hup]
    rfl
  · rw [hsnd]
    apply finish_status
    rw [hv, hlog]
    decide
  · rw [hsnd, finish_pt, hpt]
    decide

/-! ## The shared-address-space fork -/

theorem walk_ok (body : Nat → Sys → Res Unit × Sys) (Q : Sys → Prop) (N : Nat)
    (hbody : ∀ i s, i < N → Q s →
      (body (i * PGSIZE) s).1 = Res.ok () ∧ Q (body (i * PGSIZE) s).2) :
    ∀ n k s, k + n ≤ N → Q s →
      (walk body n (k * PGSIZE) s).1 = Res.ok () ∧ Q (walk body n (k * PGSIZE) s).2 := by
  intro n
  induction n with
  | zero => intro k s _ hQ; exact ⟨rfl, hQ⟩
  | succ n ih =>
    intro k s hk hQ
    rw [walk_succ]
    have hb := hbody k s (by omega) hQ
    cases hres : body (k * PGSIZE) s with
    | mk r s1 =>
      rw [hres] at hb
      cases r with
      | ok u => exact ih (k + 1) s1 (by omega) hb.2
      | panic msg => exact absurd hb.1 (by simp)

theorem walk_ok_invariant (body : Nat → Sys → Res Unit × Sys) (J : Nat → Sys → Prop) (N : Nat)
    (hstep : ∀ i s t, i < N → J i s → body (i * PGSIZE) s = (Res.ok (), t) → J (i + 1) t) :
    ∀ n k s t, k + n ≤ N → J k s → walk body n (k * PGSIZE) s = (Res.ok (), t) →
      J (k + n) t := by
  intro n
  induction n with
  | zero =>
    intro k s t _ hJ hw
    simp only [walk, Prod.mk.injEq, true_and] at hw
    rw [← hw]; exact hJ
  | succ n ih =>
    intro k s t hk hJ hw
    rw [walk_succ] at hw
    cases hres : body (k * PGSIZE) s with
    | mk r s1 =>
      rw [hres] at hw
      cases r with
      | ok u =>
        have h1 := hstep k s s1 (by omega) hJ hres
        have h2 := ih (k + 1) s1 t (by omega) h1 hw
        rw [show k + (n + 1) = k + 1 + n by omega]
        exact h2
      | panic msg => simp at hw

theorem or_PTE_P_of_present (x : Nat) (h : x &&& PTE_P ≠ 0) : x ||| PTE_P = x := by
  rw [and_PTE_P_ne_zero_iff] at h
  apply Nat.eq_of_testBit_eq
  intro i
  rw [Nat.testBit_or, show PTE_P = 2 ^ 0 from rfl, Nat.testBit_two_pow]
  by_cases hi : 0 = i
  · subst hi; simp [h]
  · simp [hi]

theorem or_PTE_P_present (x : Nat) : (x ||| PTE_P) &&& PTE_P ≠ 0 := by
  rw [and_PTE_P_ne_zero_iff, Nat.testBit_or]
  simp [PTE_P]

theorem upd_or_PTE_P_present (f : Nat → Nat) (k pdx : Nat) (h : f pdx &&& PTE_P ≠ 0) :
    upd f k (f k ||| PTE_P) pdx &&& PTE_P ≠ 0 := by
  by_cases hk : pdx = k
  · rw [hk, upd_same]; exact or_PTE_P_present _
  · rw [upd_other _ _ _ _ hk]; exact h

theorem sforkFrame_refl (c : Int) (i : Nat) (s : Sys) : sforkFrame c i s s :=
  ⟨rfl, fun _ => rfl, fun _ h => h, fun _ _ => rfl, fun _ _ => rfl⟩

theorem sforkFrame_trans (c : Int) (i : Nat) (s t u : Sys)
    (h1 : sforkFrame c i s t) (h2 : sforkFrame c i t u) : sforkFrame c i s u := by
  obtain ⟨a1, a2, a3, a4, a5⟩ := h1
  obtain ⟨b1, b2, b3, b4, b5⟩ := h2
  rw [a1] at b2 b5
  refine ⟨b1.trans a1, fun pdx => (b2 pdx).trans (a2 pdx), fun pdx h => b3 pdx (a3 pdx h),
    fun pn h => (b4 pn h).trans (a4 pn h), fun pn h => (b5 pn h).trans (a5 pn h)⟩

theorem sforkFrame_map_child (c : Int) (va perm : Nat) (s : Sys) (hc : c ≠ s.cur) :
    sforkFrame c (PGNUM va) s (sys_page_map s.cur va c va perm s).2 := by
  by_cases ha : s.answer < 0
  · rw [sys_page_map_refused _ _ _ _ _ _ ha]
    exact sforkFrame_refl c _ s
  · rw [sys_page_map_done _ _ _ _ _ _ ha]
    refine ⟨rfl, ?_, ?_, ?_, ?_⟩
    · intro pdx
      simp only []
      rw [upd_other _ _ _ _ hc.symm]
    · intro pdx h
      simp only [upd_same]
      exact upd_or_PTE_P_present _ _ _ h
    · intro pn hpn
      simp only [upd_same]
      rw [upd_other _ _ _ _ hpn]
    · intro pn _
      simp only []
      rw [upd_other _ _ _ _ hc.symm]

theorem sforkFrame_alloc_child (c : Int) (va perm : Nat) (s : Sys) (hc : c ≠ s.cur) :
    sforkFrame c (PGNUM va) s (sys_page_alloc c va perm s).2 := by
  by_cases ha : s.answer < 0
  · rw [sys_page_alloc_refused _ _ _ _ ha]
    exact sforkFrame_refl c _ s
  · rw [sys_page_alloc_done _ _ _ _ ha]
    refine ⟨rfl, ?_, ?_, ?_, ?_⟩
    · intro pdx
      simp only []
      rw [upd_other _ _ _ _ hc.symm]
    · intro pdx h
      simp only [upd_same]
      exact upd_or_PTE_P_present _ _ _ h
    · intro pn hpn
      simp only [upd_same]
      rw [upd_other _ _ _ _ hpn]
    · intro pn _
      simp only []
      rw [upd_other _ _ _ _ hc.symm]

theorem sforkFrame_map_parent (c : Int) (i : Nat) (perm : Nat) (s : Sys) (hc : c ≠ s.cur)
    (hpde : s.pd s.cur (PDX (USTACKTOP - PGSIZE)) &&& PTE_P ≠ 0) :
    sforkFrame c i s
      (sys_page_map s.cur (USTACKTOP - PGSIZE) s.cur (USTACKTOP - PGSIZE) perm s).2 := by
  by_cases ha : s.answer < 0
  · rw [sys_page_map_refused _ _ _ _ _ _ ha]
    exact sforkFrame_refl c _ s
  · rw [sys_page_map_done _ _ _ _ _ _ ha]
    refine ⟨rfl, ?_, ?_, ?_, ?_⟩
    · intro pdx
      simp only [upd_same]
      by_cases hk : pdx = PDX (USTACKTOP - PGSIZE)
      · rw [hk, upd_same, or_PTE_P_of_present _ hpde]
      · rw [upd_other _ _ _ _ hk]
    · intro pdx h
      simp only []
      rw [upd_other _ _ _ _ hc]
      exact h
    · intro pn _
      simp only []
      rw [upd_other _ _ _ _ hc]
    · intro pn hpn
      simp only [upd_same]
      rw [upd_other _ _ _ _ hpn]

theorem sforkFrame_duppage (c : Int) (s : Sys) (hc : c ≠ s.cur) :
    sforkFrame c (PGNUM (USTACKTOP - PGSIZE)) s
      (duppage c (PGNUM (USTACKTOP - PGSIZE)) s).2 := by
  by_cases hpde : s.pd s.cur (PDX (PGNUM (USTACKTOP - PGSIZE) * PGSIZE)) &&& PTE_P = 0
  · rw [duppage_no_pde c _ s stack_page_lt hpde]
    exact sforkFrame_refl c _ s
  · rw [duppage_eq c _ s stack_page_lt hpde]
    rw [stack_page] at hpde ⊢
    have h1 := sforkFrame_map_child c (USTACKTOP - PGSIZE)
      (duppagePerm (s.pt s.cur (PGNUM (USTACKTOP - PGSIZE)))) s hc
    split
    · exact h1
    · split
      · refine sforkFrame_trans c _ _ _ _ h1 ?_
        have hcur := sys_page_map_cur s.cur (USTACKTOP - PGSIZE) c (USTACKTOP - PGSIZE)
          (duppagePerm (s.pt s.cur (PGNUM (USTACKTOP - PGSIZE)))) s
        have h2 := sforkFrame_map_parent c (PGNUM (USTACKTOP - PGSIZE))
          (duppagePerm (s.pt s.cur (PGNUM (USTACKTOP - PGSIZE))))
          (sys_page_map s.cur (USTACKTOP - PGSIZE) c (USTACKTOP - PGSIZE)
            (duppagePerm (s.pt s.cur (PGNUM (USTACKTOP - PGSIZE)))) s).2
          (by rw [hcur]; exact hc)
          (by rw [hcur, h1.2.1]; exact hpde)
        rw [hcur] at h2
        exact h2
      · exact h1

theorem sforkBody_map_ok (child : Int) (va : Nat) (s t : Sys) (hx : va ≠ UXSTACKTOP - PGSIZE)
    (hs : va ≠ USTACKTOP - PGSIZE)
    (hpde : s.pd s.cur (PDX va) &&& PTE_P ≠ 0) (hp : s.pt s.cur (PGNUM va) &&& PTE_P ≠ 0)
    (hb : sforkBody child va s = (Res.ok (), t)) :
    ¬ s.answer < 0 ∧
      t = (sys_page_map s.cur va child va (s.pt s.cur (PGNUM va) &&& 0xfff) s).2 := by
  unfold sforkBody at hb
  rw [if_neg hx, if_neg hs, if_neg hpde] at hb
  simp only [hp, ne_eq, not_false_eq_true, if_true, sys_page_map_fst] at hb
  by_cases ha : s.answer = 0
  · rw [ha] at hb ⊢
    simp only [not_true_eq_false, if_false, Prod.mk.injEq, true_and] at hb
    exact ⟨by decide, hb.symm⟩
  · rw [if_pos ha] at hb
    simp at hb

theorem page_ne_stack (i : Nat) (h : i * PGSIZE ≠ USTACKTOP - PGSIZE) :
    i ≠ PGNUM (USTACKTOP - PGSIZE) := by
  intro hi
  apply h
  rw [hi]
  decide

theorem coop_answer (s : Sys) (h : ∀ n, 0 ≤ s.verdict n) : ¬ s.answer < 0 := by
  rw [answer_neg_iff]
  exact not_lt.mpr (h _)

theorem coopFrame_refl (s : Sys) : coopFrame s s := ⟨rfl, rfl, fun _ _ h => h⟩

theorem coopFrame_trans (s t u : Sys) (h1 : coopFrame s t) (h2 : coopFrame t u) :
    coopFrame s u :=
  ⟨h2.1.trans h1.1, h2.2.1.trans h1.2.1, fun e pdx h => h2.2.2 e pdx (h1.2.2 e pdx h)⟩

theorem pd_install_present (pd : Int → Nat → Nat) (de : Int) (k : Nat) (e : Int) (pdx : Nat)
    (h : pd e pdx &&& PTE_P ≠ 0) :
    upd pd de (upd (pd de) k (pd de k ||| PTE_P)) e pdx &&& PTE_P ≠ 0 := by
  by_cases he : e = de
  · rw [he, upd_same]
    rw [he] at h
    exact upd_or_PTE_P_present _ _ _ h
  · rw [upd_other _ _ _ _ he]
    exact h

theorem coopFrame_map (se : Int) (sva : Nat) (de : Int) (dva perm : Nat) (s : Sys) :
    coopFrame s (sys_page_map se sva de dva perm s).2 := by
  refine ⟨sys_page_map_verdict _ _ _ _ _ _, sys_page_map_cur _ _ _ _ _ _, ?_⟩
  intro e pdx h
  by_cases ha : s.answer < 0
  · rw [sys_page_map_refused _ _ _ _ _ _ ha]; exact h
  · rw [sys_page_map_done _ _ _ _ _ _ ha]
    exact pd_install_present _ _ _ _ _ h

theorem coopFrame_alloc (envid : Int) (va perm : Nat) (s : Sys) :
    coopFrame s (sys_page_alloc envid va perm s).2 := by
  refine ⟨sys_page_alloc_verdict _ _ _ _, sys_page_alloc_cur _ _ _ _, ?_⟩
  intro e pdx h
  by_cases ha : s.answer < 0
  · rw [sys_page_alloc_refused _ _ _ _ ha]; exact h
  · rw [sys_page_alloc_done _ _ _ _ ha]
    exact pd_install_present _ _ _ _ _ h

theorem coopFrame_duppage (envid : Int) (pn : Nat) (s : Sys) (hpn : pn < UTOP / PGSIZE) :
    coopFrame s (duppage envid pn s).2 := by
  by_cases hpde : s.pd s.cur (PDX (pn * PGSIZE)) &&& PTE_P = 0
  · rw [duppage_no_pde envid pn s hpn hpde]
    exact coopFrame_refl s
  · rw [duppage_eq envid pn s hpn hpde]
    split
    · exact coopFrame_map _ _ _ _ _ s
    · split
      · exact coopFrame_trans _ _ _ (coopFrame_map _ _ _ _ _ s) (coopFrame_map _ _ _ _ _ _)
      · exact coopFrame_map _ _ _ _ _ s

theorem duppage_fst_coop (envid : Int) (pn : Nat) (s : Sys) (hpn : pn < UTOP / PGSIZE)
    (hpde : s.pd s.cur (PDX (pn * PGSIZE)) &&& PTE_P ≠ 0) (h : ∀ n, 0 ≤ s.verdict n) :
    (duppage envid pn s).1 = Res.ok 0 := by
  rw [duppage_eq envid pn s hpn hpde, sys_page_map_fst, if_neg (coop_answer s h)]
  split <;> rfl

theorem sforkBody_xstack_fst (child : Int) (va : Nat) (s : Sys) (hx : va = UXSTACKTOP - PGSIZE)
    (ha : ¬ s.answer < 0) : (sforkBody child va s).1 = Res.ok () := by
  unfold sforkBody
  rw [if_pos hx]
  simp only [sys_page_alloc_fst, ha, if_false]

theorem sforkBody_stack_fst (child : Int) (va : Nat) (s : Sys) (hx : va ≠ UXSTACKTOP - PGSIZE)
    (hs : va = USTACKTOP - PGSIZE) (hd : (duppage child (va >>> PGSHIFT) s).1 = Res.ok 0) :
    (sforkBody child va s).1 = Res.ok () := by
  unfold sforkBody
  rw [if_neg hx, if_pos hs]
  cases hres : duppage child (va >>> PGSHIFT) s with
  | mk r s1 =>
    rw [hres] at hd
    simp only [] at hd
    rw [hd]
    simp

theorem sforkBody_map_fst (child : Int) (va : Nat) (s : Sys) (hx : va ≠ UXSTACKTOP - PGSIZE)
    (hs : va ≠ USTACKTOP - PGSIZE)
    (hpde : s.pd s.cur (PDX va) &&& PTE_P ≠ 0) (hp : s.pt s.cur (PGNUM va) &&& PTE_P ≠ 0)
    (ha : ¬ s.answer < 0) : (sforkBody child va s).1 = Res.ok () := by
  unfold sforkBody
  rw [if_neg hx, if_neg hs, if_neg hpde]
  simp only [hp, ne_eq, not_false_eq_true, if_true, sys_page_map_fst, answer_eq_zero s ha,
    not_true_eq_false, if_false]

theorem sforkBody_frame (c : Int) (i : Nat) (s : Sys) (hc : c ≠ s.cur) :
    sforkFrame c i s (sforkBody c (i * PGSIZE) s).2 := by
  by_cases hx : i * PGSIZE = UXSTACKTOP - PGSIZE
  · rw [sforkBody_xstack_snd c _ s hx]
    have hF := sforkFrame_alloc_child c (i * PGSIZE) (PTE_U ||| PTE_P ||| PTE_W) s hc
    rw [PGNUM_page] at hF
    exact hF
  · by_cases hs : i * PGSIZE = USTACKTOP - PGSIZE
    · rw [sforkBody_stack_snd c _ s hx hs, show (i * PGSIZE) >>> PGSHIFT = i from PGNUM_page i]
      have hi : i = PGNUM (USTACKTOP - PGSIZE) := by rw [← hs, PGNUM_page]
      have hF := sforkFrame_duppage c s hc
      rw [← hi] at hF
      exact hF
    · by_cases hpres : s.pd s.cur (PDX (i * PGSIZE)) &&& PTE_P = 0 ∨
          s.pt s.cur (PGNUM (i * PGSIZE)) &&& PTE_P = 0
      · rw [sforkBody_skip c _ s hx hs hpres]
        exact sforkFrame_refl c i s
      · push_neg at hpres
        rw [sforkBody_map_snd c _ s hx hs hpres.1 hpres.2]
        have hF := sforkFrame_map_child c (i * PGSIZE)
          (s.pt s.cur (PGNUM (i * PGSIZE)) &&& 0xfff) s hc
        rw [PGNUM_page] at hF ⊢
        exact hF

theorem sforkBody_child_entry (c : Int) (i : Nat) (s t : Sys)
    (hx : i * PGSIZE ≠ UXSTACKTOP - PGSIZE) (hs : i * PGSIZE ≠ USTACKTOP - PGSIZE)
    (hpde : s.pd s.cur (PDX (i * PGSIZE)) &&& PTE_P ≠ 0) (hp : s.pt s.cur i &&& PTE_P ≠ 0)
    (hb : sforkBody c (i * PGSIZE) s = (Res.ok (), t)) :
    t.pt c i = s.pt s.cur i ∧ t.pd c (PDX (i * PGSIZE)) &&& PTE_P ≠ 0 := by
  obtain ⟨ha, hte⟩ := sforkBody_map_ok c _ s t hx hs hpde (by rw [PGNUM_page]; exact hp) hb
  rw [hte, sys_page_map_done _ _ _ _ _ _ ha]
  simp only [upd_same, PGNUM_page, mkpte_split]
  exact ⟨trivial, or_PTE_P_present _⟩

theorem pushFrame_refl (s : Sys) : pushFrame s s :=
  ⟨rfl, rfl, fun _ _ h => h, fun _ _ => rfl, fun _ _ _ => rfl⟩

theorem pushFrame_trans (s t u : Sys) (h1 : pushFrame s t) (h2 : pushFrame t u) :
    pushFrame s u := by
  obtain ⟨a1, a2, a3, a4, a5⟩ := h1
  obtain ⟨b1, b2, b3, b4, b5⟩ := h2
  rw [a1] at b4 b5
  exact ⟨b1.trans a1, b2.trans a2, fun e pdx h => b3 e pdx (a3 e pdx h),
    fun e he => (b4 e he).trans (a4 e he), fun pn h1 h2 => (b5 pn h1 h2).trans (a5 pn h1 h2)⟩

theorem pushFrame_alloc_self (va perm : Nat) (s : Sys) (hva : PGNUM va = PGNUM PFTEMP) :
    pushFrame s (sys_page_alloc s.cur va perm s).2 := by
  refine ⟨sys_page_alloc_cur _ _ _ _, sys_page_alloc_verdict _ _ _ _,
    (coopFrame_alloc _ _ _ s).2.2, fun e he => (sys_page_alloc_other _ _ _ s e he).1, ?_⟩
  intro pn _ hpn
  by_cases ha : s.answer < 0
  · rw [sys_page_alloc_refused _ _ _ _ ha]; rfl
  · rw [sys_page_alloc_done _ _ _ _ ha]
    simp only [upd_same]
    rw [upd_other _ _ _ _ (by rw [hva]; exact hpn)]

theorem pushFrame_map_self (sva dva perm : Nat) (s : Sys)
    (hdva : PGNUM dva = PGNUM (USTACKTOP - PGSIZE)) :
    pushFrame s (sys_page_map s.cur sva s.cur dva perm s).2 := by
  refine ⟨sys_page_map_cur _ _ _ _ _ _, sys_page_map_verdict _ _ _ _ _ _,
    (coopFrame_map _ _ _ _ _ s).2.2, fun e he => (sys_page_map_other _ _ _ _ _ s e he).1, ?_⟩
  intro pn hpn _
  by_cases ha : s.answer < 0
  · rw [sys_page_map_refused _ _ _ _ _ _ ha]; rfl
  · rw [sys_page_map_done _ _ _ _ _ _ ha]
    simp only [upd_same]
    rw [upd_other _ _ _ _ (by rw [hdva]; exact hpn)]

theorem pushFrame_memcpy (dst src n : Nat) (s : Sys) : pushFrame s (memcpy dst src n s) :=
  ⟨rfl, rfl, fun _ _ h => h, fun _ _ => rfl, fun _ _ _ => rfl⟩

theorem pushFrame_pgfault (utf : UTrapframe) (s : Sys)
    (hva : PGNUM utf.utf_fault_va = PGNUM (USTACKTOP - PGSIZE)) :
    pushFrame s (pgfault utf s).2 := by
  by_cases hcow : cowWriteFault utf s
  · have h1 := pushFrame_alloc_self PFTEMP (PTE_P ||| PTE_W ||| PTE_U) s rfl
    have h2 := pushFrame_memcpy PFTEMP (ROUNDDOWN utf.utf_fault_va PGSIZE) PGSIZE
      (sys_page_alloc s.cur PFTEMP (PTE_P ||| PTE_W ||| PTE_U) s).2
    have h3 := pushFrame_map_self PFTEMP (ROUNDDOWN utf.utf_fault_va PGSIZE)
      ((s.pt s.cur (PGNUM utf.utf_fault_va) &&& 0xfff &&& not32 PTE_COW) ||| PTE_W)
      (memcpy PFTEMP (ROUNDDOWN utf.utf_fault_va PGSIZE) PGSIZE
        (sys_page_alloc s.cur PFTEMP (PTE_P ||| PTE_W ||| PTE_U) s).2)
      (by rw [PGNUM_ROUNDDOWN]; exact hva)
    have hcur : (memcpy PFTEMP (ROUNDDOWN utf.utf_fault_va PGSIZE) PGSIZE
        (sys_page_alloc s.cur PFTEMP (PTE_P ||| PTE_W ||| PTE_U) s).2).cur = s.cur :=
      sys_page_alloc_cur _ _ _ _
    rw [hcur] at h3
    have h := pushFrame_trans _ _ _ (pushFrame_trans _ _ _ h1 h2) h3
    rw [pgfault_of_cow utf s hcow]
    split
    · exact h1
    · split
      · exact h
      · exact h
  · rw [(pgfault_of_not_cow utf s hcow).2]
    exact pushFrame_refl s

theorem pushFrame_stackPush (ctx : UTrapframe) (s : Sys) : pushFrame s (stackPush ctx s).2 := by
  rcases stackPush_cases ctx s with h | ⟨utf, hva, -, h⟩
  · rw [h]
    exact pushFrame_refl s
  · rw [h]
    apply pushFrame_pgfault
    rw [hva, (stack_store_page ctx.utf_esp).1]

theorem sforkIter_ok (c : Int) (ctx : UTrapframe) (va : Nat) (s t : Sys)
    (h : sforkIter c ctx va s = (Res.ok (), t)) :
    ∃ s1, sforkBody c va s = (Res.ok (), s1) ∧ stackPush ctx s1 = (Res.ok (), t) := by
  unfold sforkIter at h
  cases hres : sforkBody c va s with
  | mk r s1 =>
    rw [hres] at h
    cases r with
    | ok u => exact ⟨s1, rfl, h⟩
    | panic msg => simp at h

theorem page_mul_ne (i pn : Nat) (h : i ≠ pn) : i * PGSIZE ≠ pn * PGSIZE := by
  intro he
  apply h
  simp only [PGSIZE] at he
  omega

theorem xstack_page : PGNUM (UXSTACKTOP - PGSIZE) * PGSIZE = UXSTACKTOP - PGSIZE := by decide

theorem sforkInv_step (c : Int) (s0 : Sys) (hc : c ≠ s0.cur) (ctx : UTrapframe) (i : Nat)
    (s t : Sys) (hJ : sforkInv c s0 i s)
    (hb : sforkIter c ctx (i * PGSIZE) s = (Res.ok (), t)) :
    sforkInv c s0 (i + 1) t := by
  obtain ⟨s1, hbody, hpush⟩ := sforkIter_ok c ctx _ s t hb
  obtain ⟨j1, j2, j3, j4⟩ := hJ
  have hcs : c ≠ s.cur := by rw [j1]; exact hc
  have hF := sforkBody_frame c i s hcs
  rw [hbody] at hF
  obtain ⟨f1, f2, f3, f4, f5⟩ := hF
  have hP := pushFrame_stackPush ctx s1
  rw [hpush] at hP
  obtain ⟨p1, -, p3, p4, p5⟩ := hP
  simp only [] at f1 f2 f3 f4 f5 p1 p3 p4 p5
  rw [j1] at f2 f5
  rw [f1, j1] at p4 p5
  have hct : t.pt c = s1.pt c := p4 c hc
  refine ⟨p1.trans (f1.trans j1), ?_, ?_, ?_⟩
  · intro pdx h
    apply p3
    rw [f2]
    exact j2 pdx h
  · intro pn h1 h2
    rw [p5 pn h1 h2, f5 pn h1, j3 pn h1 h2]
  · intro pn hlt hs hx hf hpde hp
    rw [hct]
    by_cases hpi : pn = i
    · rw [hpi] at hs hx hf hpde hp ⊢
      have hxa : i * PGSIZE ≠ UXSTACKTOP - PGSIZE := by
        rw [← xstack_page]; exact page_mul_ne _ _ hx
      have hsa : i * PGSIZE ≠ USTACKTOP - PGSIZE := by
        rw [← stack_page]; exact page_mul_ne _ _ hs
      have hpde1 : s.pd s.cur (PDX (i * PGSIZE)) &&& PTE_P ≠ 0 := by
        rw [j1]; exact j2 _ hpde
      have hp1 : s.pt s.cur i &&& PTE_P ≠ 0 := by
        rw [j1, j3 i hs hf]; exact hp
      obtain ⟨k1, k2⟩ := sforkBody_child_entry c i s s1 hxa hsa hpde1 hp1 hbody
      refine ⟨?_, p3 _ _ k2⟩
      rw [k1, j1, j3 i hs hf]
    · obtain ⟨k1, k2⟩ := j4 pn (by omega) hs hx hf hpde hp
      exact ⟨(f4 pn hpi).trans k1, p3 _ _ (f3 _ k2)⟩

theorem sforkWalk_ok (c : Int) (ctx : UTrapframe) (s : Sys)
    (h : (sforkWalk c ctx s).1 = Res.ok ()) :
    ∃ s1, stackPush ctx s = (Res.ok (), s1) ∧
      (walk (sforkIter c ctx) (UTOP / PGSIZE) 0 s1).1 = Res.ok () ∧
      (sforkWalk c ctx s).2 = (walk (sforkIter c ctx) (UTOP / PGSIZE) 0 s1).2 := by
  have hsnd := sforkWalk_snd c ctx s
  unfold sforkWalk at h
  cases hres : stackPush ctx s with
  | mk r s1 =>
    rw [hres] at h hsnd
    cases r with
    | ok u => exact ⟨s1, rfl, h, hsnd⟩
    | panic msg => simp at h

theorem sfork_fst_ok (setup : Sys → Sys) (exofork : Sys → Int × Sys) (ctx : UTrapframe)
    (s : Sys) (hc0 : (exofork (setup s)).1 ≠ 0) (r : Int)
    (hok : (sfork setup exofork ctx s).1 = Res.ok r) :
    (sforkWalk (exofork (setup s)).1 ctx (exofork (setup s)).2).1 = Res.ok () := by
  unfold sfork at hok
  simp only [] at hok
  rw [if_pos hc0] at hok
  generalize sforkWalk (exofork (setup s)).1 ctx (exofork (setup s)).2 = w at hok ⊢
  obtain ⟨res, s1⟩ := w
  cases res with
  | ok u => rfl
  | panic msg => simp at hok

theorem sfork_ok_inv (setup : Sys → Sys) (exofork : Sys → Int × Sys) (ctx : UTrapframe)
    (s : Sys) (c : Int) (s0 : Sys) (he : exofork (setup s) = (c, s0)) (hc0 : c ≠ 0) (r : Int)
    (hok : (sfork setup exofork ctx s).1 = Res.ok r) :
    ∃ s1 s2, stackPush ctx s0 = (Res.ok (), s1) ∧
      walk (sforkIter c ctx) (UTOP / PGSIZE) 0 s1 = (Res.ok (), s2) ∧
      (sfork setup exofork ctx s).2 = finish c s2 := by
  have h1 : (exofork (setup s)).1 = c := by rw [he]
  have h2 : (exofork (setup s)).2 = s0 := by rw [he]
  have hw := sfork_fst_ok setup exofork ctx s (by rw [h1]; exact hc0) r hok
  have hsnd := sfork_snd setup exofork ctx s
  rw [h1, h2] at hw hsnd
  rw [if_pos hc0, hw] at hsnd
  obtain ⟨s1, hp, hwalk, hws⟩ := sforkWalk_ok c ctx s0 hw
  refine ⟨s1, _, hp, Prod.ext hwalk rfl, ?_⟩
  rw [hsnd, hws]

theorem sforkInv_of_push (c : Int) (s0 s1 : Sys) (hP : pushFrame s0 s1) :
    sforkInv c s0 0 s1 :=
  ⟨hP.1, fun pdx h => hP.2.2.1 _ pdx h, fun pn h1 h2 => hP.2.2.2.2 pn h1 h2,
    fun pn h => absurd h (Nat.not_lt_zero pn)⟩

theorem sfork_final_inv (setup : Sys → Sys) (exofork : Sys → Int × Sys) (ctx : UTrapframe)
    (s : Sys) (c : Int) (s0 : Sys) (he : exofork (setup s) = (c, s0)) (hc0 : c ≠ 0)
    (hc : c ≠ s0.cur) (r : Int) (hok : (sfork setup exofork ctx s).1 = Res.ok r) :
    ∃ s2, sforkInv c s0 (UTOP / PGSIZE) s2 ∧ (sfork setup exofork ctx s).2 = finish c s2 := by
  obtain ⟨s1, s2, hp, hw, hfin⟩ := sfork_ok_inv setup exofork ctx s c s0 he hc0 r hok
  refine ⟨s2, ?_, hfin⟩
  have hP := pushFrame_stackPush ctx s0
  rw [hp] at hP
  have h := walk_ok_invariant (sforkIter c ctx) (sforkInv c s0) (UTOP / PGSIZE)
    (fun i a b _ hJ hb => sforkInv_step c s0 hc ctx i a b hJ hb) (UTOP / PGSIZE) 0 s1 s2
    (by omega) (sforkInv_of_push c s0 s1 hP) (by rw [Nat.zero_mul]; exact hw)
  rw [Nat.zero_add] at h
  exact h

theorem sfork_shares_aux (setup : Sys → Sys) (exofork : Sys → Int × Sys) (ctx : UTrapframe)
    (s : Sys) (c : Int) (s0 : Sys) (he : exofork (setup s) = (c, s0)) (hc0 : c ≠ 0)
    (hc : c ≠ s0.cur) (r : Int) (hok : (sfork setup exofork ctx s).1 = Res.ok r)
    (pn : Nat) (hpn : pn < UTOP / PGSIZE)
    (hs : pn ≠ PGNUM (USTACKTOP - PGSIZE)) (hx : pn ≠ PGNUM (UXSTACKTOP - PGSIZE))
    (hf : pn ≠ PGNUM PFTEMP)
    (hpde : s0.pd s0.cur (PDX (pn * PGSIZE)) &&& PTE_P ≠ 0)
    (hp : s0.pt s0.cur pn &&& PTE_P ≠ 0) :
    (sfork setup exofork ctx s).2.pt c pn = s0.pt s0.cur pn ∧
    (sfork setup exofork ctx s).2.pt s0.cur pn = s0.pt s0.cur pn ∧
    (sfork setup exofork ctx s).2.pd c (PDX (pn * PGSIZE)) &&& PTE_P ≠ 0 ∧
    (sfork setup exofork ctx s).2.pd s0.cur (PDX (pn * PGSIZE)) &&& PTE_P ≠ 0 := by
  obtain ⟨s2, ⟨_, j2, j3, j4⟩, hfin⟩ :=
    sfork_final_inv setup exofork ctx s c s0 he hc0 hc r hok
  obtain ⟨k1, k2⟩ := j4 pn hpn hs hx hf hpde hp
  rw [hfin, finish_pt, finish_pd]
  exact ⟨k1, j3 pn hs hf, k2, j2 _ hpde⟩

/-! ### A run of `sfork` in which every request is carried out -/

theorem sys_page_map_nextFree (se : Int) (sva : Nat) (de : Int) (dva perm : Nat) (s : Sys) :
    (sys_page_map se sva de dva perm s).2.nextFree = s.nextFree := by
  by_cases ha : s.answer < 0
  · rw [sys_page_map_refused _ _ _ _ _ _ ha]; rfl
  · rw [sys_page_map_done _ _ _ _ _ _ ha]

theorem duppage_nextFree (envid : Int) (pn : Nat) (s : Sys) (hpn : pn < UTOP / PGSIZE) :
    (duppage envid pn s).2.nextFree = s.nextFree := by
  by_cases hpde : s.pd s.cur (PDX (pn * PGSIZE)) &&& PTE_P = 0
  · rw [duppage_no_pde envid pn s hpn hpde]
  · rw [duppage_eq envid pn s hpn hpde]
    split
    · exact sys_page_map_nextFree _ _ _ _ _ s
    · split
      · exact (sys_page_map_nextFree _ _ _ _ _ _).trans (sys_page_map_nextFree _ _ _ _ _ s)
      · exact sys_page_map_nextFree _ _ _ _ _ s

theorem sforkBody_nextFree (c : Int) (i : Nat) (s : Sys) (hi : i < UTOP / PGSIZE)
    (hx : i * PGSIZE ≠ UXSTACKTOP - PGSIZE) :
    (sforkBody c (i * PGSIZE) s).2.nextFree = s.nextFree := by
  by_cases hs : i * PGSIZE = USTACKTOP - PGSIZE
  · rw [sforkBody_stack_snd c _ s hx hs, show (i * PGSIZE) >>> PGSHIFT = i from PGNUM_page i]
    exact duppage_nextFree c i s hi
  · by_cases hpres : s.pd s.cur (PDX (i * PGSIZE)) &&& PTE_P = 0 ∨
        s.pt s.cur (PGNUM (i * PGSIZE)) &&& PTE_P = 0
    · rw [sforkBody_skip c _ s hx hs hpres]
    · push_neg at hpres
      rw [sforkBody_map_snd c _ s hx hs hpres.1 hpres.2]
      exact sys_page_map_nextFree _ _ _ _ _ s

theorem sforkBody_caller_pt (c : Int) (i : Nat) (s : Sys) (hc : c ≠ s.cur)
    (hs : i * PGSIZE ≠ USTACKTOP - PGSIZE) :
    (sforkBody c (i * PGSIZE) s).2.pt s.cur = s.pt s.cur := by
  by_cases hx : i * PGSIZE = UXSTACKTOP - PGSIZE
  · rw [sforkBody_xstack_snd c _ s hx]
    exact (sys_page_alloc_other _ _ _ s s.cur hc.symm).1
  · by_cases hpres : s.pd s.cur (PDX (i * PGSIZE)) &&& PTE_P = 0 ∨
        s.pt s.cur (PGNUM (i * PGSIZE)) &&& PTE_P = 0
    · rw [sforkBody_skip c _ s hx hs hpres]
    · push_neg at hpres
      rw [sforkBody_map_snd c _ s hx hs hpres.1 hpres.2]
      exact (sys_page_map_other _ _ _ _ _ s s.cur hc.symm).1

theorem sforkBody_coop (c : Int) (i : Nat) (s : Sys) (hi : i < UTOP / PGSIZE) :
    coopFrame s (sforkBody c (i * PGSIZE) s).2 := by
  by_cases hx : i * PGSIZE = UXSTACKTOP - PGSIZE
  · rw [sforkBody_xstack_snd c _ s hx]
    exact coopFrame_alloc _ _ _ s
  · by_cases hs : i * PGSIZE = USTACKTOP - PGSIZE
    · rw [sforkBody_stack_snd c _ s hx hs, show (i * PGSIZE) >>> PGSHIFT = i from PGNUM_page i]
      exact coopFrame_duppage c i s hi
    · by_cases hpres : s.pd s.cur (PDX (i * PGSIZE)) &&& PTE_P = 0 ∨
          s.pt s.cur (PGNUM (i * PGSIZE)) &&& PTE_P = 0
      · rw [sforkBody_skip c _ s hx hs hpres]
        exact coopFrame_refl s
      · push_neg at hpres
        rw [sforkBody_map_snd c _ s hx hs hpres.1 hpres.2]
        exact coopFrame_map _ _ _ _ _ s

theorem sforkBody_fst_coop (c : Int) (i : Nat) (s : Sys) (hi : i < UTOP / PGSIZE)
    (hcoop : ∀ n, 0 ≤ s.verdict n)
    (hstack : s.pd s.cur (PDX (USTACKTOP - PGSIZE)) &&& PTE_P ≠ 0) :
    (sforkBody c (i * PGSIZE) s).1 = Res.ok () := by
  have ha := coop_answer s hcoop
  by_cases hx : i * PGSIZE = UXSTACKTOP - PGSIZE
  · exact sforkBody_xstack_fst c _ s hx ha
  · by_cases hs : i * PGSIZE = USTACKTOP - PGSIZE
    · have hsh : (i * PGSIZE) >>> PGSHIFT = i := PGNUM_page i
      have hpde : s.pd s.cur (PDX (i * PGSIZE)) &&& PTE_P ≠ 0 := by
        rw [hs]; exact hstack
      apply sforkBody_stack_fst c _ s hx hs
      rw [hsh]
      exact duppage_fst_coop c i s hi hpde hcoop
    · by_cases hpres : s.pd s.cur (PDX (i * PGSIZE)) &&& PTE_P = 0 ∨
          s.pt s.cur (PGNUM (i * PGSIZE)) &&& PTE_P = 0
      · rw [sforkBody_skip c _ s hx hs hpres]
      · push_neg at hpres
        exact sforkBody_map_fst c _ s hx hs hpres.1 hpres.2 ha

theorem stackPush_fault (ctx : UTrapframe) (s : Sys)
    (h : ¬ (s.pd s.cur (PDX (USTACKTOP - PGSIZE)) &&& PTE_P ≠ 0 ∧
      s.pt s.cur (PGNUM (USTACKTOP - PGSIZE)) &&& PTE_P ≠ 0 ∧
      s.pt s.cur (PGNUM (USTACKTOP - PGSIZE)) &&& PTE_W ≠ 0)) :
    ∃ utf : UTrapframe, utf.utf_fault_va = USTACKTOP - PGSIZE + ctx.utf_esp % PGSIZE ∧
      utf.utf_err &&& FEC_WR ≠ 0 ∧ stackPush ctx s = pgfault utf s := by
  obtain ⟨h1, h2, -⟩ := stack_store_page ctx.utf_esp
  unfold stackPush
  simp only [h1, h2]
  rw [if_neg h]
  refine ⟨_, rfl, ?_, rfl⟩
  simp only []
  split <;> decide

theorem demoted_perm_present (pte : Nat) (hp : pte &&& PTE_P ≠ 0)
    (hsh : pte &&& (PTE_W ||| PTE_COW) ≠ 0) : duppagePerm pte &&& PTE_P ≠ 0 := by
  rw [and_PTE_P_ne_zero_iff] at hp
  rw [duppagePerm_of_shared pte hsh, and_PTE_P_ne_zero_iff, testBit_demoted, hp]
  simp

theorem duppage_stack_run (c : Int) (s : Sys) (hcoop : ∀ n, 0 ≤ s.verdict n)
    (hpd : s.pd s.cur (PDX (USTACKTOP - PGSIZE)) &&& PTE_P ≠ 0)
    (hp : s.pt s.cur (PGNUM (USTACKTOP - PGSIZE)) &&& PTE_P ≠ 0)
    (hw : s.pt s.cur (PGNUM (USTACKTOP - PGSIZE)) &&& PTE_W ≠ 0) :
    (duppage c (PGNUM (USTACKTOP - PGSIZE)) s).1 = Res.ok 0 ∧
    (duppage c (PGNUM (USTACKTOP - PGSIZE)) s).2.pt s.cur (PGNUM (USTACKTOP - PGSIZE))
      &&& PTE_P ≠ 0 ∧
    (duppage c (PGNUM (USTACKTOP - PGSIZE)) s).2.pt s.cur (PGNUM (USTACKTOP - PGSIZE))
      &&& PTE_COW ≠ 0 ∧
    (duppage c (PGNUM (USTACKTOP - PGSIZE)) s).2.pt s.cur (PGNUM (USTACKTOP - PGSIZE))
      &&& PTE_W = 0 := by
  have hsh : s.pt s.cur (PGNUM (USTACKTOP - PGSIZE)) &&& (PTE_W ||| PTE_COW) ≠ 0 :=
    (and_WCOW _).2 (Or.inl hw)
  obtain ⟨h1, -, h3, -⟩ := duppage_shared c (PGNUM (USTACKTOP - PGSIZE)) s stack_page_lt
    (by rw [stack_page]; exact hpd) (hcoop _) (hcoop _) hsh
  have hlt := duppagePerm_lt (s.pt s.cur (PGNUM (USTACKTOP - PGSIZE)))
  obtain ⟨b1, b2⟩ := (duppagePerm_bits (s.pt s.cur (PGNUM (USTACKTOP - PGSIZE)))).1 hsh
  rw [h3, mkpte_and_mask _ _ _ hlt (by decide), mkpte_and_mask _ _ _ hlt (by decide),
    mkpte_and_mask _ _ _ hlt (by decide)]
  exact ⟨h1, demoted_perm_present _ hp hsh, b2, b1⟩

theorem pgfault_stack_run (utf : UTrapframe) (s : Sys)
    (hva : PGNUM utf.utf_fault_va = PGNUM (USTACKTOP - PGSIZE))
    (hpdx : PDX utf.utf_fault_va = PDX (USTACKTOP - PGSIZE))
    (hw : utf.utf_err &&& FEC_WR ≠ 0)
    (hcoop : ∀ n, 0 ≤ s.verdict n)
    (hpd : s.pd s.cur (PDX (USTACKTOP - PGSIZE)) &&& PTE_P ≠ 0)
    (hp : s.pt s.cur (PGNUM (USTACKTOP - PGSIZE)) &&& PTE_P ≠ 0)
    (hc : s.pt s.cur (PGNUM (USTACKTOP - PGSIZE)) &&& PTE_COW ≠ 0) :
    (pgfault utf s).1 = Res.ok () ∧
    (pgfault utf s).2.pt s.cur (PGNUM (USTACKTOP - PGSIZE)) &&& PTE_P ≠ 0 ∧
    (pgfault utf s).2.pt s.cur (PGNUM (USTACKTOP - PGSIZE)) &&& PTE_W ≠ 0 ∧
    (pgfault utf s).2.pt s.cur (PGNUM PFTEMP) = mkpte s.nextFree (PTE_P ||| PTE_W ||| PTE_U) := by
  have hcow : cowWriteFault utf s :=
    ⟨hw, by rw [hpdx]; exact hpd, by rw [hva]; exact hp, by rw [hva]; exact hc⟩
  have ha : ¬ s.answer < 0 := coop_answer s hcoop
  have hb : ¬ (memcpy PFTEMP (ROUNDDOWN utf.utf_fault_va PGSIZE) PGSIZE
      (sys_page_alloc s.cur PFTEMP (PTE_P ||| PTE_W ||| PTE_U) s).2).answer < 0 := by
    apply coop_answer
    rw [memcpy_verdict, sys_page_alloc_verdict]
    exact hcoop
  have hne : PGNUM PFTEMP ≠ PGNUM (USTACKTOP - PGSIZE) := by decide
  have hlt := promoted_perm_lt (s.pt s.cur (PGNUM (USTACKTOP - PGSIZE)))
  obtain ⟨bw, bp, -⟩ := promoted_perm_bits (s.pt s.cur (PGNUM (USTACKTOP - PGSIZE))) hp
  rw [pgfault_of_cow utf s hcow, sys_page_alloc_fst, if_neg ha, sys_page_map_fst, if_neg hb,
    sys_page_map_done _ _ _ _ _ _ hb, sys_page_alloc_done _ _ _ _ ha]
  simp only [memcpy, PGNUM_ROUNDDOWN, hva, upd_same, upd_other _ _ _ _ hne]
  rw [mkpte_and_mask _ _ _ hlt (by decide), mkpte_and_mask _ _ _ hlt (by decide)]
  exact ⟨trivial, bp, bw, trivial⟩

theorem sforkIter_of_ok (c : Int) (ctx : UTrapframe) (va : Nat) (s : Sys)
    (hb : (sforkBody c va s).1 = Res.ok ()) :
    sforkIter c ctx va s = stackPush ctx (sforkBody c va s).2 := by
  unfold sforkIter
  cases hres : sforkBody c va s with
  | mk r s1 =>
    rw [hres] at hb
    simp only [] at hb
    rw [hb]

theorem PFTEMP_page : PGNUM PFTEMP * PGSIZE = PFTEMP := by decide

theorem sforkRun_step (c : Int) (s0 : Sys) (ctx : UTrapframe) (hc : c ≠ s0.cur)
    (hpd0 : s0.pd s0.cur (PDX (USTACKTOP - PGSIZE)) &&& PTE_P ≠ 0)
    (hp0 : s0.pt s0.cur (PGNUM (USTACKTOP - PGSIZE)) &&& PTE_P ≠ 0)
    (hw0 : s0.pt s0.cur (PGNUM (USTACKTOP - PGSIZE)) &&& PTE_W ≠ 0)
    (i : Nat) (s : Sys) (hi : i < UTOP / PGSIZE) (hQ : sforkRun c s0 i s) :
    (sforkIter c ctx (i * PGSIZE) s).1 = Res.ok () ∧
      sforkRun c s0 (i + 1) (sforkIter c ctx (i * PGSIZE) s).2 := by
  obtain ⟨q1, q2, q3, q4, q5, q6⟩ := hQ
  have hcs : c ≠ s.cur := by rw [q2]; exact hc
  have hpd : s.pd s.cur (PDX (USTACKTOP - PGSIZE)) &&& PTE_P ≠ 0 := by
    rw [q2]; exact q3 _ hpd0
  have hbok := sforkBody_fst_coop c i s hi q1 hpd
  have hC := sforkBody_coop c i s hi
  have hF := sforkBody_frame c i s hcs
  have hbody : sforkBody c (i * PGSIZE) s = (Res.ok (), (sforkBody c (i * PGSIZE) s).2) :=
    Prod.ext hbok rfl
  rw [sforkIter_of_ok c ctx _ s hbok]
  generalize hs1 : (sforkBody c (i * PGSIZE) s).2 = s1 at hC hF hbody ⊢
  obtain ⟨c1, c2, c3⟩ := hC
  obtain ⟨-, -, -, f4, -⟩ := hF
  have hcoop1 : ∀ n, 0 ≤ s1.verdict n := by rw [c1]; exact q1
  have hpd1 : s1.pd s1.cur (PDX (USTACKTOP - PGSIZE)) &&& PTE_P ≠ 0 := by
    rw [c2]; exact c3 _ _ hpd
  have hcur1 : s1.cur = s0.cur := c2.trans q2
  have hsx : PGNUM (USTACKTOP - PGSIZE) < PGNUM (UXSTACKTOP - PGSIZE) := by decide
  have hfs : PGNUM PFTEMP < PGNUM (USTACKTOP - PGSIZE) := by decide
  by_cases his : i = PGNUM (USTACKTOP - PGSIZE)
  · have hsa : i * PGSIZE = USTACKTOP - PGSIZE := by rw [his]; exact stack_page
    have hxa : i * PGSIZE ≠ UXSTACKTOP - PGSIZE := by rw [hsa]; decide
    have hdup : s1 = (duppage c (PGNUM (USTACKTOP - PGSIZE)) s).2 := by
      rw [← hs1, sforkBody_stack_snd c _ s hxa hsa,
        show (i * PGSIZE) >>> PGSHIFT = i from PGNUM_page i, his]
    obtain ⟨e1, e2⟩ := q4 (le_of_eq his)
    have hp : s.pt s.cur (PGNUM (USTACKTOP - PGSIZE)) &&& PTE_P ≠ 0 := by
      rw [q2, e1]; exact hp0
    have hw : s.pt s.cur (PGNUM (USTACKTOP - PGSIZE)) &&& PTE_W ≠ 0 := by
      rw [q2, e1]; exact hw0
    obtain ⟨-, d2, d3, d4⟩ := duppage_stack_run c s q1 hpd hp hw
    rw [← hdup, ← c2] at d2 d3 d4
    obtain ⟨utf, hva, hwr, hpush⟩ := stackPush_fault ctx s1 (by rintro ⟨-, -, h⟩; exact h d4)
    obtain ⟨r1, r2, -⟩ := stack_store_page ctx.utf_esp
    obtain ⟨g1, g2, g3, g4⟩ := pgfault_stack_run utf s1 (by rw [hva]; exact r1)
      (by rw [hva]; exact r2) hwr hcoop1 hpd1 d2 d3
    have hP := pushFrame_pgfault utf s1 (by rw [hva]; exact r1)
    have hnf : s1.nextFree = s0.nextFree := by
      rw [← hs1, sforkBody_nextFree c i s hi hxa]; exact e2
    rw [hpush]
    rw [hcur1] at g2 g3 g4
    rw [hnf] at g4
    obtain ⟨p1, p2, p3, p4, -⟩ := hP
    refine ⟨g1, ?_, p1.trans hcur1, ?_, ?_, ?_, ?_⟩
    · rw [p2]; exact hcoop1
    · intro pdx h
      exact p3 _ _ (c3 _ _ (q3 _ h))
    · intro hle
      exfalso
      omega
    · intro _
      exact ⟨g2, g3, g4⟩
    · intro _ hpdf hpf
      have h6 := q6 (by omega) hpdf hpf
      rw [p4 c (by rw [hcur1]; exact hc), f4 (PGNUM PFTEMP) (by omega)]
      exact h6
  · have hsa : i * PGSIZE ≠ USTACKTOP - PGSIZE := by
      rw [← stack_page]; exact page_mul_ne _ _ his
    have hpt : s1.pt s0.cur = s.pt s0.cur := by
      rw [← hs1, ← q2]; exact sforkBody_caller_pt c i s hcs hsa
    have hstk : s.pt s0.cur (PGNUM (USTACKTOP - PGSIZE)) &&& PTE_P ≠ 0 ∧
        s.pt s0.cur (PGNUM (USTACKTOP - PGSIZE)) &&& PTE_W ≠ 0 := by
      by_cases hle : i ≤ PGNUM (USTACKTOP - PGSIZE)
      · rw [(q4 hle).1]; exact ⟨hp0, hw0⟩
      · obtain ⟨a1, a2, -⟩ := q5 (by omega)
        exact ⟨a1, a2⟩
    have hpush := stackPush_writable ctx s1 hpd1 (by rw [hcur1, hpt]; exact hstk.1)
      (by rw [hcur1, hpt]; exact hstk.2)
    rw [hpush]
    refine ⟨rfl, hcoop1, hcur1, fun pdx h => ?_, ?_, ?_, ?_⟩
    · have h3 := c3 s0.cur pdx (q3 _ h)
      exact h3
    · intro hle
      obtain ⟨e1, e2⟩ := q4 (by omega)
      have hxa : i * PGSIZE ≠ UXSTACKTOP - PGSIZE := by
        rw [← xstack_page]; exact page_mul_ne _ _ (by omega)
      refine ⟨hpt.trans e1, ?_⟩
      rw [← hs1, sforkBody_nextFree c i s hi hxa]
      exact e2
    · intro hlt
      obtain ⟨a1, a2, a3⟩ := q5 (by omega)
      rw [hpt]
      exact ⟨a1, a2, a3⟩
    · intro hlt hpdf hpf
      by_cases hif : i = PGNUM PFTEMP
      · obtain ⟨e1, -⟩ := q4 (by omega)
        have hxa : i * PGSIZE ≠ UXSTACKTOP - PGSIZE := by
          rw [← xstack_page]; exact page_mul_ne _ _ (by omega)
        have hpde1 : s.pd s.cur (PDX (i * PGSIZE)) &&& PTE_P ≠ 0 := by
          rw [q2, hif, PFTEMP_page]; exact q3 _ hpdf
        have hp1 : s.pt s.cur i &&& PTE_P ≠ 0 := by
          rw [q2, e1, hif]; exact hpf
        obtain ⟨k1, -⟩ := sforkBody_child_entry c i s s1 hxa hsa hpde1 hp1 hbody
        rw [← hif, k1, q2, e1]
      · have h6 := q6 (by omega) hpdf hpf
        rw [f4 _ (Ne.symm hif)]
        exact h6

theorem sfork_fst (setup : Sys → Sys) (exofork : Sys → Int × Sys) (ctx : UTrapframe) (s : Sys)
    (hw : (sforkWalk (exofork (setup s)).1 ctx (exofork (setup s)).2).1 = Res.ok ()) :
    (sfork setup exofork ctx s).1 = Res.ok (exofork (setup s)).1 := by
  unfold sfork
  simp only []
  split
  · generalize sforkWalk (exofork (setup s)).1 ctx (exofork (setup s)).2 = w at hw ⊢
    obtain ⟨res, s1⟩ := w
    cases res with
    | ok u => rfl
    | panic msg => simp at hw
  · rfl

theorem sforkWalk_writable (c : Int) (ctx : UTrapframe) (s : Sys)
    (hpd : s.pd s.cur (PDX (USTACKTOP - PGSIZE)) &&& PTE_P ≠ 0)
    (hp : s.pt s.cur (PGNUM (USTACKTOP - PGSIZE)) &&& PTE_P ≠ 0)
    (hw : s.pt s.cur (PGNUM (USTACKTOP - PGSIZE)) &&& PTE_W ≠ 0) :
    sforkWalk c ctx s = walk (sforkIter c ctx) (UTOP / PGSIZE) 0 s := by
  unfold sforkWalk
  rw [stackPush_writable ctx s hpd hp hw]

theorem sforkRun_init (c : Int) (s0 : Sys) (hserv : ∀ n, 0 ≤ s0.verdict n) :
    sforkRun c s0 0 s0 :=
  ⟨hserv, rfl, fun _ h => h, fun _ => ⟨rfl, rfl⟩, fun h => absurd h (Nat.not_lt_zero _),
    fun h => absurd h (Nat.not_lt_zero _)⟩

theorem sfork_run (setup : Sys → Sys) (exofork : Sys → Int × Sys) (ctx : UTrapframe) (s : Sys)
    (c : Int) (s0 : Sys) (he : exofork (setup s) = (c, s0)) (hc0 : c ≠ 0) (hc : c ≠ s0.cur)
    (hserv : ∀ n, 0 ≤ s0.verdict n)
    (hpd0 : s0.pd s0.cur (PDX (USTACKTOP - PGSIZE)) &&& PTE_P ≠ 0)
    (hp0 : s0.pt s0.cur (PGNUM (USTACKTOP - PGSIZE)) &&& PTE_P ≠ 0)
    (hw0 : s0.pt s0.cur (PGNUM (USTACKTOP - PGSIZE)) &&& PTE_W ≠ 0) :
    (sfork setup exofork ctx s).1 = Res.ok c ∧
    (sfork setup exofork ctx s).2.pt s0.cur (PGNUM PFTEMP) =
      mkpte s0.nextFree (PTE_P ||| PTE_W ||| PTE_U) ∧
    (s0.pd s0.cur (PDX PFTEMP) &&& PTE_P ≠ 0 → s0.pt s0.cur (PGNUM PFTEMP) &&& PTE_P ≠ 0 →
      (sfork setup exofork ctx s).2.pt c (PGNUM PFTEMP) = s0.pt s0.cur (PGNUM PFTEMP)) := by
  have h1 : (exofork (setup s)).1 = c := by rw [he]
  have h2 : (exofork (setup s)).2 = s0 := by rw [he]
  have hrun := walk_ok_indexed (sforkIter c ctx) (sforkRun c s0) (UTOP / PGSIZE)
    (fun i t hi hQ => sforkRun_step c s0 ctx hc hpd0 hp0 hw0 i t hi hQ) (UTOP / PGSIZE) 0 s0
    (by omega) (sforkRun_init c s0 hserv)
  rw [Nat.zero_mul, Nat.zero_add] at hrun
  have hW := sforkWalk_writable c ctx s0 hpd0 hp0 hw0
  have hfst := sfork_fst setup exofork ctx s (by rw [h1, h2, hW]; exact hrun.1)
  have hsnd := sfork_snd setup exofork ctx s
  rw [h1] at hfst
  rw [h1, h2, if_pos hc0, hW, hrun.1] at hsnd
  obtain ⟨-, -, -, -, r5, r6⟩ := hrun.2
  rw [hsnd, finish_pt]
  exact ⟨hfst, (r5 stack_page_lt).2.2, fun a b => r6 (by decide) a b⟩

theorem userWrite_lands (e : Int) (pn off b : Nat) (s : Sys) (hoff : off < PGSIZE)
    (hpd : s.pd e (PDX (pn * PGSIZE)) &&& PTE_P ≠ 0) (hp : s.pt e pn &&& PTE_P ≠ 0)
    (hw : s.pt e pn &&& PTE_W ≠ 0) :
    userWrite e (pn * PGSIZE + off) b s =
      some { s with
        mem := upd s.mem (pteFrame (s.pt e pn)) (upd (s.mem (pteFrame (s.pt e pn))) off b) } := by
  unfold userWrite
  rw [PGNUM_page_add pn off hoff, PDX_page_add pn off hoff, page_add_mod pn off hoff,
    if_pos ⟨hpd, hp, hw⟩]

theorem userRead_sees (e : Int) (pn off : Nat) (s : Sys) (hoff : off < PGSIZE)
    (hpd : s.pd e (PDX (pn * PGSIZE)) &&& PTE_P ≠ 0) (hp : s.pt e pn &&& PTE_P ≠ 0) :
    userRead e (pn * PGSIZE + off) s = some (s.mem (pteFrame (s.pt e pn)) off) := by
  unfold userRead
  rw [PGNUM_page_add pn off hoff, PDX_page_add pn off hoff, page_add_mod pn off hoff,
    if_pos ⟨hpd, hp⟩]

theorem shared_write_observed (w r : Int) (pn off b : Nat) (s : Sys) (pte : Nat)
    (hoff : off < PGSIZE)
    (hwpd : s.pd w (PDX (pn * PGSIZE)) &&& PTE_P ≠ 0) (hrpd : s.pd r (PDX (pn * PGSIZE)) &&& PTE_P ≠ 0)
    (hwpt : s.pt w pn = pte) (hrpt : s.pt r pn = pte)
    (hp : pte &&& PTE_P ≠ 0) (hW : pte &&& PTE_W ≠ 0) :
    ∃ t, userWrite w (pn * PGSIZE + off) b s = some t ∧ t.pt = s.pt ∧ t.pd = s.pd ∧
      t.nextFree = s.nextFree ∧ t.mem (pteFrame pte) off = b ∧
      (∀ f, f ≠ pteFrame pte → t.mem f = s.mem f) ∧
      userRead r (pn * PGSIZE + off) t = some b := by
  have hr := userRead_sees r pn off
    { s with mem := upd s.mem (pteFrame (s.pt w pn)) (upd (s.mem (pteFrame (s.pt w pn))) off b) }
    hoff hrpd (by rw [hrpt]; exact hp)
  refine ⟨_, userWrite_lands w pn off b s hoff hwpd (by rw [hwpt]; exact hp)
    (by rw [hwpt]; exact hW), rfl, rfl, rfl, ?_, ?_, ?_⟩
  · simp only [hwpt, upd_same]
  · intro f hf
    simp only [hwpt]
    rw [upd_other _ _ _ _ hf]
  · rw [hr]
    simp only [hwpt, hrpt, upd_same]

/-- C10 (as amended): in every run of `sfork` that returns to the parent, for a child other
than the caller, every page below `UTOP` that was present in the caller, other than the
normal-stack page, the exception-stack page and the page at `PFTEMP`, is mapped in the child
at the same address on the same frame with the permissions `pte & 0xfff` of the caller, and
the caller's own entry is as it was.  When that page is writable in the caller, a later store
by either process lands on that one frame, changes no mapping and allocates no frame, and the
other process reads the stored byte. -/
theorem sfork_shares_pages (set_pgfault_handler : Sys → Sys) (sys_exofork : Sys → Int × Sys)
    (ctx : UTrapframe) (s : Sys) (c : Int) (s0 : Sys)
    (he : sys_exofork (set_pgfault_handler s) = (c, s0)) (hc0 : c ≠ 0) (hc : c ≠ s0.cur)
    (hok : (sfork set_pgfault_handler sys_exofork ctx s).1 = Res.ok c)
    (pn : Nat) (hpn : pn < UTOP / PGSIZE)
    (hs : pn ≠ PGNUM (USTACKTOP - PGSIZE)) (hx : pn ≠ PGNUM (UXSTACKTOP - PGSIZE))
    (hf : pn ≠ PGNUM PFTEMP)
    (hpde : s0.pd s0.cur (PDX (pn * PGSIZE)) &&& PTE_P ≠ 0)
    (hp : s0.pt s0.cur pn &&& PTE_P ≠ 0)
    (off b : Nat) (hoff : off < PGSIZE) :
    pteFrame ((sfork set_pgfault_handler sys_exofork ctx s).2.pt c pn) =
      pteFrame (s0.pt s0.cur pn) ∧
    (sfork set_pgfault_handler sys_exofork ctx s).2.pt c pn &&& 0xfff =
      s0.pt s0.cur pn &&& 0xfff ∧
    (sfork set_pgfault_handler sys_exofork ctx s).2.pt s0.cur pn = s0.pt s0.cur pn ∧
    (s0.pt s0.cur pn &&& PTE_W ≠ 0 →
      (∃ t, userWrite c (pn * PGSIZE + off) b (sfork set_pgfault_handler sys_exofork ctx s).2
          = some t ∧
        t.pt = (sfork set_pgfault_handler sys_exofork ctx s).2.pt ∧
        t.pd = (sfork set_pgfault_handler sys_exofork ctx s).2.pd ∧
        t.nextFree = (sfork set_pgfault_handler sys_exofork ctx s).2.nextFree ∧
        t.mem (pteFrame (s0.pt s0.cur pn)) off = b ∧
        (∀ f, f ≠ pteFrame (s0.pt s0.cur pn) →
          t.mem f = (sfork set_pgfault_handler sys_exofork ctx s).2.mem f) ∧
        userRead s0.cur (pn * PGSIZE + off) t = some b) ∧
      (∃ t, userWrite s0.cur (pn * PGSIZE + off) b
          (sfork set_pgfault_handler sys_exofork ctx s).2 = some t ∧
        t.pt = (sfork set_pgfault_handler sys_exofork ctx s).2.pt ∧
        t.pd = (sfork set_pgfault_handler sys_exofork ctx s).2.pd ∧
        t.nextFree = (sfork set_pgfault_handler sys_exofork ctx s).2.nextFree ∧
        t.mem (pteFrame (s0.pt s0.cur pn)) off = b ∧
        (∀ f, f ≠ pteFrame (s0.pt s0.cur pn) →
          t.mem f = (sfork set_pgfault_handler sys_exofork ctx s).2.mem f) ∧
        userRead c (pn * PGSIZE + off) t = some b)) := by
  obtain ⟨k1, k2, k3, k4⟩ :=
    sfork_shares_aux set_pgfault_handler sys_exofork ctx s c s0 he hc0 hc c hok pn hpn hs hx hf
      hpde hp
  refine ⟨by rw [k1], by rw [k1], k2, fun hW => ⟨?_, ?_⟩⟩
  · exact shared_write_observed c s0.cur pn off b _ _ hoff k3 k4 k1 k2 hp hW
  · exact shared_write_observed s0.cur c pn off b _ _ hoff k4 k3 k2 k1 hp hW

/-- Witness of `sfork_shares_pages`: the writable page `0x800` of `sharingSys`, shared with
the child 2 by a caller whose stack pointer is that of `pushCtx`; a store of `0x55` at
`0x800010` by the child is read back by the parent. -/
theorem sfork_shares_pages_witness :
    (sfork id (fun s => (2, s)) pushCtx sharingSys).2.pt 2 0x800 &&& 0xfff = 0x007 ∧
    pteFrame ((sfork id (fun s => (2, s)) pushCtx sharingSys).2.pt 2 0x800) = 5 ∧
    (∃ t, userWrite 2 (0x800 * PGSIZE + 0x10) 0x55
        (sfork id (fun s => (2, s)) pushCtx sharingSys).2 = some t ∧
      userRead 1 (0x800 * PGSIZE + 0x10) t = some 0x55) :=
  have h := sfork_shares_pages id (fun s => (2, s)) pushCtx sharingSys 2 sharingSys rfl
    (by decide) (by decide)
    (sfork_run id (fun s => (2, s)) pushCtx sharingSys 2 sharingSys rfl (by decide) (by decide)
      (fun _ => le_refl _) (by decide) (by decide) (by decide)).1
    0x800 (by decide) (by decide) (by decide) (by decide) (by decide) (by decide) 0x10 0x55
    (by decide)
  ⟨h.2.1, h.1, (h.2.2.2 (by decide)).1.elim fun t ht => ⟨t, ht.1, ht.2.2.2.2.2.2⟩⟩

/-- C10 (counterexample): a run of `sfork` on `sharingSys` for the child 2 that returns to the
parent.  The page `0x801` is present in the caller, below `UTOP` and neither stack page, but
copy-on-write and not writable: it is mapped in the child on the same frame with the same
permissions (`0x4805`), and a later store to it, by the child or by the parent, does not land
on the shared frame: it raises a page fault.  The page at `PFTEMP` is present in the caller,
below `UTOP` and neither stack page: the child gets the entry the caller had for it
(`0x2007`), but the caller's own entry is altered (`0x6007`), because the caller's first
store to the stack page that `sfork` has just made copy-on-write runs `pgfault`, which maps a
fresh frame at `PFTEMP`; afterwards the two processes map different frames there. -/
theorem sfork_page_not_shared :
    (sfork id (fun s => (2, s)) pushCtx sharingSys).1 = Res.ok 2 ∧
    (0x801 < UTOP / PGSIZE ∧ 0x801 ≠ PGNUM (USTACKTOP - PGSIZE) ∧
      0x801 ≠ PGNUM (UXSTACKTOP - PGSIZE) ∧
      sharingSys.pd 1 (PDX (0x801 * PGSIZE)) &&& PTE_P ≠ 0 ∧
      sharingSys.pt 1 0x801 &&& PTE_P ≠ 0 ∧
      (sfork id (fun s => (2, s)) pushCtx sharingSys).2.pt 2 0x801 = 0x4805 ∧
      (sfork id (fun s => (2, s)) pushCtx sharingSys).2.pt 1 0x801 = 0x4805 ∧
      userWrite 2 (0x801 * PGSIZE + 0x10) 0x55
        (sfork id (fun s => (2, s)) pushCtx sharingSys).2 = none ∧
      userWrite 1 (0x801 * PGSIZE + 0x10) 0x55
        (sfork id (fun s => (2, s)) pushCtx sharingSys).2 = none) ∧
    (PGNUM PFTEMP < UTOP / PGSIZE ∧ PGNUM PFTEMP ≠ PGNUM (USTACKTOP - PGSIZE) ∧
      PGNUM PFTEMP ≠ PGNUM (UXSTACKTOP - PGSIZE) ∧
      sharingSys.pd 1 (PDX PFTEMP) &&& PTE_P ≠ 0 ∧
      sharingSys.pt 1 (PGNUM PFTEMP) = 0x2007 ∧
      (sfork id (fun s => (2, s)) pushCtx sharingSys).2.pt 2 (PGNUM PFTEMP) = 0x2007 ∧
      (sfork id (fun s => (2, s)) pushCtx sharingSys).2.pt 1 (PGNUM PFTEMP) = 0x6007 ∧
      pteFrame ((sfork id (fun s => (2, s)) pushCtx sharingSys).2.pt 2 (PGNUM PFTEMP)) = 2 ∧
      pteFrame ((sfork id (fun s => (2, s)) pushCtx sharingSys).2.pt 1 (PGNUM PFTEMP)) = 6) := by
  obtain ⟨hok, hcaller, hchild⟩ := sfork_run id (fun s => (2, s)) pushCtx sharingSys 2
    sharingSys rfl (by decide) (by decide) (fun _ => le_refl _) (by decide) (by decide)
    (by decide)
  obtain ⟨k1, k2, -, -⟩ := sfork_shares_aux id (fun s => (2, s)) pushCtx sharingSys 2
    sharingSys rfl (by decide) (by decide) 2 hok 0x801 (by decide) (by decide) (by decide)
    (by decide) (by decide) (by decide)
  have hch := hchild (by decide) (by decide)
  have e1 : sharingSys.pt sharingSys.cur 0x801 = 0x4805 := by decide
  have e2 : sharingSys.cur = 1 := rfl
  have e3 : sharingSys.pt sharingSys.cur (PGNUM PFTEMP) = 0x2007 := by decide
  have e4 : mkpte sharingSys.nextFree (PTE_P ||| PTE_W ||| PTE_U) = 0x6007 := by decide
  rw [e1] at k1 k2
  rw [e2] at k2 hcaller
  rw [e3] at hch
  rw [e4] at hcaller
  have hpg : PGNUM (0x801 * PGSIZE + 0x10) = 0x801 := by decide
  refine ⟨hok, ⟨by decide, by decide, by decide, by decide, by decide, k1, k2, ?_, ?_⟩,
    ⟨by decide, by decide, by decide, by decide, by decide, hch, hcaller, ?_, ?_⟩⟩
  · unfold userWrite
    rw [hpg, k1, if_neg]
    rintro ⟨-, -, h⟩
    exact h (by decide)
  · unfold userWrite
    rw [hpg, k2, if_neg]
    rintro ⟨-, -, h⟩
    exact h (by decide)
  · rw [hch]
    decide
  · rw [hcaller]
    decide

/-! ## The dispatcher, the exception table and the remaining facts about the upcall -/

/-- C11: for every user-mode page fault of a process whose registered handler is NULL,
`page_fault_handler` reports the faulting address and the interrupted instruction pointer,
prints the context and destroys the process; it performs no writability check, writes no
user memory (neither a record nor a sentinel) and leaves the saved context, in particular
the saved stack pointer and instruction pointer, as it was. -/
theorem page_fault_handler_no_upcall (user_mem_check : Nat → Nat → Nat → Bool)
    (env_id fault_va : Nat) (tf : Trapframe) (huser : tf.tf_cs &&& 3 ≠ 0) :
    page_fault_handler user_mem_check env_id 0 fault_va tf =
      { tf := tf
        events := [KEvent.report env_id fault_va tf.tf_eip, KEvent.print_trapframe]
        fin := KEnd.destroyed } ∧
    (∀ e ∈ (page_fault_handler user_mem_check env_id 0 fault_va tf).events,
      e.checks = [] ∧ e.writes = []) ∧
    (page_fault_handler user_mem_check env_id 0 fault_va tf).tf.tf_esp = tf.tf_esp ∧
    (page_fault_handler user_mem_check env_id 0 fault_va tf).tf.tf_eip = tf.tf_eip := by
  have h : page_fault_handler user_mem_check env_id 0 fault_va tf =
      { tf := tf
        events := [KEvent.report env_id fault_va tf.tf_eip, KEvent.print_trapframe]
        fin := KEnd.destroyed } := by
    unfold page_fault_handler
    simp only [huser, if_false, if_true]
  rw [h]
  refine ⟨rfl, ?_, rfl, rfl⟩
  intro e he
  simp only [List.mem_cons, List.mem_singleton, List.not_mem_nil, or_false] at he
  rcases he with he | he <;> rw [he] <;> exact ⟨rfl, rfl⟩

/-- Witness of `page_fault_handler_no_upcall`: the user-mode fault `plainTf` of process
`0x1001`, which has no handler. -/
theorem page_fault_handler_no_upcall_witness :
    page_fault_handler (fun _ _ _ => true) 0x1001 0 0x800abc plainTf =
      { tf := plainTf
        events := [KEvent.report 0x1001 0x800abc 0x800123, KEvent.print_trapframe]
        fin := KEnd.destroyed } :=
  (page_fault_handler_no_upcall (fun _ _ _ => true) 0x1001 0x800abc plainTf (by decide)).1

theorem trap_dispatch_unrecognized_eq (user_mem_check : Nat → Nat → Nat → Bool)
    (syscall : Nat → Nat → Nat → Nat → Nat → Nat → Nat) (env_id upcall fault_va : Nat)
    (tf : Trapframe) (hun : ¬ recognized tf.tf_trapno) :
    trap_dispatch user_mem_check syscall env_id upcall fault_va tf =
      if tf.tf_cs = GD_KT then
        ⟨tf, [DEvent.print_trapframe], DEnd.panic "unhandled trap in kernel"⟩
      else ⟨tf, [DEvent.print_trapframe, DEvent.env_destroy], DEnd.returned⟩ := by
  unfold recognized at hun
  push_neg at hun
  obtain ⟨h1, h2, h3, h4, h5, h6, h7, h8⟩ := hun
  unfold trap_dispatch
  simp only [h1, h2, h3, h4, h5, h6, h7, h8, if_false]

theorem user_cs_ne_GD_KT (cs : Nat) (h : cs &&& 3 ≠ 0) : cs ≠ GD_KT := by
  intro hc
  rw [hc] at h
  exact h (by decide)

/-- C12: for every context snapshot whose trap number is unrecognized and whose code segment
is one a trap can save, `trap_dispatch` prints the context and panics whenever the trap was
taken in kernel mode, that is whenever the privilege bits of the saved code segment are 0 (the
test of `page_fault_handler` and `trap`), and prints the context, destroys the current process
and returns, without panicking, whenever it was taken in user mode.  The test the routine
itself makes, `tf_cs == GD_KT`, agrees with the privilege-bit test on these code segments, and
`GD_KT` is the selector every gate of `trap_init` loads. -/
theorem trap_dispatch_unrecognized (user_mem_check : Nat → Nat → Nat → Bool)
    (syscall : Nat → Nat → Nat → Nat → Nat → Nat → Nat) (env_id upcall fault_va : Nat)
    (tf : Trapframe) (hun : ¬ recognized tf.tf_trapno) (hcs : savedCodeSegment tf.tf_cs) :
    (tf.tf_cs &&& 3 = 0 →
      trap_dispatch user_mem_check syscall env_id upcall fault_va tf =
        ⟨tf, [DEvent.print_trapframe], DEnd.panic "unhandled trap in kernel"⟩) ∧
    (tf.tf_cs &&& 3 ≠ 0 →
      trap_dispatch user_mem_check syscall env_id upcall fault_va tf =
        ⟨tf, [DEvent.print_trapframe, DEvent.env_destroy], DEnd.returned⟩) ∧
    (tf.tf_cs = GD_KT ↔ tf.tf_cs &&& 3 = 0) ∧
    (∀ g ∈ trap_init, g.2.sel = GD_KT) := by
  have h := trap_dispatch_unrecognized_eq user_mem_check syscall env_id upcall fault_va tf hun
  have hiff : tf.tf_cs = GD_KT ↔ tf.tf_cs &&& 3 = 0 := by
    constructor
    · intro hk
      rw [hk]
      decide
    · intro h0
      rcases hcs with hk | h3
      · exact hk
      · rw [h0] at h3
        exact absurd h3 (by decide)
  refine ⟨fun hk => ?_, fun hu => ?_, hiff, by decide⟩
  · rw [h, if_pos (hiff.2 hk)]
  · rw [h, if_neg (user_cs_ne_GD_KT _ hu)]

/-- Witness of `trap_dispatch_unrecognized`: an illegal-opcode trap taken in user mode
(`userIllopTf`, code segment `0x1b`) destroys the process, and one taken in kernel mode
(`kernelIllopTf`, code segment `GD_KT`) panics. -/
theorem trap_dispatch_unrecognized_witness :
    trap_dispatch (fun _ _ _ => true) (fun _ _ _ _ _ _ => 0) 0x1001 0x800040 0 userIllopTf =
      ⟨userIllopTf, [DEvent.print_trapframe, DEvent.env_destroy], DEnd.returned⟩ ∧
    trap_dispatch (fun _ _ _ => true) (fun _ _ _ _ _ _ => 0) 0x1001 0x800040 0 kernelIllopTf =
      ⟨kernelIllopTf, [DEvent.print_trapframe], DEnd.panic "unhandled trap in kernel"⟩ :=
  ⟨(trap_dispatch_unrecognized (fun _ _ _ => true) (fun _ _ _ _ _ _ => 0) 0x1001 0x800040 0
      userIllopTf (by decide) (by decide)).2.1 (by decide),
   (trap_dispatch_unrecognized (fun _ _ _ => true) (fun _ _ _ _ _ _ => 0) 0x1001 0x800040 0
      kernelIllopTf (by decide) (by decide)).1 (by decide)⟩

/-- C13 (what the code does instead): no two gates installed by `trap_init` use the same
index and every index other than `T_DEFAULT` is below 256, but the gate for `T_DEFAULT` is
installed at index 500, which is not an index of the 256-entry table `idt`. -/
theorem trap_init_default_gate_out_of_table :
    trap_init_indices.Nodup ∧
    T_DEFAULT ∈ trap_init_indices ∧ ¬ T_DEFAULT < idt_entries ∧
    (∀ i ∈ trap_init_indices, i ≠ T_DEFAULT → i < idt_entries) ∧
    trap_init_indices.length = 36 := by
  decide

/-- C14: the requests `duppage` issues for page `pn`, in order.  None when its assertion or
its page-directory test fails; otherwise first the request that maps the page in the target
process; and after it, only when that request succeeded and the source entry has `PTE_W` or
`PTE_COW` set, the request that re-maps the page in the caller, with the same permission
value.  For a source entry with neither bit set the request for the target is the only
one. -/
theorem duppage_request_order (envid : Int) (pn : Nat) (s : Sys) :
    (duppage envid pn s).2.log =
      s.log ++
        (if ¬ wrap32 (pn * PGSIZE) < UTOP then []
         else if s.pd s.cur (PDX (wrap32 (pn * PGSIZE))) &&& PTE_P = 0 then []
         else if (sys_page_map s.cur (wrap32 (pn * PGSIZE)) envid (wrap32 (pn * PGSIZE))
            (duppagePerm (s.pt s.cur (PGNUM (wrap32 (pn * PGSIZE))))) s).1 < 0 then
          [Req.page_map s.cur (wrap32 (pn * PGSIZE)) envid (wrap32 (pn * PGSIZE))
            (duppagePerm (s.pt s.cur (PGNUM (wrap32 (pn * PGSIZE)))))]
         else if s.pt s.cur (PGNUM (wrap32 (pn * PGSIZE))) &&& (PTE_W ||| PTE_COW) ≠ 0 then
          [Req.page_map s.cur (wrap32 (pn * PGSIZE)) envid (wrap32 (pn * PGSIZE))
            (duppagePerm (s.pt s.cur (PGNUM (wrap32 (pn * PGSIZE))))),
           Req.page_map s.cur (wrap32 (pn * PGSIZE)) s.cur (wrap32 (pn * PGSIZE))
            (duppagePerm (s.pt s.cur (PGNUM (wrap32 (pn * PGSIZE)))))]
         else
          [Req.page_map s.cur (wrap32 (pn * PGSIZE)) envid (wrap32 (pn * PGSIZE))
            (duppagePerm (s.pt s.cur (PGNUM (wrap32 (pn * PGSIZE)))))]) := by
  unfold duppage
  simp only [sys_getenvid]
  by_cases hva : wrap32 (pn * PGSIZE) < UTOP
  · simp only [hva, not_true_eq_false, if_false]
    by_cases hpde : s.pd s.cur (PDX (wrap32 (pn * PGSIZE))) &&& PTE_P = 0
    · simp [hpde]
    · simp only [hpde, if_false]
      split
      · simp only [sys_page_map_log]
      · split
        · simp only [sys_page_map_log, List.append_assoc, List.singleton_append]
        · simp only [sys_page_map_log]
  · simp [hva]

theorem page_fault_handler_recursive_events (user_mem_check : Nat → Nat → Nat → Bool)
    (env_id upcall fault_va : Nat) (tf : Trapframe)
    (huser : tf.tf_cs &&& 3 ≠ 0) (hup : upcall ≠ 0)
    (hlo : UXSTACKTOP - PGSIZE ≤ tf.tf_esp) (hhi : tf.tf_esp < UXSTACKTOP)
    (hchk : user_mem_check (tf.tf_esp - 32 - sizeof_UTrapframe) sizeof_UTrapframe PTE_W = true) :
    (page_fault_handler user_mem_check env_id upcall fault_va tf).events =
      [KEvent.check (tf.tf_esp - 32 - sizeof_UTrapframe) sizeof_UTrapframe PTE_W,
       KEvent.store32 (tf.tf_esp - 32) 0,
       KEvent.storeUtf (tf.tf_esp - 32 - sizeof_UTrapframe)
        { utf_fault_va := fault_va, utf_err := tf.tf_err, utf_regs := tf.tf_regs,
          utf_eip := tf.tf_eip, utf_eflags := tf.tf_eflags, utf_esp := tf.tf_esp }] := by
  have h1 : sub32 tf.tf_esp 32 = tf.tf_esp - 32 :=
    sub32_of_le _ _ (by simp only [UXSTACKTOP, UTOP, PGSIZE] at hlo; omega)
      (by simp only [UXSTACKTOP, UTOP] at hhi; omega)
  have h2 : sub32 (tf.tf_esp - 32) sizeof_UTrapframe = tf.tf_esp - 32 - sizeof_UTrapframe :=
    sub32_of_le _ _ (by simp only [UXSTACKTOP, UTOP, PGSIZE, sizeof_UTrapframe] at hlo ⊢; omega)
      (by simp only [UXSTACKTOP, UTOP] at hhi; omega)
  have hr : (decide (tf.tf_esp < UXSTACKTOP ∧ tf.tf_esp ≥ UXSTACKTOP - PGSIZE)) = true := by
    simp [hlo, hhi]
  unfold page_fault_handler
  simp only [huser, hup, if_false, hr, if_true, h1, h2, hchk]
  simp

/-- In the non-recursive case every byte `page_fault_handler` writes lies inside the range it
handed to the writability check before. -/
theorem page_fault_handler_top_writes_checked (user_mem_check : Nat → Nat → Nat → Bool)
    (env_id upcall fault_va : Nat) (tf : Trapframe)
    (hout : ¬ (UXSTACKTOP - PGSIZE ≤ tf.tf_esp ∧ tf.tf_esp < UXSTACKTOP)) :
    writesChecked (page_fault_handler user_mem_check env_id upcall fault_va tf).events [] := by
  have hr : (decide (tf.tf_esp < UXSTACKTOP ∧ tf.tf_esp ≥ UXSTACKTOP - PGSIZE)) = false := by
    simp only [decide_eq_false_iff_not]
    intro h
    exact hout ⟨h.2, h.1⟩
  unfold page_fault_handler
  simp only [hr]
  by_cases h1 : tf.tf_cs &&& 3 = 0
  · simp [h1, writesChecked]
  · by_cases h2 : upcall = 0
    · simp [h1, h2, writesChecked, KEvent.writes]
    · by_cases h3 : user_mem_check (UXSTACKTOP - sizeof_UTrapframe) sizeof_UTrapframe PTE_W
          = false
      · simp [h1, h2, h3, writesChecked, KEvent.writes, KEvent.checks]
      · simp [h1, h2, h3, writesChecked, KEvent.writes, KEvent.checks, inside]
        decide

/-- C15 (what the code does instead): for every user-mode page fault with a registered
handler taken on the exception stack, the only range `page_fault_handler` hands to the
writability check is `[utrapframe, utrapframe + sizeof(struct UTrapframe))`, where
`utrapframe = tf_esp - 32 - sizeof(struct UTrapframe)`; the bytes of the record lie inside
it, but the four bytes of the sentinel word, written at `tf_esp - 32`, start where that range
ends and so lie outside it: not every byte written was validated. -/
theorem page_fault_handler_sentinel_unchecked (user_mem_check : Nat → Nat → Nat → Bool)
    (env_id upcall fault_va : Nat) (tf : Trapframe)
    (huser : tf.tf_cs &&& 3 ≠ 0) (hup : upcall ≠ 0)
    (hlo : UXSTACKTOP - PGSIZE ≤ tf.tf_esp) (hhi : tf.tf_esp < UXSTACKTOP)
    (hchk : user_mem_check (tf.tf_esp - 32 - sizeof_UTrapframe) sizeof_UTrapframe PTE_W = true) :
    (page_fault_handler user_mem_check env_id upcall fault_va tf).events.flatMap KEvent.checks =
      [(tf.tf_esp - 32 - sizeof_UTrapframe, sizeof_UTrapframe)] ∧
    (page_fault_handler user_mem_check env_id upcall fault_va tf).events.flatMap KEvent.writes =
      [(tf.tf_esp - 32, 4), (tf.tf_esp - 32 - sizeof_UTrapframe, sizeof_UTrapframe)] ∧
    inside (tf.tf_esp - 32 - sizeof_UTrapframe, sizeof_UTrapframe)
      (tf.tf_esp - 32 - sizeof_UTrapframe, sizeof_UTrapframe) ∧
    tf.tf_esp - 32 = tf.tf_esp - 32 - sizeof_UTrapframe + sizeof_UTrapframe ∧
    ¬ inside (tf.tf_esp - 32, 4) (tf.tf_esp - 32 - sizeof_UTrapframe, sizeof_UTrapframe) ∧
    ¬ writesChecked (page_fault_handler user_mem_check env_id upcall fault_va tf).events [] := by
  have hev := page_fault_handler_recursive_events user_mem_check env_id upcall fault_va tf
    huser hup hlo hhi hchk
  have hge : 84 ≤ tf.tf_esp := by simp only [UXSTACKTOP, UTOP, PGSIZE] at hlo; omega
  have hnot : ¬ inside (tf.tf_esp - 32, 4)
      (tf.tf_esp - 32 - sizeof_UTrapframe, sizeof_UTrapframe) := by
    simp only [inside, sizeof_UTrapframe]
    omega
  rw [hev]
  refine ⟨rfl, rfl, ⟨le_refl _, le_refl _⟩, ?_, hnot, ?_⟩
  · simp only [sizeof_UTrapframe]; omega
  · intro h
    simp only [writesChecked, KEvent.writes, KEvent.checks, List.nil_append, List.mem_singleton,
      List.not_mem_nil, false_and, exists_false, imp_false, forall_eq, exists_eq_left] at h
    exact hnot h.2.1

/-- Witness of `page_fault_handler_sentinel_unchecked`: the nested fault `nestedTf` with stack
pointer `0xeebffff0`; the range checked is `[0xeebfff9c, 0xeebfffd0)` and the sentinel is
written at `0xeebfffd0`. -/
theorem page_fault_handler_sentinel_unchecked_witness :
    (page_fault_handler (fun _ _ _ => true) 0x1001 0x800040 0x800abc nestedTf).events.flatMap
      KEvent.checks = [(0xeebfff9c, 52)] ∧
    (page_fault_handler (fun _ _ _ => true) 0x1001 0x800040 0x800abc nestedTf).events.flatMap
      KEvent.writes = [(0xeebfffd0, 4), (0xeebfff9c, 52)] ∧
    ¬ inside (0xeebfffd0, 4) (0xeebfff9c, 52) :=
  have h := page_fault_handler_sentinel_unchecked (fun _ _ _ => true) 0x1001 0x800040 0x800abc
    nestedTf (by decide) (by decide) (by decide) (by decide) rfl
  ⟨h.1, h.2.1, h.2.2.2.2.1⟩

end JOS
